import Mathlib

/-!
BookReview: the client request pipeline and refresh coordinator.

A shallow embedding of `client/src/api/axios.js`: the request interceptor, the
response interceptor's error handler, `refreshAccessToken`, the waiter queue
(`isRefreshing`, `refreshSubscribers`, `subscribeTokenRefresh`, `onRrefreshed`),
`clearAllAuthData` and `redirectToLogin`.

The browser runs this code on one thread.  Everything a handler does between two
suspension points (an `await` on the network or on a timer) is one transition of
the model; the continuations of `refreshAccessToken` and of the handler that
awaits it run in the same microtask checkpoint and form one transition.
-/

namespace BookReview

/-! ## Strings -/

/-- Does the text start with the pattern? (first argument: text, second: pattern) -/
def startsWithChars : List Char → List Char → Bool
  | _, [] => true
  | [], _ :: _ => false
  | c :: cs, p :: ps => c == p && startsWithChars cs ps

/-- Substring test on character lists, `String.prototype.includes`. -/
def includesChars : List Char → List Char → Bool
  | [], pat => startsWithChars [] pat
  | c :: cs, pat => startsWithChars (c :: cs) pat || includesChars cs pat

/-- The JavaScript `s.includes(pat)`. -/
def includes (s pat : String) : Bool :=
  includesChars s.toList pat.toList

/-- JavaScript white space and line terminators, the characters that `trim()`,
`parseInt` and the class `\s` of a pattern skip or match: U+0009 to U+000D, U+0020,
U+00A0, U+1680, U+2000 to U+200A, U+2028, U+2029, U+202F, U+205F, U+3000, U+FEFF. -/
def isJsWhiteSpace (c : Char) : Bool :=
  (decide (9 ≤ c.toNat) && decide (c.toNat ≤ 13)) || c.toNat == 32 || c.toNat == 160 ||
  c.toNat == 5760 || (decide (8192 ≤ c.toNat) && decide (c.toNat ≤ 8202)) ||
  c.toNat == 8232 || c.toNat == 8233 || c.toNat == 8239 || c.toNat == 8287 ||
  c.toNat == 12288 || c.toNat == 65279

/-- The `length` of a JavaScript string with these characters: the number of UTF-16
code units, two for a character above U+FFFF. -/
def utf16Length (cs : List Char) : Nat :=
  (cs.map (fun c => if c.toNat > 65535 then 2 else 1)).sum

/-- The JavaScript `url?.includes(pat)` used as a condition: an absent url is falsy. -/
def urlIncludes (url : Option String) (pat : String) : Bool :=
  match url with
  | none => false
  | some u => includes u pat

/-! ## localStorage -/

/-- The browser's `localStorage`: string keys bound to string values.  The order in
which keys are enumerated is not modelled; no operation of the pipeline depends on it.
Strings are sequences of Unicode characters (well-formed UTF-16). -/
abbrev Storage := List (String × String)

/-- The call `localStorage.getItem(key)`; `none` is JavaScript's `null`. -/
def getItem (s : Storage) (key : String) : Option String :=
  s.lookup key

/-- The call `localStorage.removeItem(key)`. -/
def removeItem (s : Storage) (key : String) : Storage :=
  s.filter (fun kv => kv.1 != key)

/-- The call `localStorage.setItem(key, value)`. -/
def setItem (s : Storage) (key value : String) : Storage :=
  (key, value) :: removeItem s key

/-- The lower-case form of one character, as far as a search for ASCII words can tell.
`A` to `Z` become `a` to `z`, the Kelvin sign U+212A becomes `k`, and the capital I
with a dot U+0130 becomes `i` followed by U+0307: these are the only characters whose
lower-case form holds an ASCII character.  Every other character is kept as it is; its
lower-case form, the same or another one, holds no ASCII character. -/
def toLowerCaseChar (c : Char) : List Char :=
  if c.toNat = 8490 then ['k']
  else if c.toNat = 304 then ['i', Char.ofNat 775]
  else [c.toLower]

/-- The characters of `key.toLowerCase()`, exact in every ASCII character of the result
and in its place among the others; see `toLowerCaseChar`.  It serves the tests
`key.toLowerCase().includes(word)` for ASCII words, which it decides as the code does. -/
def toLowerCaseChars (key : String) : List Char :=
  key.toList.flatMap toLowerCaseChar

/-- The test of `clearAllAuthData` on a key: its lower-cased form includes `token`,
`auth` or `user`. -/
def isAuthKey (key : String) : Bool :=
  includesChars (toLowerCaseChars key) "token".toList ||
  includesChars (toLowerCaseChars key) "auth".toList ||
  includesChars (toLowerCaseChars key) "user".toList

/-- The function `clearAllAuthData` of axios.js, lines 42-57. -/
def clearAllAuthData (s : Storage) : Storage :=
  let s1 := removeItem s "accessToken"
  let s2 := removeItem s1 "user"
  s2.filter (fun kv => !isAuthKey kv.1)

/-! ## Request configs and errors -/

/-- The fields of an axios request config that the pipeline reads or writes. -/
structure Config where
  /-- The field `config.url`. -/
  url : Option String
  /-- The header `config.headers.Authorization`. -/
  authorization : Option String
  /-- The field `config.__retryCount`; `none` is `undefined`. -/
  retryCount : Option Nat
  /-- The field `config.__isRetryRequest`; `false` also stands for `undefined`. -/
  isRetryRequest : Bool
  deriving DecidableEq

/-- The part of an error response that the handler reads. -/
structure Response where
  /-- The field `error.response.status`. -/
  status : Nat
  /-- The header `retry-after` as a number of seconds, when present and non-empty. -/
  retryAfter : Option Nat
  deriving DecidableEq

/-- The error the response interceptor receives: `error.config`, `error.response`. -/
structure AxiosError where
  config : Config
  response : Option Response
  deriving DecidableEq

/-- The object built on lines 148-152 of axios.js. -/
structure NetworkErrorObject where
  message : String
  code : String
  originalError : AxiosError
  deriving DecidableEq

/-- What the promise returned by the error handler is rejected with. -/
inductive Rejection where
  /-- The call `Promise.reject(error)`: the error the handler received. -/
  | original (error : AxiosError)
  /-- The rejection with the object of lines 148-152. -/
  | network (obj : NetworkErrorObject)
  deriving DecidableEq

/-- How the promise of one request ended for its caller. -/
inductive Settlement where
  | resolved
  | rejected (r : Rejection)
  deriving DecidableEq

/-- The constant `MAX_RETRY_ATTEMPTS`. -/
def MAX_RETRY_ATTEMPTS : Nat := 3

/-- The constant `RETRY_DELAY`, in milliseconds. -/
def RETRY_DELAY : Nat := 1000

/-- The function `addRetryFlag`: `config.__retryCount = config.__retryCount || 0`. -/
def addRetryFlag (config : Config) : Config :=
  { config with retryCount := some (config.retryCount.getD 0) }

/-- The request interceptor, lines 72-92 of axios.js (the `FormData` content type and
the debugging timestamp are not modelled). -/
def requestInterceptor (storage : Storage) (config : Config) : Config :=
  let config1 := addRetryFlag config
  match getItem storage "accessToken" with
  | some token =>
    if token != "" then { config1 with authorization := some ("Bearer " ++ token) } else config1
  | none => config1

/-! ## The pipeline state -/

/-- One request of the application while the pipeline holds it: its config, and how
many times `instance(config)` has been called for it, how many of those calls came
from the retry branches (network failure, 429, 5xx) and how many from a token
refresh.  The three counters are history variables; the code does not read them. -/
structure Req where
  config : Config
  sends : Nat
  retries : Nat
  refreshes : Nat
  deriving DecidableEq

/-- The body returned by `POST /auth/refresh`, or the failure of that call. -/
inductive RefreshReply where
  /-- The call `axios.post` rejected: an error status or no response. -/
  | failed
  /-- The call resolved; `success` is the truthiness of `response.data?.success`,
  `accessToken` is `response.data?.data?.accessToken`, `user` is the JSON text of
  `response.data.data.user` when that value is truthy. -/
  | ok (success : Bool) (accessToken : Option String) (user : Option String)
  deriving DecidableEq

/-- The module state of axios.js together with the requests it holds.
`isRefreshing`, `refreshSubscribers`, `storage` and `pathname` are program state
(`pathname` is `window.location.pathname`).  `inFlight` are the requests sent and not
yet answered, `timers` the handlers suspended in `await delay(ms)`, `awaitingRefresh`
the handlers suspended in `await refreshAccessToken()`.  The remaining fields record
what happened: the number of calls of `POST /auth/refresh`, the delays awaited, the
waiter callbacks invoked (by the ticket given at subscription) and how requests ended. -/
structure Pipeline where
  isRefreshing : Bool
  refreshSubscribers : List (Nat × Req)
  storage : Storage
  pathname : String
  inFlight : List Req
  timers : List (Nat × Req)
  awaitingRefresh : List (Req × AxiosError)
  refreshCalls : Nat
  delays : List Nat
  nextTicket : Nat
  invoked : List Nat
  settled : List (Req × Settlement)
  deriving DecidableEq

/-- The state of a freshly loaded page. -/
def Pipeline.start (storage : Storage) (pathname : String) : Pipeline :=
  { isRefreshing := false, refreshSubscribers := [], storage := storage,
    pathname := pathname, inFlight := [], timers := [], awaitingRefresh := [],
    refreshCalls := 0, delays := [], nextTicket := 0, invoked := [], settled := [] }

/-- The element at position `i` of a list together with the rest of the list. -/
def pick {α : Type} (l : List α) (i : Nat) : Option (α × List α) :=
  match l[i]? with
  | none => none
  | some a => some (a, l.eraseIdx i)

/-- The call `instance(config)`: the request interceptor runs on the config and the
request is sent.  The fields `__retryCount` and `__isRetryRequest` of the config are
carried over to the config of the new send, as axios merges unknown config keys. -/
def instanceCall (st : Pipeline) (q : Req) : Pipeline :=
  { st with inFlight := st.inFlight ++
      [{ q with config := requestInterceptor st.storage q.config, sends := q.sends + 1 }] }

/-- The function `redirectToLogin`, lines 60-69: assigning `window.location.href`
is recorded as the new pathname. -/
def redirectToLogin (st : Pipeline) : Pipeline :=
  let st1 := { st with storage := clearAllAuthData st.storage }
  if st1.pathname != "/login" && st1.pathname != "/register" then
    { st1 with pathname := "/login" }
  else st1

/-- The handler returns `Promise.reject(r)` for the request `q`. -/
def rejectWith (st : Pipeline) (q : Req) (r : Rejection) : Pipeline :=
  { st with settled := st.settled ++ [(q, Settlement.rejected r)] }

/-- The statement `config.__retryCount < MAX_RETRY_ATTEMPTS` (false for `undefined`). -/
def canRetry (config : Config) : Bool :=
  match config.retryCount with
  | none => false
  | some k => k < MAX_RETRY_ATTEMPTS

/-- The statement `config.__retryCount += 1`. -/
def bumpRetry (config : Config) : Config :=
  { config with retryCount := config.retryCount.map (· + 1) }

/-- The handler awaits `delay(ms)` and will then return `instance(config)`. -/
def scheduleRetry (st : Pipeline) (q : Req) (config : Config) (ms : Nat) : Pipeline :=
  { st with timers := st.timers ++ [(ms, { q with config := config, retries := q.retries + 1 })],
            delays := st.delays ++ [ms] }

/-- The waiter callback of lines 204-208 and the tail of the success path, lines
187-188: set the header and mark the config as a retried request. -/
def markRetried (token : String) (config : Config) : Config :=
  { config with authorization := some ("Bearer " ++ token), isRetryRequest := true }

/-- The re-send after a refresh: `markRetried` followed by `instance(config)`. -/
def resendAfterRefresh (token : String) (st : Pipeline) (q : Req) : Pipeline :=
  instanceCall st { q with config := markRetried token q.config, refreshes := q.refreshes + 1 }

/-- The function `onRrefreshed`, lines 27-30: every subscriber is called with the
token, in order, and the list is emptied. -/
def onRrefreshed (token : String) (st : Pipeline) : Pipeline :=
  let st1 := st.refreshSubscribers.foldl
    (fun s w => resendAfterRefresh token { s with invoked := s.invoked ++ [w.1] } w.2) st
  { st1 with refreshSubscribers := [] }

/-- The function `subscribeTokenRefresh` applied to the callback of lines 204-208,
which closes over the config of `q`. -/
def subscribeTokenRefresh (st : Pipeline) (q : Req) : Pipeline :=
  { st with refreshSubscribers := st.refreshSubscribers ++ [(st.nextTicket, q)],
            nextTicket := st.nextTicket + 1 }

/-- The statuses of the `case 500/502/503/504` labels. -/
def isServerErrorStatus (status : Nat) : Bool :=
  status == 500 || status == 502 || status == 503 || status == 504

/-- The error handler of the response interceptor, lines 137-244, up to its first
suspension point.  `q` is the request whose send failed and `response` is
`error.response`; `error.config` is `q.config`. -/
def onRejected (st : Pipeline) (q : Req) (response : Option Response) : Pipeline :=
  let error : AxiosError := { config := q.config, response := response }
  match response with
  | none =>
    if canRetry q.config then
      let config := bumpRetry q.config
      scheduleRetry st q config (RETRY_DELAY * config.retryCount.getD 0)
    else
      rejectWith st q (Rejection.network
        { message := "Network error. Please check your internet connection.",
          code := "NETWORK_ERROR", originalError := error })
  | some r =>
    if r.status == 401 then
      if urlIncludes q.config.url "/auth/" || q.config.isRetryRequest then
        rejectWith (redirectToLogin st) q (Rejection.original error)
      else if urlIncludes q.config.url "/auth/me" && st.pathname == "/" then
        rejectWith st q (Rejection.original error)
      else if !st.isRefreshing then
        { st with isRefreshing := true, refreshCalls := st.refreshCalls + 1,
                  awaitingRefresh := st.awaitingRefresh ++ [(q, error)] }
      else
        subscribeTokenRefresh st q
    else if r.status == 403 then
      rejectWith st q (Rejection.original error)
    else if r.status == 429 then
      if canRetry q.config then
        let config := bumpRetry q.config
        scheduleRetry st q config (r.retryAfter.getD 5 * 1000)
      else
        rejectWith st q (Rejection.original error)
    else if isServerErrorStatus r.status then
      if canRetry q.config then
        let config := bumpRetry q.config
        scheduleRetry st q config (RETRY_DELAY * 2 ^ (config.retryCount.getD 0 - 1))
      else
        rejectWith st q (Rejection.original error)
    else
      rejectWith st q (Rejection.original error)

/-- The function `refreshAccessToken` from the moment `axios.post` settles, lines
106-123: the new storage and the returned token, `none` when it throws. -/
def refreshAccessTokenSettle (storage : Storage) (reply : RefreshReply) :
    Storage × Option String :=
  match reply with
  | RefreshReply.ok true (some accessToken) user =>
    if accessToken != "" then
      let s1 := setItem storage "accessToken" accessToken
      match user with
      | some u => (setItem s1 "user" u, some accessToken)
      | none => (s1, some accessToken)
    else (clearAllAuthData storage, none)
  | _ => (clearAllAuthData storage, none)

/-- The handler of request `q` resumes after `await refreshAccessToken()`, lines
182-199, `error` being the 401 it was called with. -/
def onRefreshSettled (st : Pipeline) (q : Req) (error : AxiosError) (reply : RefreshReply) :
    Pipeline :=
  let res := refreshAccessTokenSettle st.storage reply
  let st1 := { st with storage := res.1 }
  match res.2 with
  | some newToken =>
    let st2 := { st1 with isRefreshing := false }
    let st3 := onRrefreshed newToken st2
    resendAfterRefresh newToken st3 q
  | none =>
    let st2 := { st1 with isRefreshing := false, refreshSubscribers := [] }
    let st3 := redirectToLogin st2
    rejectWith st3 q (Rejection.original error)

/-! ## Events -/

/-- What can happen to the pipeline from outside. -/
inductive Event where
  /-- The application calls the instance with a config of its own. -/
  | request (url : Option String) (authorization : Option String)
  /-- The request at position `i` of `inFlight` is answered with a success status. -/
  | success (i : Nat)
  /-- The request at position `i` of `inFlight` fails, with a response or without. -/
  | failure (i : Nat) (response : Option Response)
  /-- The timer at position `i` of `timers` fires. -/
  | timer (i : Nat)
  /-- The refresh call of the handler at position `i` of `awaitingRefresh` settles. -/
  | refresh (i : Nat) (reply : RefreshReply)
  /-- Other code of the page writes localStorage or the user navigates. -/
  | outside (storage : Storage) (pathname : String)
  deriving DecidableEq

/-- One transition of the pipeline. -/
def step (st : Pipeline) (ev : Event) : Pipeline :=
  match ev with
  | Event.request url authorization =>
    instanceCall st
      { config := { url := url, authorization := authorization, retryCount := none,
                    isRetryRequest := false },
        sends := 0, retries := 0, refreshes := 0 }
  | Event.success i =>
    match pick st.inFlight i with
    | none => st
    | some (q, rest) =>
      { st with inFlight := rest, settled := st.settled ++ [(q, Settlement.resolved)] }
  | Event.failure i response =>
    match pick st.inFlight i with
    | none => st
    | some (q, rest) => onRejected { st with inFlight := rest } q response
  | Event.timer i =>
    match pick st.timers i with
    | none => st
    | some (t, rest) => instanceCall { st with timers := rest } t.2
  | Event.refresh i reply =>
    match pick st.awaitingRefresh i with
    | none => st
    | some (h, rest) => onRefreshSettled { st with awaitingRefresh := rest } h.1 h.2 reply
  | Event.outside storage pathname =>
    { st with storage := storage, pathname := pathname }

/-- The state after a sequence of events. -/
def run (st : Pipeline) (evs : List Event) : Pipeline :=
  evs.foldl step st

/-- The states the pipeline can be in after the page has loaded. -/
def Reachable (st : Pipeline) : Prop :=
  ∃ storage pathname evs, st = run (Pipeline.start storage pathname) evs

/-! ## Invariants of the reachable states -/

/-- The bookkeeping of a request that has been sent: its retry counter is the number
of re-sends made by the retry branches, at most `MAX_RETRY_ATTEMPTS`; it was re-sent
after a refresh exactly when it is marked as a retried request; the number of sends is
the first send plus these re-sends. -/
def Req.Sent (q : Req) : Prop :=
  q.config.retryCount = some q.retries ∧ q.retries ≤ MAX_RETRY_ATTEMPTS ∧
  q.refreshes = (if q.config.isRetryRequest then 1 else 0) ∧
  q.sends = 1 + q.retries + q.refreshes

/-- The bookkeeping of a request waiting for its retry timer: the re-send that the
timer will make is already counted in `retries` and not yet in `sends`. -/
def Req.Scheduled (q : Req) : Prop :=
  q.config.retryCount = some q.retries ∧ q.retries ≤ MAX_RETRY_ATTEMPTS ∧
  q.refreshes = (if q.config.isRetryRequest then 1 else 0) ∧
  q.sends + 1 = 1 + q.retries + q.refreshes

/-- The bookkeeping of a request waiting for a refresh: sent, and not yet retried. -/
def Req.Waiting (q : Req) : Prop :=
  q.Sent ∧ q.config.isRetryRequest = false

/-- Every request the pipeline holds or has settled is counted correctly. -/
def Counted (st : Pipeline) : Prop :=
  (∀ q ∈ st.inFlight, q.Sent) ∧ (∀ t ∈ st.timers, t.2.Scheduled) ∧
  (∀ w ∈ st.refreshSubscribers, w.2.Waiting) ∧ (∀ h ∈ st.awaitingRefresh, h.1.Waiting) ∧
  (∀ s ∈ st.settled, s.1.Sent)

/-- The tickets of the waiters in the queue. -/
def Pipeline.queuedTickets (st : Pipeline) : List Nat :=
  st.refreshSubscribers.map Prod.fst

/-- The refresh coordinator's invariant: the flag is set exactly while one handler
awaits the refresh call, waiters are queued only while the flag is set, and no ticket
is both invoked and queued, or invoked or queued twice. -/
def Coordinated (st : Pipeline) : Prop :=
  (st.isRefreshing = true → st.awaitingRefresh.length = 1) ∧
  (st.isRefreshing = false → st.awaitingRefresh = [] ∧ st.refreshSubscribers = []) ∧
  (st.invoked ++ st.queuedTickets).Nodup ∧
  (∀ t ∈ st.invoked ++ st.queuedTickets, t < st.nextTicket)

/-- The request as `resendAfterRefresh` sends it when localStorage is `storage`. -/
def resentReq (token : String) (storage : Storage) (q : Req) : Req :=
  { config := requestInterceptor storage (markRetried token q.config),
    sends := q.sends + 1, retries := q.retries, refreshes := q.refreshes + 1 }

/-- The coordinator's fields of two states agree. -/
def SameCoordinator (st st' : Pipeline) : Prop :=
  st'.isRefreshing = st.isRefreshing ∧ st'.awaitingRefresh = st.awaitingRefresh ∧
  st'.refreshSubscribers = st.refreshSubscribers ∧ st'.invoked = st.invoked ∧
  st'.nextTicket = st.nextTicket ∧ st'.refreshCalls = st.refreshCalls

/-- Every request the pipeline holds or has settled. -/
def Pipeline.requests (st : Pipeline) : List Req :=
  st.inFlight ++ st.timers.map Prod.snd ++ st.refreshSubscribers.map Prod.snd ++
    st.awaitingRefresh.map Prod.fst ++ st.settled.map Prod.fst

/-- A 401 for the sent request `q` is handled, then the first awaited refresh call
settles with `reply`. -/
def refreshRound (st : Pipeline) (q : Req) (r : Response) (reply : RefreshReply) : Pipeline :=
  step (onRejected st q (some r)) (Event.refresh 0 reply)

/-! ## Example inputs -/

/-- A page at `/books` with a stored session and one unrelated key. -/
def exampleStart : Pipeline :=
  Pipeline.start [("accessToken", "old"), ("user", "u"), ("theme", "dark")] "/books"

/-- A request that has been sent once with the stored token. -/
def exampleReq (url : String) : Req :=
  { config := { url := some url, authorization := some "Bearer old",
                retryCount := some 0, isRetryRequest := false },
    sends := 1, retries := 0, refreshes := 0 }

/-- A 401 response. -/
def unauthorized : Response := { status := 401, retryAfter := none }

/-- A response with the given status and no `retry-after` header. -/
def statusOnly (status : Nat) : Response := { status := status, retryAfter := none }

/-- Two requests are sent, both are answered 401: the first starts the refresh, the
second is queued. -/
def twoUnauthorized : Pipeline :=
  run exampleStart
    [Event.request (some "/api/books") none, Event.request (some "/api/reviews/1") none,
     Event.failure 0 (some unauthorized), Event.failure 0 (some unauthorized)]

/-- The bootstrap probe: the page is at `/`, `GET /auth/me` has been sent. -/
def probeStart : Pipeline :=
  run (Pipeline.start [("accessToken", "old"), ("user", "u")] "/")
    [Event.request (some "/auth/me") none]

/-- One request that is answered 503, 500 and 429 (each followed by its retry), then
401, is re-sent after a successful refresh, and is answered 500 once more. -/
def fiveSends : Pipeline :=
  run exampleStart
    [Event.request (some "/api/books") none,
     Event.failure 0 (some (statusOnly 503)), Event.timer 0,
     Event.failure 0 (some (statusOnly 500)), Event.timer 0,
     Event.failure 0 (some (statusOnly 429)), Event.timer 0,
     Event.failure 0 (some unauthorized),
     Event.refresh 0 (RefreshReply.ok true (some "new") none),
     Event.failure 0 (some (statusOnly 500))]

/-- The events of a request whose every send fails without a response. -/
def networkFailures (url authorization : Option String) : List Event :=
  [Event.request url authorization,
   Event.failure 0 none, Event.timer 0,
   Event.failure 0 none, Event.timer 0,
   Event.failure 0 none, Event.timer 0,
   Event.failure 0 none]

/-! ## The auth service and the Auth Context (client) -/

/-- Truthiness of a string value that may be `null` or `undefined`: present and not
empty. -/
def truthy (v : Option String) : Bool :=
  match v with
  | none => false
  | some t => t != ""

/-- The function `isAuthenticated` of authService.js, lines 245-260.  `parses` tells
whether `JSON.parse` accepts a text; the result is the returned boolean and
localStorage after the call. -/
def isAuthenticated (parses : String → Bool) (s : Storage) : Bool × Storage :=
  let token := getItem s "accessToken"
  let user := getItem s "user"
  if !truthy token || !truthy user then (false, s)
  else if parses (user.getD "") then (true, s)
  else (false, clearAllAuthData s)

/-- The user object the server sends: `id`, `name`, `email`, `role`. -/
structure UserView where
  id : Nat
  name : String
  email : String
  role : String
  deriving DecidableEq

/-- A value found where a message is expected: a string, or the object
`{ message, status }` that the server's error handler sends under `error`. -/
inductive MessageValue where
  | text (s : String)
  | object (message : String) (status : Nat)
  deriving DecidableEq

/-- The object `errorDetails` that the auth service throws: `message`, `code`. -/
structure ErrorDetails where
  message : MessageValue
  code : String
  deriving DecidableEq

/-- The value `loginUser` and `registerUser` resolve with (`response.data`): the
fields `accessToken` and `user`. -/
structure AuthData where
  accessToken : String
  user : Option UserView
  deriving DecidableEq

/-- A call of `toast.success` or `toast.error`. -/
inductive Toast where
  | success (text : String)
  | error (message : MessageValue)
  deriving DecidableEq

/-- The React state of `AuthProvider`: `user`, `accessToken`, `loading`. -/
structure AuthState where
  user : Option UserView
  accessToken : Option String
  loading : Bool
  deriving DecidableEq

/-- The Auth Context with what it acts on: its state, localStorage, the toasts shown. -/
structure Client where
  state : AuthState
  storage : Storage
  toasts : List Toast
  deriving DecidableEq

/-- The JavaScript `text || fallback` on strings. -/
def orText (text fallback : String) : String :=
  if text != "" then text else fallback

/-- The JavaScript `value || fallback` for a string that may be `undefined`. -/
def orDefaultText (value : Option String) (fallback : String) : String :=
  match value with
  | some v => orText v fallback
  | none => fallback

/-- The JavaScript `message || fallback`: an empty string is falsy, an object is not. -/
def orMessage (message : MessageValue) (fallback : String) : MessageValue :=
  match message with
  | MessageValue.text s => MessageValue.text (orText s fallback)
  | MessageValue.object m status => MessageValue.object m status

/-- The name used in the welcome toast: `res.user?.name || 'user'`. -/
def welcomeName (user : Option UserView) : String :=
  match user with
  | none => "user"
  | some u => orText u.name "user"

/-- The common body of `login` and `register` of AuthContext.jsx, lines 94-144, from
the moment `loginUser` / `registerUser` settles with `res`; `c.storage` is localStorage
at that moment.  The result is the new client and the returned boolean. -/
def AuthContext.signIn (welcome failed : String) (c : Client)
    (res : Except ErrorDetails AuthData) : Client × Bool :=
  match res with
  | Except.ok data =>
    let storage := setItem c.storage "accessToken" data.accessToken
    let st1 : AuthState := { c.state with accessToken := some data.accessToken }
    let st2 : AuthState :=
      match data.user with
      | some u => { st1 with user := some u, loading := false }
      | none => st1
    ({ state := { st2 with loading := false }, storage := storage,
       toasts := c.toasts ++ [Toast.success (welcome ++ welcomeName data.user ++ "!")] }, true)
  | Except.error err =>
    ({ state := { user := none, accessToken := none, loading := false },
       storage := clearAllAuthData c.storage,
       toasts := c.toasts ++ [Toast.error (orMessage err.message failed)] }, false)

/-- The function `login` of AuthContext.jsx, lines 94-118. -/
def AuthContext.login (c : Client) (res : Except ErrorDetails AuthData) : Client × Bool :=
  AuthContext.signIn "Welcome back, " "Login failed." c res

/-- The function `register` of AuthContext.jsx, lines 120-144. -/
def AuthContext.register (c : Client) (res : Except ErrorDetails AuthData) : Client × Bool :=
  AuthContext.signIn "Welcome to BookReview, " "Registration failed." c res

/-- How `api.post('/auth/logout')` settles: resolved with `response.data` (the message
when the body has one), or rejected, whatever the status or the lack of a response. -/
inductive LogoutReply where
  | resolved (message : Option String)
  | rejected
  deriving DecidableEq

/-- The function `logoutUser` of authService.js, lines 202-219, from the moment the
call settles: localStorage afterwards and the value the promise resolves with, or the
error it rejects with. -/
def logoutUser (s : Storage) (reply : LogoutReply) : Storage × Except ErrorDetails String :=
  match reply with
  | LogoutReply.resolved message =>
    (clearAllAuthData s, Except.ok (if truthy message then message.getD "" else
      "Logged out successfully"))
  | LogoutReply.rejected => (clearAllAuthData s, Except.ok "Logged out successfully")

/-- The function `logout` of AuthContext.jsx, lines 146-162, from the moment the call
of `logoutUser` settles. -/
def AuthContext.logout (c : Client) (reply : LogoutReply) : Client :=
  let r := logoutUser c.storage reply
  match r.2 with
  | Except.ok _ =>
    { state := { user := none, accessToken := none, loading := false },
      storage := clearAllAuthData r.1,
      toasts := c.toasts ++ [Toast.success "Logged out successfully!"] }
  | Except.error _ =>
    { state := { user := none, accessToken := none, loading := false },
      storage := clearAllAuthData r.1,
      toasts := c.toasts ++ [Toast.error (MessageValue.text "Logout failed.")] }

/-! ## The auth service: errors and validators (client) -/

/-- The body of an error response as the client reads it: `response.data.message`
(a string) and `response.data.error` (a string or an object). -/
structure ErrorBody where
  message : Option String
  error : Option MessageValue
  deriving DecidableEq

/-- The error a `catch` of the auth service receives: an error without `response`
(an `Error` thrown in the function itself, or a rejection that carries no response),
or an axios error with a response.  `message` is `error.message`. -/
inductive CaughtError where
  | plain (message : String)
  | response (status : Nat) (body : ErrorBody) (message : String)
  deriving DecidableEq

/-- The function `parseErrorMessage` of authService.js, lines 32-43. -/
def parseErrorMessage (error : CaughtError) : MessageValue :=
  let fromError (message : String) : MessageValue :=
    if message != "" then MessageValue.text message
    else MessageValue.text "An unexpected error occurred"
  match error with
  | CaughtError.plain message => fromError message
  | CaughtError.response _ body message =>
    if truthy body.message then MessageValue.text (body.message.getD "")
    else
      match body.error with
      | some (MessageValue.object m status) => MessageValue.object m status
      | some (MessageValue.text e) => if e != "" then MessageValue.text e else fromError message
      | none => fromError message

/-- The function `handleNetworkError` of authService.js, lines 46-73. -/
def handleNetworkError (error : CaughtError) : ErrorDetails :=
  match error with
  | CaughtError.plain _ =>
    { message := MessageValue.text "Network error. Please check your internet connection.",
      code := "NETWORK_ERROR" }
  | CaughtError.response status _ _ =>
    if status = 400 then { message := parseErrorMessage error, code := "VALIDATION_ERROR" }
    else if status = 401 then
      { message := MessageValue.text "Invalid credentials", code := "UNAUTHORIZED" }
    else if status = 403 then
      { message := MessageValue.text "Access forbidden", code := "FORBIDDEN" }
    else if status = 409 then
      { message := MessageValue.text "Account already exists", code := "CONFLICT" }
    else if status = 429 then
      { message := MessageValue.text "Too many requests. Please try again later.",
        code := "RATE_LIMIT" }
    else if status = 500 then
      { message := MessageValue.text "Server error. Please try again later.",
        code := "SERVER_ERROR" }
    else { message := parseErrorMessage error, code := "UNKNOWN_ERROR" }

/-- The characters of `text.trim()`. -/
def trimChars (cs : List Char) : List Char :=
  ((cs.dropWhile isJsWhiteSpace).reverse.dropWhile isJsWhiteSpace).reverse

/-- The class `[^\s@]` of the email pattern. -/
def emailChar (c : Char) : Bool :=
  !isJsWhiteSpace c && c != '@'

/-- The pattern of `validateEmail`, line 11: one or more `emailChar`, an `@`, one or
more `emailChar`, a dot, one or more `emailChar`, and nothing else. -/
def emailPattern (cs : List Char) : Bool :=
  let localPart := cs.takeWhile (fun c => c != '@')
  match cs.dropWhile (fun c => c != '@') with
  | [] => false
  | _ :: domain =>
    !localPart.isEmpty && localPart.all emailChar && domain.all emailChar &&
      ((domain.drop 1).dropLast).contains '.'

/-- The function `validateEmail`, lines 9-13; `none` is a value that is not a string. -/
def validateEmail (email : Option String) : Bool :=
  match email with
  | none => false
  | some e => e != "" && emailPattern (trimChars e.toList)

/-- The function `validatePassword`, lines 15-18. -/
def validatePassword (password : Option String) : Bool :=
  match password with
  | none => false
  | some p => p != "" && decide (utf16Length p.toList ≥ 6)

/-- The function `validateName`, lines 20-23. -/
def validateName (name : Option String) : Bool :=
  match name with
  | none => false
  | some n => n != "" && decide (utf16Length (trimChars n.toList) ≥ 2)

/-- A field of a request body, named by how the auth service builds it from the
argument: the value as it is, `sanitizeInput(value)` (lines 26-29: `trim()`, then
`slice(0, 1000)`), or `sanitizeInput(value).toLowerCase()`. -/
inductive BodyValue where
  | raw (value : String)
  | sanitized (value : String)
  | sanitizedLowerCase (value : String)
  deriving DecidableEq

/-- The fields of the argument of `registerUser` and `loginUser`; `none` is a value
that is not a string.  Strings are sequences of Unicode characters (well-formed
UTF-16). -/
structure Credentials where
  name : Option String
  email : Option String
  password : Option String
  deriving DecidableEq

/-- A call `api.post(url, body)`. -/
structure ApiRequest where
  url : String
  body : List (String × BodyValue)
  deriving DecidableEq

/-- How a call of the api instance for register or login settles: resolved with
`response.data` (`none` when there is no body), or rejected. -/
inductive AuthReply where
  | resolved (data : Option (Option String × Option UserView))
  | rejected (error : CaughtError)
  deriving DecidableEq

/-- What a function of the auth service did: the requests it sent and how it ended. -/
structure ServiceResult where
  requests : List ApiRequest
  result : Except ErrorDetails AuthData

/-- The end of `registerUser` and `loginUser` after the request `request` was sent:
the response structure is checked, every error goes through `handleNetworkError`. -/
def afterPost (request : ApiRequest) (reply : AuthReply) : ServiceResult :=
  match reply with
  | AuthReply.rejected error =>
    { requests := [request], result := Except.error (handleNetworkError error) }
  | AuthReply.resolved (some (some accessToken, some user)) =>
    if accessToken != "" then
      { requests := [request],
        result := Except.ok { accessToken := accessToken, user := some user } }
    else
      { requests := [request],
        result := Except.error
          (handleNetworkError (CaughtError.plain "Invalid response from server")) }
  | AuthReply.resolved _ =>
    { requests := [request],
      result := Except.error
        (handleNetworkError (CaughtError.plain "Invalid response from server")) }

/-- An `Error` thrown before any request: it is caught by the `catch` of the same
function and goes through `handleNetworkError`. -/
def thrownBeforeRequest (message : String) : ServiceResult :=
  { requests := [], result := Except.error (handleNetworkError (CaughtError.plain message)) }

/-- The function `registerUser` of authService.js, lines 76-117; `userData` is `none`
when the argument is not an object, `post` tells how the request settles. -/
def registerUser (userData : Option Credentials) (post : ApiRequest → AuthReply) :
    ServiceResult :=
  match userData with
  | none => thrownBeforeRequest "Invalid user data provided"
  | some d =>
    if !validateName d.name then
      thrownBeforeRequest "Name must be at least 2 characters long"
    else if !validateEmail d.email then
      thrownBeforeRequest "Please enter a valid email address"
    else if !validatePassword d.password then
      thrownBeforeRequest "Password must be at least 6 characters long"
    else
      let request : ApiRequest :=
        { url := "/auth/register",
          body := [("name", BodyValue.sanitized (d.name.getD "")),
                   ("email", BodyValue.sanitizedLowerCase (d.email.getD "")),
                   ("password", BodyValue.raw (d.password.getD ""))] }
      afterPost request (post request)

/-- The function `loginUser` of authService.js, lines 120-155. -/
def loginUser (credentials : Option Credentials) (post : ApiRequest → AuthReply) :
    ServiceResult :=
  match credentials with
  | none => thrownBeforeRequest "Invalid credentials provided"
  | some d =>
    if !validateEmail d.email then
      thrownBeforeRequest "Please enter a valid email address"
    else if !truthy d.password then
      thrownBeforeRequest "Password is required"
    else
      let request : ApiRequest :=
        { url := "/auth/login",
          body := [("email", BodyValue.sanitizedLowerCase (d.email.getD "")),
                   ("password", BodyValue.raw (d.password.getD ""))] }
      afterPost request (post request)

/-- The error `err` that the server's `errorHandler` receives: `err.status` and
`err.message`. -/
structure ServerError where
  status : Option Nat
  message : Option String
  deriving DecidableEq

/-- The response of `errorHandler`: the status and the body
`{ success: false, error: { message, status } }`. -/
structure ErrorResponse where
  status : Nat
  success : Bool
  error : MessageValue
  deriving DecidableEq

/-- The function `errorHandler` of errorHandler.js: `err.status || 500`,
`err.message || 'Internal Server Error'`. -/
def errorHandler (err : ServerError) : ErrorResponse :=
  let status := match err.status with
    | some n => if n != 0 then n else 500
    | none => 500
  let message := orDefaultText err.message "Internal Server Error"
  { status := status, success := false, error := MessageValue.object message status }

/-- The axios error the client catches for an error response of the server: the
status, the body with no top-level `message` and the object under `error`. -/
def ErrorResponse.caught (r : ErrorResponse) (axiosMessage : String) : CaughtError :=
  CaughtError.response r.status { message := none, error := some r.error } axiosMessage

/-! ## The server: secrets and tokens -/

/-- The variables of `process.env` that the auth code reads; `none` is `undefined`. -/
structure Env where
  JWT_SECRET : Option String
  JWT_REFRESH_SECRET : Option String
  NODE_ENV : Option String
  deriving DecidableEq

/-- The JavaScript `value || fallback` for a string that may be `undefined`. -/
def orDefault (value : Option String) (fallback : String) : String :=
  match value with
  | some v => if v != "" then v else fallback
  | none => fallback

/-- The constant `JWT_SECRET` of jwtUtils.js, line 3; `loadEnv` is `process.env` at
the time the module is evaluated. -/
def JWT_SECRET (loadEnv : Env) : String :=
  orDefault loadEnv.JWT_SECRET
    "ebf1c6e69a0488e7e80f1efa1ed4f75af2f7158462a6f0004c9a1648b52c2d27"

/-- The constant `JWT_REFRESH_SECRET` of jwtUtils.js, line 4. -/
def JWT_REFRESH_SECRET (loadEnv : Env) : String :=
  orDefault loadEnv.JWT_REFRESH_SECRET
    "cab514622fdb64f238aa2d530a51a47043cb93d2afb6f011a99a84ab403a942b"

/-- A JSON web token, symbolically: the `userId` of its payload, the secret it was
signed with and its `exp` claim, in seconds. -/
structure Jwt where
  userId : Nat
  signedWith : String
  expiresAt : Nat
  deriving DecidableEq

/-- The text found in a cookie or after `Bearer `: the compact form of a token, or
any other text. -/
inductive TokenText where
  | jwt (token : Jwt)
  | other (text : String)
  deriving DecidableEq

/-- The lifetime `expiresIn: '30m'` in seconds. -/
def ACCESS_LIFETIME : Nat := 30 * 60

/-- The lifetime `expiresIn: '7d'` in seconds. -/
def REFRESH_LIFETIME : Nat := 7 * 24 * 60 * 60

/-- The call `jwt.sign({ userId }, secret, { expiresIn })` at time `now` (seconds). -/
def jwtSign (userId : Nat) (secret : String) (lifetime now : Nat) : Jwt :=
  { userId := userId, signedWith := secret, expiresAt := now + lifetime }

/-- The call `jwt.verify(token, secret)` at time `now`: the decoded token when the
text is a token signed with that (non-empty) secret and not expired; `none` when it
throws. -/
def jwtVerify (text : TokenText) (secret : String) (now : Nat) : Option Jwt :=
  match text with
  | TokenText.other _ => none
  | TokenText.jwt token =>
    if secret != "" && token.signedWith == secret && decide (now < token.expiresAt)
    then some token else none

/-- The function `generateAccessToken` of jwtUtils.js. -/
def generateAccessToken (loadEnv : Env) (now userId : Nat) : Jwt :=
  jwtSign userId (JWT_SECRET loadEnv) ACCESS_LIFETIME now

/-- The function `generateRefreshToken` of jwtUtils.js. -/
def generateRefreshToken (loadEnv : Env) (now userId : Nat) : Jwt :=
  jwtSign userId (JWT_REFRESH_SECRET loadEnv) REFRESH_LIFETIME now

/-- The function `verifyToken(token, secret = JWT_SECRET)` of jwtUtils.js: the
default applies when the argument is `undefined`. -/
def verifyToken (loadEnv : Env) (now : Nat) (token : TokenText) (secret : Option String) :
    Option Jwt :=
  jwtVerify token (secret.getD (JWT_SECRET loadEnv)) now

/-! ## The server: handlers -/

/-- A user document: `_id`, `name`, `email`, `role`, `password`. -/
structure User where
  id : Nat
  name : String
  email : String
  role : String
  password : String
  deriving DecidableEq

/-- How a query for one user settles: the document, `null`, or a rejection with the
message of the error. -/
inductive Lookup where
  | found (user : User)
  | missing
  | failed (message : String)
  deriving DecidableEq

/-- The options object passed to `res.cookie`. -/
structure CookieOptions where
  httpOnly : Bool
  sameSite : String
  secure : Bool
  path : String
  maxAge : Nat
  deriving DecidableEq

/-- A call `res.cookie(name, value, options)`. -/
structure SetCookie where
  name : String
  value : Jwt
  options : CookieOptions
  deriving DecidableEq

/-- How a handler ends: `next(createError(status, message))`, or
`res.status(status).json(body)`. -/
inductive Outcome (β : Type) where
  | next (status : Nat) (message : String)
  | json (status : Nat) (body : β)
  deriving DecidableEq

/-- What a handler did: the cookies it set and how it ended. -/
structure Reply (β : Type) where
  cookies : List SetCookie
  outcome : Outcome β
  deriving DecidableEq

/-- The body of a successful register or login. -/
structure AuthBody where
  message : String
  accessToken : Jwt
  user : UserView
  deriving DecidableEq

/-- The body of a successful refresh: `success` and `data`. -/
structure RefreshBody where
  success : Bool
  accessToken : Jwt
  user : UserView
  deriving DecidableEq

/-- The body of a successful `GET /auth/me`. -/
structure MeBody where
  success : Bool
  data : UserView
  deriving DecidableEq

/-- The object with `id: user._id`, `name`, `email`, `role` that the handlers send. -/
def userView (user : User) : UserView :=
  { id := user.id, name := user.name, email := user.email, role := user.role }

/-- The test `process.env.NODE_ENV === 'production'`. -/
def isProduction (env : Env) : Bool :=
  env.NODE_ENV == some "production"

/-- The handler `register` of authController.js, lines 8-55.  `valid` is
`errors.isEmpty()`, `findOne` answers `User.findOne({ email })`, `save` is how
`user.save()` of the new document settles (the saved document, or the error message). -/
def Controller.register (loadEnv requestEnv : Env) (now : Nat) (valid : Bool)
    (email : String) (findOne : String → Lookup) (save : Except String User) :
    Reply AuthBody :=
  if !valid then { cookies := [], outcome := Outcome.next 400 "Validation failed" }
  else
    match findOne email with
    | Lookup.failed m => { cookies := [], outcome := Outcome.next 500 (orText m "Server error") }
    | Lookup.found _ => { cookies := [], outcome := Outcome.next 400 "Email already registered" }
    | Lookup.missing =>
      match save with
      | Except.error m =>
        { cookies := [], outcome := Outcome.next 500 (orText m "Server error") }
      | Except.ok user =>
        let accessToken := generateAccessToken loadEnv now user.id
        let refreshToken := generateRefreshToken loadEnv now user.id
        { cookies := [{ name := "refreshToken", value := refreshToken,
                        options := { httpOnly := true,
                                     sameSite := if isProduction requestEnv then "strict" else "lax",
                                     secure := isProduction requestEnv,
                                     path := "/",
                                     maxAge := 7 * 24 * 60 * 60 * 1000 } }],
          outcome := Outcome.json 201
            { message := "User registered successfully", accessToken := accessToken,
              user := userView user } }

/-- The handler `login` of authController.js, lines 58-107.  `comparePassword` answers
`user.comparePassword(password)` (the User model is not among the sources). -/
def Controller.login (loadEnv requestEnv : Env) (now : Nat) (valid : Bool)
    (email password : String) (findOne : String → Lookup)
    (comparePassword : User → String → Except String Bool) : Reply AuthBody :=
  if !valid then { cookies := [], outcome := Outcome.next 400 "Validation failed" }
  else
    match findOne email with
    | Lookup.failed m => { cookies := [], outcome := Outcome.next 500 (orText m "Server error") }
    | Lookup.missing => { cookies := [], outcome := Outcome.next 401 "Invalid credentials" }
    | Lookup.found user =>
      match comparePassword user password with
      | Except.error m =>
        { cookies := [], outcome := Outcome.next 500 (orText m "Server error") }
      | Except.ok false => { cookies := [], outcome := Outcome.next 401 "Invalid credentials" }
      | Except.ok true =>
        let accessToken := generateAccessToken loadEnv now user.id
        let refreshToken := generateRefreshToken loadEnv now user.id
        { cookies := [{ name := "refreshToken", value := refreshToken,
                        options := { httpOnly := true,
                                     sameSite := if isProduction requestEnv then "strict" else "lax",
                                     secure := isProduction requestEnv,
                                     path := "/",
                                     maxAge := 7 * 24 * 60 * 60 * 1000 } }],
          outcome := Outcome.json 200
            { message := "Login successful", accessToken := accessToken,
              user := userView user } }

/-- Truthiness of `req.cookies.refreshToken`: present and not the empty text. -/
def cookiePresent (cookie : Option TokenText) : Bool :=
  match cookie with
  | none => false
  | some (TokenText.other text) => text != ""
  | some (TokenText.jwt _) => true

/-- The handler `refreshToken` of authController.js, lines 109-156.  `cookie` is
`req.cookies.refreshToken`, `requestEnv` is `process.env` when the request is handled,
`findById` answers `User.findById(payload.userId)`. -/
def Controller.refreshToken (loadEnv requestEnv : Env) (now : Nat)
    (cookie : Option TokenText) (findById : Nat → Lookup) : Reply RefreshBody :=
  if !cookiePresent cookie then
    { cookies := [], outcome := Outcome.next 401 "Refresh token missing" }
  else
    match verifyToken loadEnv now (cookie.getD (TokenText.other ""))
        requestEnv.JWT_REFRESH_SECRET with
    | none => { cookies := [], outcome := Outcome.next 403 "Invalid or expired refresh token" }
    | some payload =>
      match findById payload.userId with
      | Lookup.failed _ =>
        { cookies := [], outcome := Outcome.next 500 "Server error during token refresh" }
      | Lookup.missing => { cookies := [], outcome := Outcome.next 401 "User not found" }
      | Lookup.found user =>
        { cookies := [],
          outcome := Outcome.json 200
            { success := true, accessToken := generateAccessToken loadEnv now user.id,
              user := userView user } }

/-- The value of the `Authorization` request header: `Bearer ` followed by a token
text, or any other text. -/
inductive AuthorizationHeader where
  | bearer (credentials : TokenText)
  | other (text : String)
  deriving DecidableEq

/-- The middleware `verifyAccessToken` of authMiddleware.js, lines 5-18: the id it
puts in `req.user`, or the status and message it passes to `next`. -/
def verifyAccessToken (loadEnv : Env) (now : Nat) (header : Option AuthorizationHeader) :
    Except (Nat × String) Nat :=
  match header with
  | none => Except.error (401, "No token provided")
  | some (AuthorizationHeader.other text) =>
    if startsWithChars text.toList "Bearer ".toList then
      Except.error (401, "Invalid or expired token")
    else Except.error (401, "No token provided")
  | some (AuthorizationHeader.bearer credentials) =>
    match verifyToken loadEnv now credentials none with
    | some decoded => Except.ok decoded.userId
    | none => Except.error (401, "Invalid or expired token")

/-- The route `GET /me` of authRoutes.js, lines 48-64, behind `verifyAccessToken`. -/
def Routes.me (loadEnv : Env) (now : Nat) (header : Option AuthorizationHeader)
    (findById : Nat → Lookup) : Reply MeBody :=
  match verifyAccessToken loadEnv now header with
  | Except.error e => { cookies := [], outcome := Outcome.next e.1 e.2 }
  | Except.ok id =>
    match findById id with
    | Lookup.failed m => { cookies := [], outcome := Outcome.next 500 (orText m "Server error") }
    | Lookup.missing => { cookies := [], outcome := Outcome.next 404 "User not found" }
    | Lookup.found user =>
      { cookies := [], outcome := Outcome.json 200 { success := true, data := userView user } }

/-! ## Example inputs of the server -/

/-- An environment without `JWT_REFRESH_SECRET`. -/
def envWithoutRefreshSecret : Env :=
  { JWT_SECRET := some "access-secret", JWT_REFRESH_SECRET := none,
    NODE_ENV := some "production" }

/-- An environment in which no variable is set. -/
def envEmpty : Env :=
  { JWT_SECRET := none, JWT_REFRESH_SECRET := none, NODE_ENV := none }

/-- An environment with both secrets set, to different values. -/
def envBothSet : Env :=
  { JWT_SECRET := some "access-secret", JWT_REFRESH_SECRET := some "refresh-secret",
    NODE_ENV := some "production" }

/-- An environment in which both secrets are set to the same value. -/
def envSameSecret : Env :=
  { JWT_SECRET := some "one-secret", JWT_REFRESH_SECRET := some "one-secret",
    NODE_ENV := none }

/-- A user of the database. -/
def ann : User :=
  { id := 7, name := "Ann", email := "ann@example.org", role := "user", password := "hash" }

/-- A database that holds `ann` only. -/
def annOnly (id : Nat) : Lookup :=
  if id = 7 then Lookup.found ann else Lookup.missing

/-- A database that finds `ann` by her email only. -/
def annByEmail (email : String) : Lookup :=
  if email = "ann@example.org" then Lookup.found ann else Lookup.missing

/-- A password check that accepts. -/
def acceptPassword (_ : User) (_ : String) : Except String Bool :=
  Except.ok true

/-! ## The pagination component (client) -/

/-- The JavaScript `Array.from({ length }, (_, i) => f(i))`; a length below 0 counts
as 0. -/
def arrayFrom (length : Int) (f : Nat → Int) : List Int :=
  (List.range length.toNat).map f

/-- The function `getVisiblePages` of Pagination.jsx, lines 14-28; `half` is
`Math.floor(maxVisiblePages / 2)`. -/
def getVisiblePages (currentPage totalPages maxVisiblePages : Int) : List Int :=
  if totalPages ≤ maxVisiblePages then
    arrayFrom totalPages (fun i => (i : Int) + 1)
  else
    let half := maxVisiblePages / 2
    let start := max (currentPage - half) 1
    let stop := min (start + maxVisiblePages - 1) totalPages
    let start2 := if stop - start + 1 < maxVisiblePages then max (stop - maxVisiblePages + 1) 1
                  else start
    arrayFrom (stop - start2 + 1) (fun i => start2 + (i : Int))

/-! ## The server: list queries -/

/-- A value of `req.query`: absent, a string, an array of strings, or a nested object. -/
inductive QueryValue where
  | absent
  | text (s : String)
  | list (items : List String)
  | object
  deriving DecidableEq

/-- The string that `parseInt` makes of a value that is not `undefined`. -/
def QueryValue.toText (v : QueryValue) : String :=
  match v with
  | QueryValue.absent => "undefined"
  | QueryValue.text s => s
  | QueryValue.list items => String.intercalate "," items
  | QueryValue.object => "[object Object]"

/-- The number written by a list of decimal digits. -/
def digitsValue (digits : List Char) : Nat :=
  digits.foldl (fun acc c => 10 * acc + (c.toNat - 48)) 0

set_option exponentiation.threshold 2048

/-- A JavaScript Number whose value is NaN, an integer or infinite; `fin 0` stands for
both zeros.  A finite value is a double: an integer of at most 53 binary digits followed
by zeros, below 2^1024. -/
inductive JsNumber where
  | nan
  | negInf
  | fin (n : Int)
  | posInf
  deriving DecidableEq

/-- The search of `bitLength`: the least `k` at or above the given one with `n < 2^k`,
within `fuel` steps. -/
def bitsFrom : Nat → Nat → Nat → Nat
  | 0, _, k => k
  | fuel + 1, n, k => if n < 2 ^ k then k else bitsFrom fuel n (k + 1)

/-- The number of binary digits of `n`: the least `k` with `n < 2^k`. -/
def bitLength (n : Nat) : Nat :=
  bitsFrom n n 0

/-- The integer nearest to `a / b`, the even one of two that are equally near. -/
def roundHalfEven (a b : Nat) : Nat :=
  if 2 * (a % b) > b ∨ (2 * (a % b) = b ∧ (a / b) % 2 = 1) then a / b + 1 else a / b

/-- The double nearest to the natural number `n`, the one with the even mantissa of two
that are equally near; `none` when that is Infinity.  Every number up to 2^53 is a
double; above, `n` is rounded to 53 binary digits. -/
def roundNat (n : Nat) : Option Nat :=
  if n ≤ 2 ^ 53 then some n
  else
    let e := bitLength n - 53
    let m := roundHalfEven n (2 ^ e)
    if m * 2 ^ e < 2 ^ 1024 then some (m * 2 ^ e) else none

/-- The Number for an integer: the nearest double, or an infinity. -/
def toNumber (z : Int) : JsNumber :=
  match roundNat z.natAbs with
  | some m => if z < 0 then JsNumber.fin (-(m : Int)) else JsNumber.fin m
  | none => if z < 0 then JsNumber.negInf else JsNumber.posInf

/-- The JavaScript `a - b`. -/
def JsNumber.sub (a b : JsNumber) : JsNumber :=
  match a, b with
  | JsNumber.nan, _ => JsNumber.nan
  | _, JsNumber.nan => JsNumber.nan
  | JsNumber.posInf, JsNumber.posInf => JsNumber.nan
  | JsNumber.negInf, JsNumber.negInf => JsNumber.nan
  | JsNumber.posInf, _ => JsNumber.posInf
  | JsNumber.negInf, _ => JsNumber.negInf
  | JsNumber.fin _, JsNumber.posInf => JsNumber.negInf
  | JsNumber.fin _, JsNumber.negInf => JsNumber.posInf
  | JsNumber.fin x, JsNumber.fin y => toNumber (x - y)

/-- The sign of a Number: -1, 0 or 1 (0 for NaN). -/
def JsNumber.sign (a : JsNumber) : Int :=
  match a with
  | JsNumber.nan => 0
  | JsNumber.negInf => -1
  | JsNumber.fin n => Int.sign n
  | JsNumber.posInf => 1

/-- The JavaScript `a * b`. -/
def JsNumber.mul (a b : JsNumber) : JsNumber :=
  match a, b with
  | JsNumber.nan, _ => JsNumber.nan
  | _, JsNumber.nan => JsNumber.nan
  | JsNumber.fin x, JsNumber.fin y => toNumber (x * y)
  | x, y =>
    if x.sign * y.sign = 0 then JsNumber.nan
    else if x.sign * y.sign < 0 then JsNumber.negInf
    else JsNumber.posInf

/-- The double nearest to `a / b` for positive `a` and `b`, as a mantissa `m` and an
exponent `e`: the value is `m * 2^e`.  The exponent is the one for which `a / b`
divided by `2^e` lies from 2^52 up to 2^53, and -1074 for smaller quotients. -/
def divDouble (a b : Nat) : Nat × Int :=
  let e0 : Int := (bitLength a : Int) - (bitLength b : Int) - 53
  let e1 : Int :=
    if a * 2 ^ (-e0).toNat / (b * 2 ^ e0.toNat) < 2 ^ 53 then e0 else e0 + 1
  let e : Int := max e1 (-1074)
  (roundHalfEven (a * 2 ^ (-e).toNat) (b * 2 ^ e.toNat), e)

/-- The JavaScript `Math.ceil(total / limit)` for a count `total`, a Number that is a
non-negative integer, and an integer `limit`: the quotient is rounded to a double, then
`Math.ceil` is taken.  The quotient is at most `total`, so it is finite. -/
def mathCeilDiv (total : Nat) (limit : Int) : JsNumber :=
  if limit = 0 then (if total = 0 then JsNumber.nan else JsNumber.posInf)
  else if total = 0 then JsNumber.fin 0
  else
    let d := divDouble total limit.natAbs
    let num := d.1 * 2 ^ d.2.toNat
    let den := 2 ^ (-d.2).toNat
    if limit < 0 then JsNumber.fin (-((num / den : Nat) : Int))
    else JsNumber.fin (((num + den - 1) / den : Nat) : Int)

/-- What `JSON.stringify` writes for a Number: `none` is `null`, written for NaN and
the infinities. -/
def jsonNumber (a : JsNumber) : Option Int :=
  match a with
  | JsNumber.fin n => some n
  | _ => none

/-- The JavaScript `parseInt(text, 10)`: leading white space is skipped, a sign is read,
then the longest run of decimal digits; NaN when there is none, otherwise the Number
for the signed value of the digits.  An engine may replace the digits after the
twentieth by zeros before it rounds; for digits that denote at most 2^53, or 2^1024 or
more, the Number is the same. -/
def parseInt10 (text : String) : JsNumber :=
  let cs := text.toList.dropWhile isJsWhiteSpace
  let negative := cs.head? == some '-'
  let rest := if cs.head? == some '-' || cs.head? == some '+' then cs.tail else cs
  let digits := rest.takeWhile Char.isDigit
  if digits.isEmpty then JsNumber.nan
  else if negative then toNumber (-(digitsValue digits : Int))
  else toNumber (digitsValue digits : Int)

/-- A destructured parameter with a default: the default replaces `undefined`. -/
def QueryValue.withDefault (v : QueryValue) (default : String) : QueryValue :=
  match v with
  | QueryValue.absent => QueryValue.text default
  | w => w

/-- The parameter with its default, then `parseInt(value, 10)`. -/
def parseQueryInt (v : QueryValue) (default : String) : JsNumber :=
  parseInt10 (v.withDefault default).toText

/-- The page used: `parseInt(page, 10)`, then `if (isNaN(page) || page < 1) page = 1`.
Infinity is neither NaN nor below 1 and stays. -/
def pageOf (page : QueryValue) : JsNumber :=
  match parseQueryInt page "1" with
  | JsNumber.nan => JsNumber.fin 1
  | JsNumber.negInf => JsNumber.fin 1
  | JsNumber.fin p => if p < 1 then JsNumber.fin 1 else JsNumber.fin p
  | JsNumber.posInf => JsNumber.posInf

/-- The limit used: `parseInt(limit, 10)`, then
`if (isNaN(limit) || limit < 1) limit = 10; if (limit > 100) limit = 100`. -/
def limitOf (limit : QueryValue) : Int :=
  match parseQueryInt limit "10" with
  | JsNumber.nan => 10
  | JsNumber.negInf => 10
  | JsNumber.fin l => if l < 1 then 10 else if l > 100 then 100 else l
  | JsNumber.posInf => 100

/-- The query parameters `page`, `limit`, `sort` of `getAllBooks` and `getAllReviews`. -/
structure ListQuery where
  page : QueryValue
  limit : QueryValue
  sort : QueryValue
  deriving DecidableEq

/-- The pagination fields of the response: the total, `totalPages`, `page`, `limit`. -/
structure PageBody where
  total : Nat
  totalPages : JsNumber
  page : JsNumber
  limit : Int
  deriving DecidableEq

/-- The JavaScript `sort.replace` of line 82, whose pattern matches a `-` at the start
of the string: one leading `-` is removed. -/
def stripLeadingDash (sort : String) : String :=
  match sort.toList with
  | [] => sort
  | c :: rest => if c = '-' then String.mk rest else sort

/-- The constant `allowedSortFields` of `getAllBooks`. -/
def allowedSortFields : List String := ["createdAt", "title", "author"]

/-- The variable `sortOption` of `getAllBooks`, lines 78-86; the default of the
parameter is `-createdAt`. -/
def bookSortOption (sort : QueryValue) : String :=
  match sort.withDefault "-createdAt" with
  | QueryValue.text s =>
    if s.length > 0 && allowedSortFields.contains (stripLeadingDash s) then s else "-createdAt"
  | _ => "-createdAt"

/-- What `getAllBooks` asks of the database and reports, lines 59-64 and 78-95, 123-129,
when the database calls succeed: `.sort(sortOption).skip(skip).limit(limit)` and the
pagination fields of the body. -/
structure BooksPlan where
  sortOption : String
  skip : JsNumber
  limit : Int
  body : PageBody
  deriving DecidableEq

/-- The handler `getAllBooks`; `totalBooks` is the result of `countDocuments`. -/
def getAllBooks (query : ListQuery) (totalBooks : Nat) : BooksPlan :=
  let page := pageOf query.page
  let limit := limitOf query.limit
  { sortOption := bookSortOption query.sort,
    skip := (page.sub (JsNumber.fin 1)).mul (JsNumber.fin limit),
    limit := limit,
    body := { total := totalBooks, totalPages := mathCeilDiv totalBooks limit,
              page := page, limit := limit } }

/-- What `getAllReviews` does, lines 105-137, when the database calls succeed: the value
it passes to `.sort(...)`, which is the query parameter itself, the values `skip` and
`limit` it computes for `.skip(...)` and `.limit(...)`, and how it ends: the body with
status 200, or `next` with status 500 when `.sort(...)` throws. -/
structure ReviewsPlan where
  sort : QueryValue
  skip : JsNumber
  limit : Int
  outcome : Outcome PageBody
  deriving DecidableEq

/-- The handler `getAllReviews`; `totalReviews` is the result of `countDocuments`, and
`sortThrows` tells for which arguments the `.sort(...)` of the query builder throws
(it does for an array of strings). -/
def getAllReviews (sortThrows : QueryValue → Bool) (query : ListQuery) (totalReviews : Nat) :
    ReviewsPlan :=
  let page := pageOf query.page
  let limit := limitOf query.limit
  let sort := query.sort.withDefault "-createdAt"
  { sort := sort,
    skip := (page.sub (JsNumber.fin 1)).mul (JsNumber.fin limit),
    limit := limit,
    outcome :=
      if sortThrows sort then Outcome.next 500 "Server error fetching reviews"
      else Outcome.json 200
        { total := totalReviews, totalPages := mathCeilDiv totalReviews limit,
          page := page, limit := limit } }

/-! ## The Auth Context: bootstrap (client) -/

/-- How `api.get('/auth/me')` settles: resolved with `response.data.data` (`none` when
the structure check of authService.js line 227 fails), or rejected. -/
inductive ProbeReply where
  | resolved (user : Option UserView)
  | rejected (error : CaughtError)
  deriving DecidableEq

/-- The function `getCurrentUser` of authService.js, lines 222-242, from the moment the
call settles: localStorage afterwards and the user returned or the details thrown. -/
def getCurrentUser (s : Storage) (reply : ProbeReply) : Storage × Except ErrorDetails UserView :=
  let fail (error : CaughtError) : Storage × Except ErrorDetails UserView :=
    (if (handleNetworkError error).code == "UNAUTHORIZED" then clearAllAuthData s else s,
     Except.error (handleNetworkError error))
  match reply with
  | ProbeReply.resolved (some user) => (s, Except.ok user)
  | ProbeReply.resolved none =>
    fail (CaughtError.plain "Invalid user data received from server")
  | ProbeReply.rejected error => fail error

/-- How `api.post('/auth/refresh')` of the auth service settles: rejected, or resolved
with the truthiness of `data.success`, `data.data.accessToken` and `data.data.user`. -/
inductive ServiceRefreshReply where
  | rejected
  | resolved (success : Bool) (accessToken : Option String) (user : Option UserView)
  deriving DecidableEq

/-- The value `refreshToken` resolves with: `response.data.data`. -/
structure RefreshData where
  accessToken : String
  user : Option UserView
  deriving DecidableEq

/-- The function `refreshToken` of authService.js, lines 176-200, from the moment the
call settles; `stringify` is `JSON.stringify`.  The error is the message of the
`Error` it throws. -/
def refreshToken (stringify : UserView → String) (s : Storage) (reply : ServiceRefreshReply) :
    Storage × Except String RefreshData :=
  match reply with
  | ServiceRefreshReply.resolved true (some accessToken) user =>
    if accessToken != "" then
      let s1 := setItem s "accessToken" accessToken
      match user with
      | some u =>
        (setItem s1 "user" (stringify u), Except.ok { accessToken := accessToken, user := user })
      | none => (s1, Except.ok { accessToken := accessToken, user := none })
    else (clearAllAuthData s, Except.error "Session expired")
  | _ => (clearAllAuthData s, Except.error "Session expired")

/-- The test `error.code === 'UNAUTHORIZED' || error.message?.includes('401')` of
AuthContext.jsx line 47; `none` when `error.message` is an object, on which the call
of `includes` throws a TypeError. -/
def isExpiredError (e : ErrorDetails) : Option Bool :=
  if e.code == "UNAUTHORIZED" then some true
  else
    match e.message with
    | MessageValue.text s => some (includes s "401")
    | MessageValue.object _ _ => none

/-- What `refreshUser` did: the client afterwards, the number of calls of
`refreshToken`, and whether an error escaped (the promise of `refreshUser` rejects). -/
structure BootResult where
  client : Client
  refreshCalls : Nat
  threw : Bool
  deriving DecidableEq

/-- The inner `catch (refreshError)` of `refreshUser`, lines 66-77, followed by
`finally`. -/
def sessionExpired (c : Client) (storage : Storage) : BootResult :=
  { client :=
      { state := { user := none, accessToken := none, loading := false },
        storage := clearAllAuthData storage,
        toasts := c.toasts ++
          (if !c.state.loading then
            [Toast.error (MessageValue.text "Session expired. Please log in again.")]
           else []) },
    refreshCalls := 1, threw := false }

/-- The function `refreshUser` of AuthContext.jsx, lines 30-87.  `probe` tells how the
first call of `getCurrentUser` settles, `refresh` how the call of `refreshToken`
settles, `probe2` how the second call of `getCurrentUser` settles. -/
def AuthContext.refreshUser (stringify : UserView → String) (c : Client)
    (probe : ProbeReply) (refresh : ServiceRefreshReply) (probe2 : ProbeReply) : BootResult :=
  let token := getItem c.storage "accessToken"
  if !truthy token then
    { client := { c with state := { user := none, accessToken := none, loading := false } },
      refreshCalls := 0, threw := false }
  else
    let r1 := getCurrentUser c.storage probe
    match r1.2 with
    | Except.ok user =>
      { client := { state := { user := some user, accessToken := token, loading := false },
                    storage := r1.1, toasts := c.toasts },
        refreshCalls := 0, threw := false }
    | Except.error e =>
      match isExpiredError e with
      | none =>
        { client := { state := { c.state with loading := false }, storage := r1.1,
                      toasts := c.toasts },
          refreshCalls := 0, threw := true }
      | some false =>
        { client := { state := { user := none, accessToken := none, loading := false },
                      storage := clearAllAuthData r1.1, toasts := c.toasts },
          refreshCalls := 0, threw := false }
      | some true =>
        let r2 := refreshToken stringify r1.1 refresh
        match r2.2 with
        | Except.error _ => sessionExpired c r2.1
        | Except.ok data =>
          let s3 := setItem r2.1 "accessToken" data.accessToken
          match data.user with
          | some u =>
            { client := { state := { user := some u, accessToken := some data.accessToken,
                                     loading := false },
                          storage := s3, toasts := c.toasts },
              refreshCalls := 1, threw := false }
          | none =>
            let r3 := getCurrentUser s3 probe2
            match r3.2 with
            | Except.ok u =>
              { client := { state := { user := some u, accessToken := some data.accessToken,
                                       loading := false },
                            storage := r3.1, toasts := c.toasts },
                refreshCalls := 1, threw := false }
            | Except.error _ => sessionExpired c r3.1

/-! ## The server: reviews and books -/

/-- A rejection of a database call: the `code` of the error (11000 is a duplicate key)
and its message. -/
structure DbError where
  code : Option Nat
  message : String
  deriving DecidableEq

/-- A book document: `_id`, `title`, `createdBy`, `coverImage`. -/
structure Book where
  id : Nat
  title : String
  createdBy : Nat
  coverImage : String
  deriving DecidableEq

/-- A review document: `_id`, `book`, `user`, `rating`, `comment`. -/
structure Review where
  id : Nat
  book : Nat
  user : Nat
  rating : Int
  comment : String
  deriving DecidableEq

/-- The `catch` of `createReview`, lines 28-34. -/
def createReviewError (error : DbError) : Outcome Review :=
  if error.code == some 11000 then Outcome.next 400 "You have already reviewed this book"
  else Outcome.next 500 "Server error creating review"

/-- The field `rating` of the request body as the guard of line 11 reads it: whether
the value is falsy, whether `rating < 1` holds and whether `rating > 5` holds.  The
value may be any JSON value; the comparisons are false when it converts to NaN. -/
structure RatingValue where
  falsy : Bool
  belowOne : Bool
  aboveFive : Bool
  deriving DecidableEq

/-- The rating that is the integer `n`. -/
def RatingValue.ofInt (n : Int) : RatingValue :=
  { falsy := n == 0, belowOne := decide (n < 1), aboveFive := decide (n > 5) }

/-- The handler `createReview` of reviewController.js, lines 7-35.  `rating` is
`req.body.rating`, `findBook` is how `Book.findById(bookId)` settles, `findExisting`
how `Review.findOne` for this book and user settles, `save` how `review.save()`
settles, the validation of the schema included. -/
def createReview (rating : RatingValue) (findBook : Except DbError (Option Book))
    (findExisting : Except DbError (Option Review)) (save : Except DbError Review) :
    Outcome Review :=
  if rating.falsy || rating.belowOne || rating.aboveFive then
    Outcome.next 400 "Rating must be between 1 and 5"
  else
    match findBook with
    | Except.error e => createReviewError e
    | Except.ok none => Outcome.next 404 "Book not found"
    | Except.ok (some _) =>
      match findExisting with
      | Except.error e => createReviewError e
      | Except.ok (some _) => Outcome.next 400 "You have already reviewed this book"
      | Except.ok none =>
        match save with
        | Except.error e => createReviewError e
        | Except.ok review => Outcome.json 201 review

/-- The collections of books and reviews.  Every `_id` occurs once in its collection. -/
structure Db where
  books : List Book
  reviews : List Review
  deriving DecidableEq

/-- The database call of `deleteBook` that rejects, when one does. -/
inductive DeleteStep where
  | findBook
  | startSession
  | deleteReviews
  | deleteBook
  | commit
  deriving DecidableEq

/-- The body of a successful `deleteBook`. -/
structure DeleteBody where
  success : Bool
  message : String
  deletedReviewsCount : Nat
  deriving DecidableEq

/-- The reviews of a book: the documents matched by `{ book: bookId }`. -/
def reviewsOf (db : Db) (bookId : Nat) : List Review :=
  db.reviews.filter (fun r => r.book == bookId)

/-- The callback of `session.withTransaction`, lines 250-257, run to its end:
`Review.deleteMany({ book })`, then `Book.findByIdAndDelete`; the database afterwards
and `deletedCount`. -/
def deleteBookAndReviews (db : Db) (bookId : Nat) : Db × Nat :=
  ({ books := db.books.filter (fun b => b.id != bookId),
     reviews := db.reviews.filter (fun r => r.book != bookId) },
   (reviewsOf db bookId).length)

/-- The call `session.withTransaction(...)` of `deleteBook`: when a call inside it or
the commit rejects, the transaction is aborted, the database is as before and the call
rejects (`none`); otherwise both deletions are committed together. -/
def withTransaction (db : Db) (bookId : Nat) (fault : Option DeleteStep) : Option (Db × Nat) :=
  match fault with
  | some DeleteStep.deleteReviews => none
  | some DeleteStep.deleteBook => none
  | some DeleteStep.commit => none
  | _ => some (deleteBookAndReviews db bookId)

/-- The handler `deleteBook` of bookController.js, lines 228-284: the database
afterwards and how the handler ended.  `users` answers `User.findById(req.user.id)`,
`fault` names the database call that rejects, if any.  The deletion of the cover image
comes after the transaction and its failure is ignored, so it is left out. -/
def deleteBook (db : Db) (users : Nat → Lookup) (bookId requesterId : Nat)
    (fault : Option DeleteStep) : Db × Outcome DeleteBody :=
  if fault = some DeleteStep.findBook then (db, Outcome.next 500 "Server error deleting book")
  else
    match db.books.find? (fun b => b.id == bookId) with
    | none => (db, Outcome.next 404 "Book not found")
    | some book =>
      match users requesterId with
      | Lookup.failed _ => (db, Outcome.next 500 "Server error deleting book")
      | Lookup.missing => (db, Outcome.next 401 "User not found")
      | Lookup.found user =>
        let isAdmin := user.role == "admin"
        let isCreator := book.createdBy == requesterId
        if !isAdmin && !isCreator then
          (db, Outcome.next 403 "You are not authorized to delete this book")
        else if fault = some DeleteStep.startSession then
          (db, Outcome.next 500 "Server error deleting book")
        else
          match withTransaction db bookId fault with
          | none => (db, Outcome.next 500 "Server error deleting book")
          | some r =>
            (r.1, Outcome.json 200
              { success := true,
                message := "Book and all associated reviews deleted successfully",
                deletedReviewsCount := r.2 })

/-- A database with two books; the first has two reviews, the second has one. -/
def exampleDb : Db :=
  { books := [{ id := 1, title := "Emma", createdBy := 7, coverImage := "" },
              { id := 2, title := "Ulysses", createdBy := 8, coverImage := "" }],
    reviews := [{ id := 11, book := 1, user := 7, rating := 5, comment := "" },
                { id := 12, book := 2, user := 7, rating := 3, comment := "" },
                { id := 13, book := 1, user := 8, rating := 4, comment := "" }] }

/-- A post that is rejected without a response. -/
def rejectPost (_ : ApiRequest) : AuthReply :=
  AuthReply.rejected (CaughtError.plain "")

/-- A stand-in for `JSON.stringify` on user objects. -/
def nameOnly (user : UserView) : String :=
  user.name

/-- A client that boots with the token `old` in localStorage. -/
def bootClient : Client :=
  { state := { user := none, accessToken := some "old", loading := true },
    storage := [("accessToken", "old")], toasts := [] }

/-- The probe is answered 401 by the server's error handler. -/
def probeUnauthorized : ProbeReply :=
  ProbeReply.rejected
    (CaughtError.response 401
      { message := none, error := some (MessageValue.object "Invalid or expired token" 401) }
      "Request failed with status code 401")

/-- The probe is answered 500 by the server's error handler. -/
def probeServerError : ProbeReply :=
  ProbeReply.rejected
    (CaughtError.response 500
      { message := none, error := some (MessageValue.object "Server error" 500) }
      "Request failed with status code 500")

/-- The probe is answered 404 `User not found` by the server's error handler. -/
def probeNotFound : ProbeReply :=
  ProbeReply.rejected
    (CaughtError.response 404
      { message := none, error := some (MessageValue.object "User not found" 404) }
      "Request failed with status code 404")

/-- A page parameter of 310 digits: a 1 followed by 309 zeros. -/
def hugePage : String :=
  String.mk ('1' :: List.replicate 309 '0')

/-- The query `?page=` a 1 followed by 309 zeros. -/
def hugePageQuery : ListQuery :=
  { page := QueryValue.text hugePage, limit := QueryValue.absent, sort := QueryValue.absent }

/-- The query `?page=-3&limit=5000`. -/
def clampedQuery : ListQuery :=
  { page := QueryValue.text "-3", limit := QueryValue.text "5000", sort := QueryValue.absent }

/-- The key `TOKEN` written with the Kelvin sign U+212A in place of `K`. -/
def kelvinKey : String :=
  String.mk ['T', 'O', Char.ofNat 8490, 'E', 'N']

/-! ## Basic facts -/

theorem pick_some {α : Type} {l : List α} {i : Nat} {a : α} {rest : List α}
    (h : pick l i = some (a, rest)) :
    a ∈ l ∧ (∀ x ∈ rest, x ∈ l) ∧ l.length = rest.length + 1 ∧ rest = l.eraseIdx i := by
  unfold pick at h
  cases hi : l[i]? with
  | none => simp [hi] at h
  | some b =>
    simp [hi] at h
    obtain ⟨rfl, rfl⟩ := h
    obtain ⟨hlt, hb⟩ := List.getElem?_eq_some.mp hi
    refine ⟨hb ▸ List.getElem_mem hlt, fun x hx => List.mem_of_mem_eraseIdx hx, ?_, rfl⟩
    rw [List.length_eraseIdx]
    simp [hlt]
    omega

theorem pick_singleton {α : Type} {a b : α} {i : Nat} {rest : List α}
    (h : pick [a] i = some (b, rest)) : b = a ∧ rest = [] := by
  have h3 := (pick_some h).2.2.1
  have h1 := (pick_some h).1
  simp at h3 h1
  exact ⟨h1, h3⟩

theorem startsWithChars_append (text p q : List Char)
    (h : startsWithChars text (p ++ q) = true) : startsWithChars text p = true := by
  induction p generalizing text with
  | nil => cases text <;> simp [startsWithChars]
  | cons a p ih =>
    cases text with
    | nil => simp [startsWithChars] at h
    | cons c cs =>
      simp only [List.cons_append, startsWithChars, Bool.and_eq_true] at h ⊢
      exact ⟨h.1, ih cs h.2⟩

theorem includesChars_append (text p q : List Char)
    (h : includesChars text (p ++ q) = true) : includesChars text p = true := by
  induction text with
  | nil =>
    simp only [includesChars] at h ⊢
    exact startsWithChars_append [] p q h
  | cons c cs ih =>
    simp only [includesChars, Bool.or_eq_true] at h ⊢
    rcases h with h | h
    · exact Or.inl (startsWithChars_append (c :: cs) p q h)
    · exact Or.inr (ih h)

/-- A url that includes `/auth/me` includes `/auth/`: the guard of line 172 is
subsumed by the guard of line 163. -/
theorem urlIncludes_auth_of_me (url : Option String)
    (h : urlIncludes url "/auth/me" = true) : urlIncludes url "/auth/" = true := by
  cases url with
  | none => simp [urlIncludes] at h
  | some u =>
    simp only [urlIncludes, includes] at h ⊢
    have e : "/auth/me".toList = "/auth/".toList ++ "me".toList := by decide
    rw [e] at h
    exact includesChars_append _ _ _ h

theorem lookup_filter_none (s : Storage) (key : String) (p : String × String → Bool)
    (h : ∀ v, p (key, v) = false) : (s.filter p).lookup key = none := by
  induction s with
  | nil => simp
  | cons kv s ih =>
    obtain ⟨k, v⟩ := kv
    by_cases hp : p (k, v) = true
    · rw [List.filter_cons_of_pos hp]
      have hk : (key == k) = false := by
        cases hkk : key == k with
        | false => rfl
        | true =>
          have : key = k := by simpa using hkk
          subst this
          rw [h v] at hp
          exact absurd hp (by simp)
      simp [List.lookup_cons, hk, ih]
    · rw [List.filter_cons_of_neg hp]
      exact ih

/-- After `clearAllAuthData` localStorage has no `accessToken` and no `user`. -/
theorem getItem_clearAllAuthData (s : Storage) :
    getItem (clearAllAuthData s) "accessToken" = none ∧
    getItem (clearAllAuthData s) "user" = none := by
  unfold getItem clearAllAuthData
  constructor
  · apply lookup_filter_none
    intro v
    have : isAuthKey "accessToken" = true := by decide
    simp [this]
  · apply lookup_filter_none
    intro v
    have : isAuthKey "user" = true := by decide
    simp [this]

theorem getItem_setItem_same (s : Storage) (key value : String) :
    getItem (setItem s key value) key = some value := by
  simp [getItem, setItem, List.lookup_cons]

theorem getItem_setItem_other (s : Storage) (key other value : String) (h : key ≠ other) :
    getItem (setItem s other value) key = getItem (removeItem s other) key := by
  have hk : (key == other) = false := by simpa using h
  simp [getItem, setItem, List.lookup_cons, hk]

theorem getItem_removeItem_other (s : Storage) (key other : String) (h : key ≠ other) :
    getItem (removeItem s other) key = getItem s key := by
  unfold getItem removeItem
  induction s with
  | nil => simp
  | cons kv s ih =>
    obtain ⟨k, v⟩ := kv
    by_cases hk : k = other
    · subst hk
      have hne : (key == k) = false := by simpa using h
      simp [List.lookup_cons, hne, ih]
    · have hk2 : (k != other) = true := by simpa using hk
      simp only [List.filter_cons, hk2, if_true, List.lookup_cons]
      rw [ih]

theorem urlIncludes_me_false (url : Option String)
    (h : urlIncludes url "/auth/" = false) : urlIncludes url "/auth/me" = false := by
  cases hme : urlIncludes url "/auth/me" with
  | false => rfl
  | true => rw [urlIncludes_auth_of_me url hme] at h; exact absurd h (by simp)

theorem refreshAccessTokenSettle_fail (storage : Storage) (reply : RefreshReply)
    (hfail : ∀ t u, reply = RefreshReply.ok true (some t) u → t = "") :
    refreshAccessTokenSettle storage reply = (clearAllAuthData storage, none) := by
  cases reply with
  | failed => rfl
  | ok success accessToken user =>
    cases success with
    | false => rfl
    | true =>
      cases accessToken with
      | none => rfl
      | some t =>
        have ht : t = "" := hfail t user rfl
        subst ht
        simp [refreshAccessTokenSettle]

theorem refreshAccessTokenSettle_ok (storage : Storage) (t : String) (user : Option String)
    (ht : t ≠ "") :
    (refreshAccessTokenSettle storage (RefreshReply.ok true (some t) user)).2 = some t ∧
    getItem (refreshAccessTokenSettle storage (RefreshReply.ok true (some t) user)).1
      "accessToken" = some t := by
  have hne : (t != "") = true := by simpa using ht
  cases user with
  | none => simp [refreshAccessTokenSettle, hne, getItem_setItem_same]
  | some u =>
    simp only [refreshAccessTokenSettle, hne, if_true, true_and]
    rw [getItem_setItem_other _ _ _ _ (by decide), getItem_removeItem_other _ _ _ (by decide)]
    exact getItem_setItem_same _ _ _

/-! ## The status switch -/

/-- C10: an error response with a status other than 401, 429, 500, 502, 503, 504 makes
the handler reject with the error it received and change nothing else: the state after
the handler is the state before it with that one rejection recorded, so no timer is
set, nothing is sent, and the retry counter of the config, the refreshing flag, the
waiter list and localStorage are unchanged. -/
theorem other_status_passes_through (st : Pipeline) (q : Req) (r : Response)
    (h401 : r.status ≠ 401) (h429 : r.status ≠ 429) (h500 : r.status ≠ 500)
    (h502 : r.status ≠ 502) (h503 : r.status ≠ 503) (h504 : r.status ≠ 504) :
    onRejected st q (some r) =
      { st with settled := st.settled ++
          [(q, Settlement.rejected
                (Rejection.original { config := q.config, response := some r }))] } := by
  unfold onRejected
  simp [h401, h429, h500, h502, h503, h504, isServerErrorStatus, rejectWith]

theorem other_status_passes_through_witness :
    (404 : Nat) ≠ 401 ∧
    onRejected (Pipeline.start [("accessToken", "a")] "/books")
        { config := { url := some "/api/books/1", authorization := some "Bearer a",
                      retryCount := some 0, isRetryRequest := false },
          sends := 1, retries := 0, refreshes := 0 }
        (some { status := 404, retryAfter := none }) =
      { Pipeline.start [("accessToken", "a")] "/books" with
        settled := [] ++
          [({ config := { url := some "/api/books/1", authorization := some "Bearer a",
                          retryCount := some 0, isRetryRequest := false },
              sends := 1, retries := 0, refreshes := 0 },
            Settlement.rejected (Rejection.original
              { config := { url := some "/api/books/1", authorization := some "Bearer a",
                            retryCount := some 0, isRetryRequest := false },
                response := some { status := 404, retryAfter := none } }))] } :=
  ⟨by decide,
   other_status_passes_through _ _ { status := 404, retryAfter := none }
     (by decide) (by decide) (by decide) (by decide) (by decide) (by decide)⟩

/-- C8 (as stated, refuted): for the first retry of a 500 response the counter after
its increment is 1 and the delay awaited is 1000 ms, not `RETRY_DELAY * 2 ^ 1`. -/
theorem server_error_delay_counterexample :
    (onRejected (Pipeline.start [] "/books")
        { config := { url := some "/api/books", authorization := none,
                      retryCount := some 0, isRetryRequest := false },
          sends := 1, retries := 0, refreshes := 0 }
        (some { status := 500, retryAfter := none })).timers.map
      (fun t => (t.1, t.2.config.retryCount)) = [(1000, some 1)] ∧
    (1000 : Nat) ≠ RETRY_DELAY * 2 ^ 1 := by
  decide

/-- C8 (amended): for a response with status 500, 502, 503 or 504 and a retry counter
that becomes `attempt` (1, 2 or 3) by its increment, the handler awaits
`RETRY_DELAY * 2 ^ (attempt - 1)` ms, that is 1000, 2000, 4000 ms, and then re-sends
the config with the incremented counter. -/
theorem server_error_delay (st : Pipeline) (q : Req) (r : Response) (attempt : Nat)
    (hs : r.status = 500 ∨ r.status = 502 ∨ r.status = 503 ∨ r.status = 504)
    (h1 : 1 ≤ attempt) (h3 : attempt ≤ MAX_RETRY_ATTEMPTS)
    (hc : q.config.retryCount = some (attempt - 1)) :
    (onRejected st q (some r)).delays = st.delays ++ [RETRY_DELAY * 2 ^ (attempt - 1)] ∧
    (onRejected st q (some r)).timers = st.timers ++
      [(RETRY_DELAY * 2 ^ (attempt - 1),
        { q with config := { q.config with retryCount := some attempt },
                 retries := q.retries + 1 })] ∧
    (attempt = 1 → RETRY_DELAY * 2 ^ (attempt - 1) = 1000) ∧
    (attempt = 2 → RETRY_DELAY * 2 ^ (attempt - 1) = 2000) ∧
    (attempt = 3 → RETRY_DELAY * 2 ^ (attempt - 1) = 4000) := by
  have hlt : attempt - 1 < 3 := by unfold MAX_RETRY_ATTEMPTS at h3; omega
  have hat : attempt - 1 + 1 = attempt := by omega
  have hsrv : isServerErrorStatus r.status = true := by
    rcases hs with h | h | h | h <;> simp [isServerErrorStatus, h]
  have h401 : r.status ≠ 401 := by rcases hs with h | h | h | h <;> omega
  have h403 : r.status ≠ 403 := by rcases hs with h | h | h | h <;> omega
  have h429 : r.status ≠ 429 := by rcases hs with h | h | h | h <;> omega
  refine ⟨?_, ?_, ?_, ?_, ?_⟩
  · unfold onRejected
    simp [h401, h403, h429, hsrv, canRetry, bumpRetry, scheduleRetry, hc,
      MAX_RETRY_ATTEMPTS, hlt, hat]
  · unfold onRejected
    simp [h401, h403, h429, hsrv, canRetry, bumpRetry, scheduleRetry, hc,
      MAX_RETRY_ATTEMPTS, hlt, hat]
  · intro h; subst h; decide
  · intro h; subst h; decide
  · intro h; subst h; decide

theorem server_error_delay_witness :
    (503 = 500 ∨ 503 = 502 ∨ 503 = 503 ∨ 503 = 504) ∧
    (onRejected (Pipeline.start [] "/books")
        { config := { url := some "/api/books", authorization := none,
                      retryCount := some 2, isRetryRequest := false },
          sends := 3, retries := 2, refreshes := 0 }
        (some { status := 503, retryAfter := none })).delays = [] ++ [RETRY_DELAY * 2 ^ (3 - 1)] :=
  ⟨by decide,
   (server_error_delay (Pipeline.start [] "/books")
      { config := { url := some "/api/books", authorization := none,
                    retryCount := some 2, isRetryRequest := false },
        sends := 3, retries := 2, refreshes := 0 }
      { status := 503, retryAfter := none } 3 (by decide) (by decide) (by decide) rfl).1⟩

/-! ## The refresh coordinator: closed forms -/

theorem foldl_resend (token : String) (ws : List (Nat × Req)) (st : Pipeline) :
    ws.foldl (fun s w =>
        resendAfterRefresh token { s with invoked := s.invoked ++ [w.1] } w.2) st =
      { st with invoked := st.invoked ++ ws.map Prod.fst,
                inFlight := st.inFlight ++ ws.map (fun w => resentReq token st.storage w.2) } := by
  induction ws generalizing st with
  | nil => simp
  | cons w ws ih =>
    rw [List.foldl_cons, ih]
    simp [resendAfterRefresh, instanceCall, resentReq, List.append_assoc]

theorem onRrefreshed_eq (token : String) (st : Pipeline) :
    onRrefreshed token st =
      { st with invoked := st.invoked ++ st.queuedTickets,
                inFlight := st.inFlight ++
                  st.refreshSubscribers.map (fun w => resentReq token st.storage w.2),
                refreshSubscribers := [] } := by
  unfold onRrefreshed
  simp only [foldl_resend, Pipeline.queuedTickets]

theorem onRefreshSettled_ok (st : Pipeline) (q : Req) (error : AxiosError)
    (reply : RefreshReply) (storage : Storage) (t : String)
    (h : refreshAccessTokenSettle st.storage reply = (storage, some t)) :
    onRefreshSettled st q error reply =
      { st with storage := storage, isRefreshing := false, refreshSubscribers := [],
                invoked := st.invoked ++ st.queuedTickets,
                inFlight := st.inFlight ++
                  (st.refreshSubscribers.map (fun w => resentReq t storage w.2) ++
                    [resentReq t storage q]) } := by
  unfold onRefreshSettled
  simp only [h, onRrefreshed_eq]
  simp [resendAfterRefresh, instanceCall, resentReq, Pipeline.queuedTickets, List.append_assoc]

theorem onRefreshSettled_fail (st : Pipeline) (q : Req) (error : AxiosError)
    (reply : RefreshReply) (storage : Storage)
    (h : refreshAccessTokenSettle st.storage reply = (storage, none)) :
    onRefreshSettled st q error reply =
      rejectWith (redirectToLogin
        { st with storage := storage, isRefreshing := false, refreshSubscribers := [] })
        q (Rejection.original error) := by
  unfold onRefreshSettled
  simp only [h]

theorem redirectToLogin_fields (st : Pipeline) :
    (redirectToLogin st).storage = clearAllAuthData st.storage ∧
    (redirectToLogin st).isRefreshing = st.isRefreshing ∧
    (redirectToLogin st).refreshSubscribers = st.refreshSubscribers ∧
    (redirectToLogin st).inFlight = st.inFlight ∧
    (redirectToLogin st).timers = st.timers ∧
    (redirectToLogin st).awaitingRefresh = st.awaitingRefresh ∧
    (redirectToLogin st).refreshCalls = st.refreshCalls ∧
    (redirectToLogin st).delays = st.delays ∧
    (redirectToLogin st).nextTicket = st.nextTicket ∧
    (redirectToLogin st).invoked = st.invoked ∧
    (redirectToLogin st).settled = st.settled := by
  unfold redirectToLogin
  by_cases h : (st.pathname != "/login" && st.pathname != "/register") = true
  · simp [h]
  · simp [h]

/-- A 401 for a request that is neither an auth endpoint nor a retried request, when no
refresh is in flight: the handler sets the flag and calls `refreshAccessToken`. -/
theorem onRejected_401_first (st : Pipeline) (q : Req) (r : Response)
    (h401 : r.status = 401) (hurl : urlIncludes q.config.url "/auth/" = false)
    (hretry : q.config.isRetryRequest = false) (hidle : st.isRefreshing = false) :
    onRejected st q (some r) =
      { st with isRefreshing := true, refreshCalls := st.refreshCalls + 1,
                awaitingRefresh := st.awaitingRefresh ++
                  [(q, { config := q.config, response := some r })] } := by
  unfold onRejected
  simp [h401, hurl, hretry, hidle, urlIncludes_me_false _ hurl]

/-- A 401 for such a request while a refresh is in flight: the handler queues a waiter. -/
theorem onRejected_401_queued (st : Pipeline) (q : Req) (r : Response)
    (h401 : r.status = 401) (hurl : urlIncludes q.config.url "/auth/" = false)
    (hretry : q.config.isRetryRequest = false) (hbusy : st.isRefreshing = true) :
    onRejected st q (some r) = subscribeTokenRefresh st q := by
  unfold onRejected
  simp [h401, hurl, hretry, hbusy, urlIncludes_me_false _ hurl]

/-- A 401 for an auth endpoint or a retried request: session clear, redirect, reject. -/
theorem onRejected_401_guard (st : Pipeline) (q : Req) (r : Response)
    (h401 : r.status = 401)
    (hguard : urlIncludes q.config.url "/auth/" = true ∨ q.config.isRetryRequest = true) :
    onRejected st q (some r) =
      rejectWith (redirectToLogin st) q
        (Rejection.original { config := q.config, response := some r }) := by
  unfold onRejected
  rcases hguard with h | h <;> simp [h401, h]

/-- While a refresh is in flight, the 401s of any number of requests are queued, one
waiter each, in order, and nothing else changes. -/
theorem foldl_queued (rs : Req → Response) (qs : List Req) (st : Pipeline)
    (h401 : ∀ x ∈ qs, (rs x).status = 401)
    (hreq : ∀ x ∈ qs, urlIncludes x.config.url "/auth/" = false ∧
      x.config.isRetryRequest = false)
    (hbusy : st.isRefreshing = true) :
    ∃ tickets : List Nat, tickets.length = qs.length ∧
      qs.foldl (fun s x => onRejected s x (some (rs x))) st =
        { st with refreshSubscribers := st.refreshSubscribers ++ tickets.zip qs,
                  nextTicket := st.nextTicket + qs.length } := by
  induction qs generalizing st with
  | nil => exact ⟨[], rfl, by simp⟩
  | cons x qs ih =>
    have hx := hreq x (List.mem_cons_self _ _)
    rw [List.foldl_cons,
      onRejected_401_queued st x (rs x) (h401 x (List.mem_cons_self _ _)) hx.1 hx.2 hbusy]
    obtain ⟨tickets, hlen, heq⟩ := ih (subscribeTokenRefresh st x)
      (fun y hy => h401 y (List.mem_cons_of_mem _ hy))
      (fun y hy => hreq y (List.mem_cons_of_mem _ hy)) hbusy
    refine ⟨st.nextTicket :: tickets, by simp [hlen], ?_⟩
    rw [heq]
    simp [subscribeTokenRefresh, List.append_assoc, Nat.add_assoc, Nat.add_comm 1]

theorem requestInterceptor_of_token (storage : Storage) (t : String) (config : Config)
    (hs : getItem storage "accessToken" = some t) (ht : t ≠ "") :
    requestInterceptor storage config =
      { addRetryFlag config with authorization := some ("Bearer " ++ t) } := by
  have hne : (t != "") = true := by simpa using ht
  simp [requestInterceptor, hs, hne]

theorem resentReq_of_token (storage : Storage) (t : String) (q : Req)
    (hs : getItem storage "accessToken" = some t) (ht : t ≠ "") :
    resentReq t storage q =
      { config := { addRetryFlag q.config with
                      authorization := some ("Bearer " ++ t), isRetryRequest := true },
        sends := q.sends + 1, retries := q.retries, refreshes := q.refreshes + 1 } := by
  simp [resentReq, requestInterceptor_of_token storage t _ hs ht, markRetried, addRetryFlag]

/-! ## Single flight -/

theorem step_refresh_single (st : Pipeline) (q : Req) (error : AxiosError)
    (reply : RefreshReply) (i : Nat) (h : st.awaitingRefresh = [(q, error)])
    (hi : i < st.awaitingRefresh.length) :
    step st (Event.refresh i reply) =
      onRefreshSettled { st with awaitingRefresh := [] } q error reply := by
  have hi0 : i = 0 := by rw [h] at hi; simpa using hi
  subst hi0
  simp [step, pick, h]

/-- The state after the 401s of `q :: qs` have been handled from an idle pipeline: one
refresh call, awaited by the handler of `q`, and one waiter for each request of `qs`. -/
theorem foldl_401s (st : Pipeline) (q : Req) (qs : List Req) (rs : Req → Response)
    (hidle : st.isRefreshing = false) (hnone : st.awaitingRefresh = [])
    (hempty : st.refreshSubscribers = [])
    (h401 : ∀ x ∈ q :: qs, (rs x).status = 401)
    (hreq : ∀ x ∈ q :: qs, urlIncludes x.config.url "/auth/" = false ∧
      x.config.isRetryRequest = false) :
    ∃ tickets : List Nat, tickets.length = qs.length ∧
      (q :: qs).foldl (fun s x => onRejected s x (some (rs x))) st =
        { st with isRefreshing := true, refreshCalls := st.refreshCalls + 1,
                  awaitingRefresh := [(q, { config := q.config, response := some (rs q) })],
                  refreshSubscribers := tickets.zip qs,
                  nextTicket := st.nextTicket + qs.length } := by
  have hq := hreq q (List.mem_cons_self _ _)
  obtain ⟨tickets, hlen, heq⟩ := foldl_queued rs qs
    { st with isRefreshing := true, refreshCalls := st.refreshCalls + 1,
              awaitingRefresh := st.awaitingRefresh ++
                [(q, { config := q.config, response := some (rs q) })] }
    (fun y hy => h401 y (List.mem_cons_of_mem _ hy))
    (fun y hy => hreq y (List.mem_cons_of_mem _ hy)) rfl
  refine ⟨tickets, hlen, ?_⟩
  rw [List.foldl_cons,
    onRejected_401_first st q (rs q) (h401 q (List.mem_cons_self _ _)) hq.1 hq.2 hidle, heq]
  simp [hnone, hempty]

/-- The state after a successful refresh that was awaited by the handler of `q` with
the waiters `ws` queued. -/
theorem settle_ok_state (st : Pipeline) (q : Req) (error : AxiosError)
    (t : String) (user : Option String) (ht : t ≠ "")
    (h : st.awaitingRefresh = [(q, error)]) :
    (step st (Event.refresh 0 (RefreshReply.ok true (some t) user))).refreshCalls =
      st.refreshCalls ∧
    (step st (Event.refresh 0 (RefreshReply.ok true (some t) user))).inFlight =
      st.inFlight ++ (st.refreshSubscribers.map Prod.snd ++ [q]).map (fun x =>
        { config := { addRetryFlag x.config with
                        authorization := some ("Bearer " ++ t), isRetryRequest := true },
          sends := x.sends + 1, retries := x.retries, refreshes := x.refreshes + 1 }) ∧
    (step st (Event.refresh 0 (RefreshReply.ok true (some t) user))).isRefreshing = false ∧
    (step st (Event.refresh 0 (RefreshReply.ok true (some t) user))).refreshSubscribers = [] ∧
    (step st (Event.refresh 0 (RefreshReply.ok true (some t) user))).awaitingRefresh = [] ∧
    (step st (Event.refresh 0 (RefreshReply.ok true (some t) user))).invoked =
      st.invoked ++ st.queuedTickets ∧
    getItem (step st (Event.refresh 0 (RefreshReply.ok true (some t) user))).storage
      "accessToken" = some t := by
  obtain ⟨hr2, hr1⟩ := refreshAccessTokenSettle_ok st.storage t user ht
  have hsettle : refreshAccessTokenSettle
      ({ st with awaitingRefresh := [] } : Pipeline).storage
      (RefreshReply.ok true (some t) user) =
      ((refreshAccessTokenSettle st.storage (RefreshReply.ok true (some t) user)).1, some t) :=
    Prod.ext rfl hr2
  rw [step_refresh_single st q error _ 0 h (by simp [h]),
    onRefreshSettled_ok { st with awaitingRefresh := [] } q error _ _ t hsettle]
  refine ⟨rfl, ?_, rfl, rfl, rfl, rfl, hr1⟩
  simp only [List.map_append, List.map_map, List.map_cons, List.map_nil,
    fun x => resentReq_of_token _ t x hr1 ht]
  rfl

/-- C1: let N >= 1 requests, none an auth endpoint and none marked as retried, receive
a 401 each, all handled while no refresh has settled (the pipeline is idle before the
first).  Then exactly one call of `POST /auth/refresh` is made, nothing is sent before
it settles, and when it succeeds with a non-empty token `t` each of the N requests is
sent again exactly once, marked as retried and with `Authorization = "Bearer " ++ t`
(the queued ones in order, then the one that started the refresh); afterwards the flag
is clear and nothing is queued or awaiting. -/
theorem single_flight_refresh (st : Pipeline) (q : Req) (qs : List Req)
    (rs : Req → Response) (t : String) (user : Option String)
    (hidle : st.isRefreshing = false) (hnone : st.awaitingRefresh = [])
    (hempty : st.refreshSubscribers = [])
    (h401 : ∀ x ∈ q :: qs, (rs x).status = 401)
    (hreq : ∀ x ∈ q :: qs, urlIncludes x.config.url "/auth/" = false ∧
      x.config.isRetryRequest = false)
    (ht : t ≠ "") :
    ((q :: qs).foldl (fun s x => onRejected s x (some (rs x))) st).refreshCalls =
      st.refreshCalls + 1 ∧
    ((q :: qs).foldl (fun s x => onRejected s x (some (rs x))) st).inFlight = st.inFlight ∧
    (step ((q :: qs).foldl (fun s x => onRejected s x (some (rs x))) st)
      (Event.refresh 0 (RefreshReply.ok true (some t) user))).refreshCalls =
      st.refreshCalls + 1 ∧
    (step ((q :: qs).foldl (fun s x => onRejected s x (some (rs x))) st)
      (Event.refresh 0 (RefreshReply.ok true (some t) user))).inFlight =
      st.inFlight ++ (qs ++ [q]).map (fun x =>
        { config := { addRetryFlag x.config with
                        authorization := some ("Bearer " ++ t), isRetryRequest := true },
          sends := x.sends + 1, retries := x.retries, refreshes := x.refreshes + 1 }) ∧
    (step ((q :: qs).foldl (fun s x => onRejected s x (some (rs x))) st)
      (Event.refresh 0 (RefreshReply.ok true (some t) user))).isRefreshing = false ∧
    (step ((q :: qs).foldl (fun s x => onRejected s x (some (rs x))) st)
      (Event.refresh 0 (RefreshReply.ok true (some t) user))).refreshSubscribers = [] ∧
    (step ((q :: qs).foldl (fun s x => onRejected s x (some (rs x))) st)
      (Event.refresh 0 (RefreshReply.ok true (some t) user))).awaitingRefresh = [] := by
  obtain ⟨tickets, hlen, heq⟩ := foldl_401s st q qs rs hidle hnone hempty h401 hreq
  rw [heq]
  obtain ⟨h1, h2, h3, h4, h5, _, _⟩ := settle_ok_state
    { st with isRefreshing := true, refreshCalls := st.refreshCalls + 1,
              awaitingRefresh := [(q, { config := q.config, response := some (rs q) })],
              refreshSubscribers := tickets.zip qs,
              nextTicket := st.nextTicket + qs.length }
    q { config := q.config, response := some (rs q) } t user ht rfl
  refine ⟨rfl, rfl, h1, ?_, h3, h4, h5⟩
  rw [h2]
  have hz : (tickets.zip qs).map Prod.snd = qs := List.map_snd_zip _ _ (by omega)
  simp only [hz]

/-! ## Every request is counted: the invariant `Counted` -/

theorem requestInterceptor_fields (storage : Storage) (config : Config) :
    (requestInterceptor storage config).retryCount = some (config.retryCount.getD 0) ∧
    (requestInterceptor storage config).isRetryRequest = config.isRetryRequest ∧
    (requestInterceptor storage config).url = config.url := by
  unfold requestInterceptor addRetryFlag
  cases getItem storage "accessToken" with
  | none => simp
  | some token =>
    by_cases h : (token != "") = true
    · simp [h]
    · simp [h]

theorem sent_after_send (storage : Storage) (q : Req)
    (hc : q.config.retryCount.getD 0 = q.retries) (hr : q.retries ≤ MAX_RETRY_ATTEMPTS)
    (hf : q.refreshes = (if q.config.isRetryRequest then 1 else 0))
    (hs : q.sends + 1 = 1 + q.retries + q.refreshes) :
    Req.Sent { q with config := requestInterceptor storage q.config, sends := q.sends + 1 } := by
  obtain ⟨h1, h2, _⟩ := requestInterceptor_fields storage q.config
  unfold Req.Sent
  simp only [h1, h2, hc]
  exact ⟨trivial, hr, hf, hs⟩

theorem counted_instanceCall (st : Pipeline) (q : Req) (h : Counted st)
    (hq : Req.Sent { q with config := requestInterceptor st.storage q.config,
                            sends := q.sends + 1 }) :
    Counted (instanceCall st q) := by
  obtain ⟨h1, h2, h3, h4, h5⟩ := h
  refine ⟨?_, h2, h3, h4, h5⟩
  intro x hx
  simp only [instanceCall, List.mem_append, List.mem_singleton] at hx
  rcases hx with hx | rfl
  · exact h1 x hx
  · exact hq

theorem counted_rejectWith (st : Pipeline) (q : Req) (r : Rejection) (h : Counted st)
    (hq : q.Sent) : Counted (rejectWith st q r) := by
  obtain ⟨h1, h2, h3, h4, h5⟩ := h
  refine ⟨h1, h2, h3, h4, ?_⟩
  intro x hx
  simp only [rejectWith, List.mem_append, List.mem_singleton] at hx
  rcases hx with hx | rfl
  · exact h5 x hx
  · exact hq

theorem counted_redirectToLogin (st : Pipeline) (h : Counted st) :
    Counted (redirectToLogin st) := by
  obtain ⟨_, _, e3, e4, e5, e6, _, _, _, _, e11⟩ := redirectToLogin_fields st
  unfold Counted
  rw [e3, e4, e5, e6, e11]
  exact h

theorem counted_scheduleRetry (st : Pipeline) (q : Req) (ms : Nat) (h : Counted st)
    (hq : q.Sent) (hcan : canRetry q.config = true) :
    Counted (scheduleRetry st q (bumpRetry q.config) ms) := by
  obtain ⟨h1, h2, h3, h4, h5⟩ := h
  refine ⟨h1, ?_, h3, h4, h5⟩
  intro x hx
  simp only [scheduleRetry, List.mem_append, List.mem_singleton] at hx
  rcases hx with hx | rfl
  · exact h2 x hx
  · obtain ⟨c1, c2, c3, c4⟩ := hq
    have hlt : q.retries < MAX_RETRY_ATTEMPTS := by
      simpa [canRetry, c1] using hcan
    unfold Req.Scheduled
    simp only [bumpRetry, c1, Option.map_some']
    refine ⟨trivial, hlt, c3, ?_⟩
    omega

theorem counted_subscribeTokenRefresh (st : Pipeline) (q : Req) (h : Counted st)
    (hq : q.Waiting) : Counted (subscribeTokenRefresh st q) := by
  obtain ⟨h1, h2, h3, h4, h5⟩ := h
  refine ⟨h1, h2, ?_, h4, h5⟩
  intro x hx
  simp only [subscribeTokenRefresh, List.mem_append, List.mem_singleton] at hx
  rcases hx with hx | rfl
  · exact h3 x hx
  · exact hq

theorem counted_onRejected (st : Pipeline) (q : Req) (response : Option Response)
    (h : Counted st) (hq : q.Sent) : Counted (onRejected st q response) := by
  unfold onRejected
  cases response with
  | none =>
    by_cases hcan : canRetry q.config = true
    · simp only [hcan, if_true]
      exact counted_scheduleRetry st q _ h hq hcan
    · simp only [hcan]
      exact counted_rejectWith st q _ h hq
  | some r =>
    simp only
    split
    · split
      · exact counted_rejectWith _ q _ (counted_redirectToLogin st h) hq
      · rename_i hguard
        split
        · exact counted_rejectWith st q _ h hq
        · split
          · obtain ⟨h1, h2, h3, h4, h5⟩ := h
            refine ⟨h1, h2, h3, ?_, h5⟩
            intro x hx
            simp only [List.mem_append, List.mem_singleton] at hx
            rcases hx with hx | rfl
            · exact h4 x hx
            · refine ⟨hq, ?_⟩
              simp only [Bool.or_eq_true, not_or, Bool.not_eq_true] at hguard
              exact hguard.2
          · refine counted_subscribeTokenRefresh st q h ⟨hq, ?_⟩
            simp only [Bool.or_eq_true, not_or, Bool.not_eq_true] at hguard
            exact hguard.2
    · split
      · exact counted_rejectWith st q _ h hq
      · split
        · split
          · rename_i hcan
            exact counted_scheduleRetry st q _ h hq hcan
          · exact counted_rejectWith st q _ h hq
        · split
          · split
            · rename_i hcan
              exact counted_scheduleRetry st q _ h hq hcan
            · exact counted_rejectWith st q _ h hq
          · exact counted_rejectWith st q _ h hq

theorem sent_resentReq (token : String) (storage : Storage) (q : Req) (hq : q.Waiting) :
    (resentReq token storage q).Sent := by
  obtain ⟨⟨c1, c2, c3, c4⟩, hflag⟩ := hq
  obtain ⟨h1, h2, _⟩ := requestInterceptor_fields storage (markRetried token q.config)
  rw [hflag] at c3
  unfold Req.Sent resentReq
  simp only [h1, h2]
  simp only [markRetried, c1, Option.getD_some, if_true]
  simp only [Bool.false_eq_true, if_false] at c3
  refine ⟨trivial, c2, ?_, ?_⟩ <;> omega

theorem counted_onRefreshSettled (st : Pipeline) (q : Req) (error : AxiosError)
    (reply : RefreshReply) (h : Counted st) (hq : q.Waiting) :
    Counted (onRefreshSettled st q error reply) := by
  obtain ⟨h1, h2, h3, h4, h5⟩ := h
  cases hres : refreshAccessTokenSettle st.storage reply with
  | mk storage result =>
    cases result with
    | some t =>
      rw [onRefreshSettled_ok st q error reply storage t hres]
      refine ⟨?_, h2, ?_, h4, h5⟩
      · intro x hx
        simp only [List.mem_append, List.mem_map, List.mem_singleton] at hx
        rcases hx with hx | ⟨w, hw, rfl⟩ | rfl
        · exact h1 x hx
        · exact sent_resentReq t storage w.2 (h3 w hw)
        · exact sent_resentReq t storage q hq
      · intro w hw
        simp at hw
    | none =>
      rw [onRefreshSettled_fail st q error reply storage hres]
      refine counted_rejectWith _ q _ (counted_redirectToLogin _ ?_) hq.1
      refine ⟨h1, h2, ?_, h4, h5⟩
      intro w hw
      simp at hw

theorem counted_step (st : Pipeline) (ev : Event) (h : Counted st) : Counted (step st ev) := by
  obtain ⟨h1, h2, h3, h4, h5⟩ := h
  cases ev with
  | request url authorization =>
    refine counted_instanceCall st _ ⟨h1, h2, h3, h4, h5⟩ ?_
    exact sent_after_send st.storage _ rfl (Nat.zero_le _) rfl rfl
  | success i =>
    simp only [step]
    cases hp : pick st.inFlight i with
    | none => exact ⟨h1, h2, h3, h4, h5⟩
    | some p =>
      obtain ⟨q, rest⟩ := p
      obtain ⟨hq, hrest, _, _⟩ := pick_some hp
      refine ⟨fun x hx => h1 x (hrest x hx), h2, h3, h4, ?_⟩
      intro x hx
      simp only [List.mem_append, List.mem_singleton] at hx
      rcases hx with hx | rfl
      · exact h5 x hx
      · exact h1 q hq
  | failure i response =>
    simp only [step]
    cases hp : pick st.inFlight i with
    | none => exact ⟨h1, h2, h3, h4, h5⟩
    | some p =>
      obtain ⟨q, rest⟩ := p
      obtain ⟨hq, hrest, _, _⟩ := pick_some hp
      exact counted_onRejected _ q response
        ⟨fun x hx => h1 x (hrest x hx), h2, h3, h4, h5⟩ (h1 q hq)
  | timer i =>
    simp only [step]
    cases hp : pick st.timers i with
    | none => exact ⟨h1, h2, h3, h4, h5⟩
    | some p =>
      obtain ⟨t, rest⟩ := p
      obtain ⟨ht, hrest, _, _⟩ := pick_some hp
      obtain ⟨c1, c2, c3, c4⟩ := h2 t ht
      refine counted_instanceCall _ t.2 ⟨h1, fun x hx => h2 x (hrest x hx), h3, h4, h5⟩ ?_
      exact sent_after_send _ t.2 (by rw [c1]; rfl) c2 c3 c4
  | refresh i reply =>
    simp only [step]
    cases hp : pick st.awaitingRefresh i with
    | none => exact ⟨h1, h2, h3, h4, h5⟩
    | some p =>
      obtain ⟨a, rest⟩ := p
      obtain ⟨ha, hrest, _, _⟩ := pick_some hp
      exact counted_onRefreshSettled _ a.1 a.2 reply
        ⟨h1, h2, h3, fun x hx => h4 x (hrest x hx), h5⟩ (h4 a ha)
  | outside storage pathname => exact ⟨h1, h2, h3, h4, h5⟩

theorem run_append_singleton (st : Pipeline) (evs : List Event) (ev : Event) :
    run st (evs ++ [ev]) = step (run st evs) ev := by
  simp [run, List.foldl_append]

/-- Induction over the reachable states. -/
theorem reachable_induction (P : Pipeline → Prop)
    (hstart : ∀ storage pathname, P (Pipeline.start storage pathname))
    (hstep : ∀ st ev, P st → P (step st ev)) (st : Pipeline) (h : Reachable st) : P st := by
  obtain ⟨storage, pathname, evs, rfl⟩ := h
  induction evs using List.reverseRecOn with
  | nil => exact hstart storage pathname
  | append_singleton evs ev ih =>
    rw [run_append_singleton]
    exact hstep _ ev ih

theorem reachable_step (st : Pipeline) (ev : Event) (h : Reachable st) :
    Reachable (step st ev) := by
  obtain ⟨storage, pathname, evs, rfl⟩ := h
  exact ⟨storage, pathname, evs ++ [ev], (run_append_singleton _ _ _).symm⟩

theorem counted_of_reachable (st : Pipeline) (h : Reachable st) : Counted st := by
  refine reachable_induction Counted ?_ counted_step st h
  intro storage pathname
  simp [Counted, Pipeline.start]

/-! ## The coordinator's invariant `Coordinated` -/

theorem coordinated_of_same (st st' : Pipeline) (hs : SameCoordinator st st')
    (h : Coordinated st) : Coordinated st' := by
  obtain ⟨e1, e2, e3, e4, e5, _⟩ := hs
  unfold Coordinated Pipeline.queuedTickets
  rw [e1, e2, e3, e4, e5]
  exact h

theorem same_rejectWith (st : Pipeline) (q : Req) (r : Rejection) :
    SameCoordinator st (rejectWith st q r) :=
  ⟨rfl, rfl, rfl, rfl, rfl, rfl⟩

theorem same_redirectToLogin (st : Pipeline) : SameCoordinator st (redirectToLogin st) := by
  obtain ⟨_, e2, e3, _, _, e6, e7, _, e9, e10, _⟩ := redirectToLogin_fields st
  exact ⟨e2, e6, e3, e10, e9, e7⟩

theorem same_scheduleRetry (st : Pipeline) (q : Req) (config : Config) (ms : Nat) :
    SameCoordinator st (scheduleRetry st q config ms) :=
  ⟨rfl, rfl, rfl, rfl, rfl, rfl⟩

theorem same_instanceCall (st : Pipeline) (q : Req) : SameCoordinator st (instanceCall st q) :=
  ⟨rfl, rfl, rfl, rfl, rfl, rfl⟩

theorem same_trans (a b c : Pipeline) (h1 : SameCoordinator a b) (h2 : SameCoordinator b c) :
    SameCoordinator a c := by
  obtain ⟨a1, a2, a3, a4, a5, a6⟩ := h1
  obtain ⟨b1, b2, b3, b4, b5, b6⟩ := h2
  exact ⟨b1.trans a1, b2.trans a2, b3.trans a3, b4.trans a4, b5.trans a5, b6.trans a6⟩

/-- The three things the error handler can do to the coordinator: nothing; start the
one refresh (only when the flag is clear); queue a waiter (only when the flag is set). -/
theorem onRejected_shape (st : Pipeline) (q : Req) (response : Option Response) :
    SameCoordinator st (onRejected st q response) ∨
    (st.isRefreshing = false ∧ q.config.isRetryRequest = false ∧
      onRejected st q response =
        { st with isRefreshing := true, refreshCalls := st.refreshCalls + 1,
                  awaitingRefresh := st.awaitingRefresh ++
                    [(q, { config := q.config, response := response })] }) ∨
    (st.isRefreshing = true ∧ q.config.isRetryRequest = false ∧
      onRejected st q response = subscribeTokenRefresh st q) := by
  unfold onRejected
  cases response with
  | none =>
    left
    simp only
    split
    · exact same_scheduleRetry _ _ _ _
    · exact same_rejectWith _ _ _
  | some r =>
    simp only
    split
    · split
      · left
        exact same_trans _ _ _ (same_redirectToLogin st) (same_rejectWith _ _ _)
      · rename_i hguard
        simp only [Bool.or_eq_true, not_or, Bool.not_eq_true] at hguard
        split
        · left; exact same_rejectWith _ _ _
        · split
          · rename_i hidle
            right; left
            refine ⟨by simpa using hidle, hguard.2, rfl⟩
          · rename_i hbusy
            right; right
            refine ⟨by simpa using hbusy, hguard.2, rfl⟩
    · left
      split
      · exact same_rejectWith _ _ _
      · split
        · split
          · exact same_scheduleRetry _ _ _ _
          · exact same_rejectWith _ _ _
        · split
          · split
            · exact same_scheduleRetry _ _ _ _
            · exact same_rejectWith _ _ _
          · exact same_rejectWith _ _ _

theorem coordinated_onRejected (st : Pipeline) (q : Req) (response : Option Response)
    (h : Coordinated st) : Coordinated (onRejected st q response) := by
  rcases onRejected_shape st q response with hs | ⟨hidle, _, heq⟩ | ⟨hbusy, _, heq⟩
  · exact coordinated_of_same _ _ hs h
  · obtain ⟨_, hB, hC, hD⟩ := h
    obtain ⟨hnone, hempty⟩ := hB hidle
    rw [heq]
    refine ⟨fun _ => by simp [hnone], fun hf => by simp at hf, hC, hD⟩
  · obtain ⟨hA, _, hC, hD⟩ := h
    rw [heq]
    refine ⟨fun _ => hA hbusy, fun hf => ?_, ?_, ?_⟩
    · simp only [subscribeTokenRefresh] at hf
      rw [hbusy] at hf
      exact absurd hf (by simp)
    · simp only [subscribeTokenRefresh, Pipeline.queuedTickets, List.map_append,
        List.map_cons, List.map_nil, ← List.append_assoc]
      rw [List.nodup_append]
      refine ⟨hC, List.nodup_singleton _, ?_⟩
      intro t ht hs
      simp only [List.mem_singleton] at hs
      have := hD t ht
      omega
    · intro t ht
      simp only [subscribeTokenRefresh, Pipeline.queuedTickets, List.map_append,
        List.map_cons, List.map_nil, ← List.append_assoc, List.mem_append,
        List.mem_singleton] at ht
      simp only [subscribeTokenRefresh]
      rcases ht with ht | rfl
      · have := hD t (by simpa [Pipeline.queuedTickets] using ht)
        omega
      · omega

/-- What a settlement leaves behind, whatever the reply: flag clear, no waiter queued,
no refresh call made, and the invoked tickets extended by the queued ones or unchanged. -/
theorem onRefreshSettled_shape (st : Pipeline) (q : Req) (error : AxiosError)
    (reply : RefreshReply) :
    (onRefreshSettled st q error reply).isRefreshing = false ∧
    (onRefreshSettled st q error reply).refreshSubscribers = [] ∧
    (onRefreshSettled st q error reply).awaitingRefresh = st.awaitingRefresh ∧
    (onRefreshSettled st q error reply).refreshCalls = st.refreshCalls ∧
    (onRefreshSettled st q error reply).nextTicket = st.nextTicket ∧
    ((onRefreshSettled st q error reply).invoked = st.invoked ++ st.queuedTickets ∨
     (onRefreshSettled st q error reply).invoked = st.invoked) := by
  cases hres : refreshAccessTokenSettle st.storage reply with
  | mk storage result =>
    cases result with
    | some t =>
      rw [onRefreshSettled_ok st q error reply storage t hres]
      exact ⟨rfl, rfl, rfl, rfl, rfl, Or.inl rfl⟩
    | none =>
      rw [onRefreshSettled_fail st q error reply storage hres]
      obtain ⟨_, e2, e3, _, _, e6, e7, _, e9, e10, _⟩ := redirectToLogin_fields
        { st with storage := storage, isRefreshing := false, refreshSubscribers := [] }
      exact ⟨e2, e3, e6, e7, e9, Or.inr e10⟩

theorem coordinated_step (st : Pipeline) (ev : Event) (h : Coordinated st) :
    Coordinated (step st ev) := by
  cases ev with
  | request url authorization => exact coordinated_of_same _ _ (same_instanceCall _ _) h
  | success i =>
    simp only [step]
    cases pick st.inFlight i with
    | none => exact h
    | some p => exact coordinated_of_same st _ ⟨rfl, rfl, rfl, rfl, rfl, rfl⟩ h
  | failure i response =>
    simp only [step]
    cases pick st.inFlight i with
    | none => exact h
    | some p =>
      exact coordinated_onRejected _ p.1 response
        (coordinated_of_same st _ ⟨rfl, rfl, rfl, rfl, rfl, rfl⟩ h)
  | timer i =>
    simp only [step]
    cases pick st.timers i with
    | none => exact h
    | some p =>
      exact coordinated_of_same st _
        (same_trans st { st with timers := p.2 } _ ⟨rfl, rfl, rfl, rfl, rfl, rfl⟩
          (same_instanceCall _ _)) h
  | refresh i reply =>
    simp only [step]
    cases hp : pick st.awaitingRefresh i with
    | none => exact h
    | some p =>
      obtain ⟨a, rest⟩ := p
      obtain ⟨ha, _, hlen, _⟩ := pick_some hp
      obtain ⟨hA, hB, hC, hD⟩ := h
      have hbusy : st.isRefreshing = true := by
        cases hb : st.isRefreshing with
        | true => rfl
        | false =>
          rw [(hB hb).1] at ha
          simp at ha
      have hrest : rest = [] := by
        have := hA hbusy
        rw [hlen] at this
        exact List.length_eq_zero.mp (by omega)
      subst hrest
      obtain ⟨e1, e2, e3, _, e5, e6⟩ := onRefreshSettled_shape
        { st with awaitingRefresh := [] } a.1 a.2 reply
      have hC1 : st.invoked.Nodup := (List.nodup_append.mp hC).1
      refine ⟨fun hf => ?_, fun _ => ⟨e3, e2⟩, ?_, ?_⟩
      · rw [e1] at hf
        exact absurd hf (by simp)
      · simp only [Pipeline.queuedTickets, e2, List.map_nil, List.append_nil]
        rcases e6 with e6 | e6
        · rw [e6]; exact hC
        · rw [e6]; exact hC1
      · intro t ht
        simp only [Pipeline.queuedTickets, e2, List.map_nil, List.append_nil] at ht
        rw [e5]
        rcases e6 with e6 | e6
        · rw [e6] at ht; exact hD t ht
        · rw [e6] at ht; exact hD t (List.mem_append_left _ ht)
  | outside storage pathname =>
    exact coordinated_of_same st _ ⟨rfl, rfl, rfl, rfl, rfl, rfl⟩ h

theorem coordinated_of_reachable (st : Pipeline) (h : Reachable st) : Coordinated st := by
  refine reachable_induction Coordinated ?_ coordinated_step st h
  intro storage pathname
  simp [Coordinated, Pipeline.start, Pipeline.queuedTickets]

/-! ## Network failures -/

theorem requestInterceptor_again (storage : Storage) (config : Config) (k : Nat) :
    requestInterceptor storage { requestInterceptor storage config with retryCount := some k } =
      { requestInterceptor storage config with retryCount := some k } := by
  unfold requestInterceptor addRetryFlag
  cases getItem storage "accessToken" with
  | none => simp
  | some token =>
    by_cases h : (token != "") = true
    · simp [h]
    · simp [h]

/-- C7: a request of the application is sent and every send fails without a response
(no other request is in flight or waiting for a timer).  The handler waits
`1 * RETRY_DELAY`, `2 * RETRY_DELAY`, `3 * RETRY_DELAY` ms (1000, 2000, 3000) before
the first, second and third retry; the fourth failure sets no timer and sends nothing,
and the request, sent 4 times in all, is rejected with the object whose code is
`NETWORK_ERROR` and whose `originalError` is the fourth failure (the error without a
response for the config whose retry counter is 3). -/
theorem network_failure_retries (st : Pipeline) (url authorization : Option String)
    (hin : st.inFlight = []) (htm : st.timers = []) :
    (run st (networkFailures url authorization)).delays =
      st.delays ++ [1 * RETRY_DELAY, 2 * RETRY_DELAY, 3 * RETRY_DELAY] ∧
    [1 * RETRY_DELAY, 2 * RETRY_DELAY, 3 * RETRY_DELAY] = [1000, 2000, 3000] ∧
    (run st (networkFailures url authorization)).inFlight = [] ∧
    (run st (networkFailures url authorization)).timers = [] ∧
    (run st (networkFailures url authorization)).settled = st.settled ++
      [({ config := { requestInterceptor st.storage
                        { url := url, authorization := authorization, retryCount := none,
                          isRetryRequest := false } with retryCount := some 3 },
          sends := 4, retries := 3, refreshes := 0 },
        Settlement.rejected (Rejection.network
          { message := "Network error. Please check your internet connection.",
            code := "NETWORK_ERROR",
            originalError :=
              { config := { requestInterceptor st.storage
                              { url := url, authorization := authorization,
                                retryCount := none, isRetryRequest := false } with
                            retryCount := some 3 },
                response := none } }))] := by
  obtain ⟨h1, h2, h3⟩ := requestInterceptor_fields st.storage
    { url := url, authorization := authorization, retryCount := none, isRetryRequest := false }
  have hagain := requestInterceptor_again st.storage
    { url := url, authorization := authorization, retryCount := none, isRetryRequest := false }
  simp only [Option.getD_none] at h1
  refine ⟨?_, by decide, ?_, ?_, ?_⟩ <;>
    simp [run, networkFailures, step, pick, instanceCall, onRejected, canRetry, bumpRetry,
      scheduleRetry, rejectWith, hin, htm, h1, hagain, MAX_RETRY_ATTEMPTS, RETRY_DELAY]

theorem network_failure_retries_witness :
    exampleStart.inFlight = [] ∧
    (run exampleStart (networkFailures (some "/api/books") none)).delays =
      exampleStart.delays ++ [1 * RETRY_DELAY, 2 * RETRY_DELAY, 3 * RETRY_DELAY] :=
  ⟨by decide, (network_failure_retries exampleStart (some "/api/books") none
    (by decide) (by decide)).1⟩

/-! ## Refresh failure -/

/-- The state after a failed refresh that was awaited by the handler of `q`. -/
theorem settle_fail_state (st : Pipeline) (q : Req) (error : AxiosError)
    (reply : RefreshReply) (h : st.awaitingRefresh = [(q, error)])
    (hfail : ∀ t u, reply = RefreshReply.ok true (some t) u → t = "") :
    (step st (Event.refresh 0 reply)).refreshCalls = st.refreshCalls ∧
    (step st (Event.refresh 0 reply)).awaitingRefresh = [] ∧
    (step st (Event.refresh 0 reply)).isRefreshing = false ∧
    (step st (Event.refresh 0 reply)).refreshSubscribers = [] ∧
    (step st (Event.refresh 0 reply)).inFlight = st.inFlight ∧
    (step st (Event.refresh 0 reply)).timers = st.timers ∧
    getItem (step st (Event.refresh 0 reply)).storage "accessToken" = none ∧
    getItem (step st (Event.refresh 0 reply)).storage "user" = none ∧
    (step st (Event.refresh 0 reply)).settled =
      st.settled ++ [(q, Settlement.rejected (Rejection.original error))] := by
  have hsettle : refreshAccessTokenSettle
      ({ st with awaitingRefresh := [] } : Pipeline).storage reply =
      (clearAllAuthData st.storage, none) := refreshAccessTokenSettle_fail _ reply hfail
  rw [step_refresh_single st q error reply 0 h (by simp [h]),
    onRefreshSettled_fail { st with awaitingRefresh := [] } q error reply _ hsettle]
  obtain ⟨e1, e2, e3, e4, e5, e6, e7, _, _, _, e11⟩ := redirectToLogin_fields
    { st with awaitingRefresh := [], storage := clearAllAuthData st.storage,
              isRefreshing := false, refreshSubscribers := [] }
  simp only [rejectWith]
  refine ⟨e7, e6, e2, e3, e4, e5, ?_, ?_, ?_⟩
  · rw [e1]; exact (getItem_clearAllAuthData _).1
  · rw [e1]; exact (getItem_clearAllAuthData _).2
  · rw [e11]

/-- C4: a request that is neither an auth endpoint nor a retried request receives a 401
while the pipeline is idle, and the refresh call it starts fails for whatever reason
(the call rejects, or resolves without a truthy `success` or without a non-empty
`accessToken`).  Then one refresh call has been made in all and none is pending, the
request is not sent again and no timer is set, localStorage has no `accessToken` and no
`user`, and the request is rejected with the 401 error the handler was called with. -/
theorem failed_refresh_ends_session (st : Pipeline) (q : Req) (r : Response)
    (reply : RefreshReply) (h401 : r.status = 401)
    (hurl : urlIncludes q.config.url "/auth/" = false)
    (hretry : q.config.isRetryRequest = false)
    (hidle : st.isRefreshing = false) (hnone : st.awaitingRefresh = [])
    (hfail : ∀ t u, reply = RefreshReply.ok true (some t) u → t = "") :
    (refreshRound st q r reply).refreshCalls = st.refreshCalls + 1 ∧
    (refreshRound st q r reply).awaitingRefresh = [] ∧
    (refreshRound st q r reply).isRefreshing = false ∧
    (refreshRound st q r reply).refreshSubscribers = [] ∧
    (refreshRound st q r reply).inFlight = st.inFlight ∧
    (refreshRound st q r reply).timers = st.timers ∧
    getItem (refreshRound st q r reply).storage "accessToken" = none ∧
    getItem (refreshRound st q r reply).storage "user" = none ∧
    (refreshRound st q r reply).settled = st.settled ++
      [(q, Settlement.rejected
            (Rejection.original { config := q.config, response := some r }))] := by
  unfold refreshRound
  rw [onRejected_401_first st q r h401 hurl hretry hidle, hnone]
  obtain ⟨e1, e2, e3, e4, e5, e6, e7, e8, e9⟩ := settle_fail_state
    { st with isRefreshing := true, refreshCalls := st.refreshCalls + 1,
              awaitingRefresh := [] ++ [(q, { config := q.config, response := some r })] }
    q { config := q.config, response := some r } reply rfl hfail
  exact ⟨e1, e2, e3, e4, e5, e6, e7, e8, e9⟩

theorem failed_refresh_ends_session_witness :
    urlIncludes (exampleReq "/api/books").config.url "/auth/" = false ∧
    getItem (refreshRound exampleStart (exampleReq "/api/books") unauthorized
      RefreshReply.failed).storage "accessToken" = none :=
  ⟨by decide, (failed_refresh_ends_session exampleStart (exampleReq "/api/books")
    unauthorized RefreshReply.failed rfl (by decide) rfl rfl rfl
    (fun _ _ h => by cases h)).2.2.2.2.2.2.1⟩

/-- C2 (the code at the failing input): two requests are answered 401, the first starts
the refresh and the second is queued; the refresh fails.  Afterwards the queue is empty,
no waiter callback was invoked, the pipeline holds no request, and the only promise
settled is that of the first request: the promise of the queued one stays pending. -/
theorem failed_refresh_drops_waiter :
    twoUnauthorized.refreshSubscribers.map (fun w => w.2.config.url) =
      [some "/api/reviews/1"] ∧
    (step twoUnauthorized (Event.refresh 0 RefreshReply.failed)).refreshSubscribers = [] ∧
    (step twoUnauthorized (Event.refresh 0 RefreshReply.failed)).invoked = [] ∧
    (step twoUnauthorized (Event.refresh 0 RefreshReply.failed)).inFlight = [] ∧
    (step twoUnauthorized (Event.refresh 0 RefreshReply.failed)).timers = [] ∧
    (step twoUnauthorized (Event.refresh 0 RefreshReply.failed)).awaitingRefresh = [] ∧
    (step twoUnauthorized (Event.refresh 0 RefreshReply.failed)).settled.map
      (fun s => s.1.config.url) = [some "/api/books"] := by
  decide

/-- C6 (the code at the failing input): the page is at `/`, localStorage holds a
session, and `GET /auth/me` is answered 401.  The guard of line 163 matches the url, so
the handler clears localStorage and sets the location to `/login` before it rejects;
the special case of lines 172-175 is not reached. -/
theorem auth_me_probe_is_redirected :
    probeStart.pathname = "/" ∧
    getItem probeStart.storage "accessToken" = some "old" ∧
    (step probeStart (Event.failure 0 (some unauthorized))).storage = [] ∧
    (step probeStart (Event.failure 0 (some unauthorized))).pathname = "/login" ∧
    (step probeStart (Event.failure 0 (some unauthorized))).settled.map
      (fun s => s.1.config.url) = [some "/auth/me"] := by
  decide

theorem single_flight_refresh_witness :
    (∀ x ∈ [exampleReq "/api/books", exampleReq "/api/reviews/1"],
      urlIncludes x.config.url "/auth/" = false ∧ x.config.isRetryRequest = false) ∧
    (step ([exampleReq "/api/books", exampleReq "/api/reviews/1"].foldl
        (fun s x => onRejected s x (some ((fun _ => unauthorized) x))) exampleStart)
      (Event.refresh 0 (RefreshReply.ok true (some "new") none))).refreshCalls =
      exampleStart.refreshCalls + 1 :=
  ⟨by decide, (single_flight_refresh exampleStart (exampleReq "/api/books")
    [exampleReq "/api/reviews/1"] (fun _ => unauthorized) "new" none rfl rfl rfl
    (by decide) (by decide) (by decide)).2.2.1⟩

/-! ## The coordinator in every reachable state -/

/-- A step makes a refresh call only when the flag is clear, and then exactly one. -/
theorem step_refreshCalls (st : Pipeline) (ev : Event) :
    (step st ev).refreshCalls = st.refreshCalls ∨
    (st.isRefreshing = false ∧ (step st ev).refreshCalls = st.refreshCalls + 1) := by
  cases ev with
  | request url authorization => exact Or.inl rfl
  | success i =>
    simp only [step]
    cases pick st.inFlight i with
    | none => exact Or.inl rfl
    | some p => exact Or.inl rfl
  | failure i response =>
    simp only [step]
    cases pick st.inFlight i with
    | none => exact Or.inl rfl
    | some p =>
      obtain ⟨q, rest⟩ := p
      rcases onRejected_shape { st with inFlight := rest } q response with
        hs | ⟨hidle, _, heq⟩ | ⟨_, _, heq⟩
      · exact Or.inl hs.2.2.2.2.2
      · have h1 := congrArg Pipeline.refreshCalls heq
        exact Or.inr ⟨hidle, h1⟩
      · have h1 := congrArg Pipeline.refreshCalls heq
        exact Or.inl h1
  | timer i =>
    simp only [step]
    cases pick st.timers i with
    | none => exact Or.inl rfl
    | some p => exact Or.inl rfl
  | refresh i reply =>
    simp only [step]
    cases pick st.awaitingRefresh i with
    | none => exact Or.inl rfl
    | some p =>
      obtain ⟨a, rest⟩ := p
      exact Or.inl (onRefreshSettled_shape { st with awaitingRefresh := rest }
        a.1 a.2 reply).2.2.2.1
  | outside storage pathname => exact Or.inl rfl

/-- C3: in every reachable state of the pipeline at most one handler awaits a refresh
call, none does and no waiter is queued while the flag is clear, and a step makes a
refresh call only when none is awaited; no ticket (one is handed out for each waiter
callback at subscription) occurs twice among the tickets invoked and the tickets still
queued, so no waiter callback is invoked more than once; and when the awaited refresh
call settles, with whatever reply, the waiter list is empty, the flag is clear and no
refresh call is awaited right after that step. -/
theorem coordinator_invariant (st : Pipeline) (h : Reachable st) :
    st.awaitingRefresh.length ≤ 1 ∧
    (st.isRefreshing = false → st.awaitingRefresh = [] ∧ st.refreshSubscribers = []) ∧
    (∀ ev, (step st ev).refreshCalls = st.refreshCalls ∨
      (st.awaitingRefresh = [] ∧ (step st ev).refreshCalls = st.refreshCalls + 1)) ∧
    (st.invoked ++ st.queuedTickets).Nodup ∧ st.invoked.Nodup ∧
    (∀ i reply, i < st.awaitingRefresh.length →
      (step st (Event.refresh i reply)).refreshSubscribers = [] ∧
      (step st (Event.refresh i reply)).isRefreshing = false ∧
      (step st (Event.refresh i reply)).awaitingRefresh = []) := by
  obtain ⟨hA, hB, hC, hD⟩ := coordinated_of_reachable st h
  have hlen : st.awaitingRefresh.length ≤ 1 := by
    cases hb : st.isRefreshing with
    | true => exact le_of_eq (hA hb)
    | false => rw [(hB hb).1]; simp
  refine ⟨hlen, hB, ?_, hC, (List.nodup_append.mp hC).1, ?_⟩
  · intro ev
    rcases step_refreshCalls st ev with h1 | ⟨hidle, h1⟩
    · exact Or.inl h1
    · exact Or.inr ⟨(hB hidle).1, h1⟩
  · intro i reply hi
    obtain ⟨_, hB2, _, _⟩ := coordinated_step st (Event.refresh i reply)
      ⟨hA, hB, hC, hD⟩
    have hpick : ∃ a rest, pick st.awaitingRefresh i = some (a, rest) := by
      unfold pick
      rw [List.getElem?_eq_getElem hi]
      exact ⟨_, _, rfl⟩
    obtain ⟨a, rest, hp⟩ := hpick
    have hshape := onRefreshSettled_shape { st with awaitingRefresh := rest } a.1 a.2 reply
    have hstep : step st (Event.refresh i reply) =
        onRefreshSettled { st with awaitingRefresh := rest } a.1 a.2 reply := by
      simp only [step, hp]
    rw [hstep]
    rw [hstep] at hB2
    exact ⟨hshape.2.1, hshape.1, (hB2 hshape.1).1⟩

theorem coordinator_invariant_witness :
    Reachable twoUnauthorized ∧ twoUnauthorized.awaitingRefresh.length ≤ 1 :=
  ⟨⟨_, _, _, rfl⟩, (coordinator_invariant twoUnauthorized ⟨_, _, _, rfl⟩).1⟩

/-! ## Bounded retries -/

theorem bookkeeping_of_counted (st : Pipeline) (h : Counted st) (q : Req)
    (hq : q ∈ st.requests) :
    q.config.retryCount = some q.retries ∧ q.retries ≤ MAX_RETRY_ATTEMPTS ∧
    q.refreshes = (if q.config.isRetryRequest then 1 else 0) ∧
    q.sends ≤ 1 + q.retries + q.refreshes := by
  obtain ⟨h1, h2, h3, h4, h5⟩ := h
  simp only [Pipeline.requests, List.mem_append, List.mem_map] at hq
  rcases hq with (((hq | ⟨t, ht, rfl⟩) | ⟨w, hw, rfl⟩) | ⟨a, ha, rfl⟩) | ⟨x, hx, rfl⟩
  · obtain ⟨c1, c2, c3, c4⟩ := h1 q hq
    exact ⟨c1, c2, c3, le_of_eq c4⟩
  · obtain ⟨c1, c2, c3, c4⟩ := h2 t ht
    exact ⟨c1, c2, c3, by omega⟩
  · obtain ⟨⟨c1, c2, c3, c4⟩, _⟩ := h3 w hw
    exact ⟨c1, c2, c3, le_of_eq c4⟩
  · obtain ⟨⟨c1, c2, c3, c4⟩, _⟩ := h4 a ha
    exact ⟨c1, c2, c3, le_of_eq c4⟩
  · obtain ⟨c1, c2, c3, c4⟩ := h5 x hx
    exact ⟨c1, c2, c3, le_of_eq c4⟩

/-- The only timers the error handler sets: one, after the counter test, for the
config with the counter incremented; this is the same for the three retry branches. -/
theorem onRejected_timers (st : Pipeline) (q : Req) (response : Option Response) :
    (onRejected st q response).timers = st.timers ∨
    (canRetry q.config = true ∧ ∃ ms, (onRejected st q response).timers = st.timers ++
      [(ms, { q with config := bumpRetry q.config, retries := q.retries + 1 })]) := by
  have hredirect := (redirectToLogin_fields st).2.2.2.2.1
  unfold onRejected
  cases response with
  | none =>
    simp only
    split
    · rename_i hcan
      exact Or.inr ⟨hcan, _, rfl⟩
    · exact Or.inl rfl
  | some r =>
    simp only
    split
    · split
      · exact Or.inl hredirect
      · split
        · exact Or.inl rfl
        · split
          · exact Or.inl rfl
          · exact Or.inl rfl
    · split
      · exact Or.inl rfl
      · split
        · split
          · rename_i hcan
            exact Or.inr ⟨hcan, _, rfl⟩
          · exact Or.inl rfl
        · split
          · split
            · rename_i hcan
              exact Or.inr ⟨hcan, _, rfl⟩
            · exact Or.inl rfl
          · exact Or.inl rfl

/-- C9: in every reachable state, for every request the pipeline holds or has settled,
the retry counter of its config is the number of re-sends the retry branches have made
or scheduled for it (so it was never reset) and is at most `MAX_RETRY_ATTEMPTS` = 3, the
request was re-sent after a token refresh at most once, and it was sent at most
1 + 3 + 1 = 5 times.  The network-failure, 429 and 5xx branches share the counter: the
only timer the error handler ever sets is set after the test `canRetry` and for the
config with the counter incremented. -/
theorem retries_bounded (st : Pipeline) (h : Reachable st) (q : Req) (hq : q ∈ st.requests) :
    q.config.retryCount = some q.retries ∧ q.retries ≤ MAX_RETRY_ATTEMPTS ∧
    MAX_RETRY_ATTEMPTS = 3 ∧ q.refreshes ≤ 1 ∧
    q.sends ≤ 1 + q.retries + q.refreshes ∧ q.sends ≤ 5 ∧
    (∀ (st' : Pipeline) (response : Option Response),
      (onRejected st' q response).timers = st'.timers ∨
      (canRetry q.config = true ∧ ∃ ms, (onRejected st' q response).timers = st'.timers ++
        [(ms, { q with config := bumpRetry q.config, retries := q.retries + 1 })])) := by
  obtain ⟨c1, c2, c3, c4⟩ := bookkeeping_of_counted st (counted_of_reachable st h) q hq
  have hr : q.refreshes ≤ 1 := by
    rw [c3]; split <;> omega
  have h3 : MAX_RETRY_ATTEMPTS = 3 := rfl
  refine ⟨c1, c2, h3, hr, c4, ?_, fun st' response => onRejected_timers st' q response⟩
  rw [h3] at c2
  omega

theorem retries_bounded_witness :
    Reachable fiveSends ∧
    fiveSends.requests.map (fun q => q.sends) = [5] ∧
    ∀ q ∈ fiveSends.requests, q.sends ≤ 5 :=
  ⟨⟨_, _, _, rfl⟩, by decide,
   fun q hq => (retries_bounded fiveSends ⟨_, _, _, rfl⟩ q hq).2.2.2.2.2.1⟩

/-! ## Auth endpoints and retried requests -/

/-- C5: a 401 for a request whose url includes `/auth/` or that is marked as a retried
request makes no refresh call and queues no waiter; the handler clears localStorage
(no `accessToken`, no `user` afterwards), sends nothing, sets no timer and rejects with
the error it received.  And in every reachable state a request that has been re-sent
after a refresh is marked as a retried request, so no failure of it, in whatever state
of the pipeline, makes a refresh call or queues a waiter. -/
theorem auth_or_retried_401_never_refreshes :
    (∀ (st : Pipeline) (q : Req) (r : Response), r.status = 401 →
      (urlIncludes q.config.url "/auth/" = true ∨ q.config.isRetryRequest = true) →
      (onRejected st q (some r)).refreshCalls = st.refreshCalls ∧
      (onRejected st q (some r)).awaitingRefresh = st.awaitingRefresh ∧
      (onRejected st q (some r)).refreshSubscribers = st.refreshSubscribers ∧
      (onRejected st q (some r)).inFlight = st.inFlight ∧
      (onRejected st q (some r)).timers = st.timers ∧
      (onRejected st q (some r)).storage = clearAllAuthData st.storage ∧
      getItem (onRejected st q (some r)).storage "accessToken" = none ∧
      getItem (onRejected st q (some r)).storage "user" = none ∧
      (onRejected st q (some r)).settled = st.settled ++
        [(q, Settlement.rejected
              (Rejection.original { config := q.config, response := some r }))]) ∧
    (∀ (st : Pipeline), Reachable st → ∀ q ∈ st.requests, 0 < q.refreshes →
      q.config.isRetryRequest = true ∧
      ∀ (st' : Pipeline) (response : Option Response),
        (onRejected st' q response).refreshCalls = st'.refreshCalls ∧
        (onRejected st' q response).awaitingRefresh = st'.awaitingRefresh ∧
        (onRejected st' q response).refreshSubscribers = st'.refreshSubscribers) := by
  constructor
  · intro st q r h401 hguard
    rw [onRejected_401_guard st q r h401 hguard]
    obtain ⟨e1, _, e3, e4, e5, e6, e7, _, _, _, e11⟩ := redirectToLogin_fields st
    simp only [rejectWith]
    refine ⟨e7, e6, e3, e4, e5, e1, ?_, ?_, ?_⟩
    · rw [e1]; exact (getItem_clearAllAuthData _).1
    · rw [e1]; exact (getItem_clearAllAuthData _).2
    · rw [e11]
  · intro st hreach q hq hpos
    obtain ⟨_, _, c3, _⟩ := bookkeeping_of_counted st (counted_of_reachable st hreach) q hq
    have hflag : q.config.isRetryRequest = true := by
      cases hf : q.config.isRetryRequest with
      | true => rfl
      | false =>
        rw [hf] at c3
        simp at c3
        omega
    refine ⟨hflag, fun st' response => ?_⟩
    rcases onRejected_shape st' q response with hs | ⟨_, hno, _⟩ | ⟨_, hno, _⟩
    · exact ⟨hs.2.2.2.2.2, hs.2.1, hs.2.2.1⟩
    · rw [hflag] at hno; exact absurd hno (by simp)
    · rw [hflag] at hno; exact absurd hno (by simp)

theorem auth_or_retried_401_never_refreshes_witness :
    urlIncludes (exampleReq "/auth/login").config.url "/auth/" = true ∧
    (onRejected exampleStart (exampleReq "/auth/login") (some unauthorized)).refreshCalls =
      exampleStart.refreshCalls ∧
    (∀ q ∈ fiveSends.requests, 0 < q.refreshes → q.config.isRetryRequest = true) :=
  ⟨by decide,
   (auth_or_retried_401_never_refreshes.1 exampleStart (exampleReq "/auth/login")
      unauthorized rfl (Or.inl (by decide))).1,
   fun q hq hpos =>
     (auth_or_retried_401_never_refreshes.2 fiveSends ⟨_, _, _, rfl⟩ q hq hpos).1⟩

/-! ## The request interceptor -/

/-- C11: for every config and every localStorage, the request interceptor sets
`Authorization` to `"Bearer " ++ t` when `getItem('accessToken')` is a non-empty `t`,
and leaves the header as it was when the item is `null` or empty; the retry counter of
the result is 0 when the config has none and is the config's own counter otherwise;
the url and the retried mark are not touched. -/
theorem request_interceptor_contract (storage : Storage) (config : Config) :
    (∀ t, getItem storage "accessToken" = some t → t ≠ "" →
      (requestInterceptor storage config).authorization = some ("Bearer " ++ t)) ∧
    ((getItem storage "accessToken" = none ∨ getItem storage "accessToken" = some "") →
      (requestInterceptor storage config).authorization = config.authorization) ∧
    (config.retryCount = none → (requestInterceptor storage config).retryCount = some 0) ∧
    (∀ k, config.retryCount = some k →
      (requestInterceptor storage config).retryCount = some k) ∧
    (requestInterceptor storage config).url = config.url ∧
    (requestInterceptor storage config).isRetryRequest = config.isRetryRequest := by
  obtain ⟨h1, h2, h3⟩ := requestInterceptor_fields storage config
  refine ⟨?_, ?_, ?_, ?_, h3, h2⟩
  · intro t ht hne
    rw [requestInterceptor_of_token storage t config ht hne]
  · intro h
    rcases h with h | h <;> simp [requestInterceptor, addRetryFlag, h]
  · intro h
    rw [h1, h]; rfl
  · intro k h
    rw [h1, h]; rfl

theorem request_interceptor_contract_witness :
    getItem exampleStart.storage "accessToken" = some "old" ∧
    (requestInterceptor exampleStart.storage
      { url := some "/api/books", authorization := none, retryCount := some 2,
        isRetryRequest := false }).authorization = some ("Bearer " ++ "old") ∧
    (requestInterceptor exampleStart.storage
      { url := some "/api/books", authorization := none, retryCount := some 2,
        isRetryRequest := false }).retryCount = some 2 :=
  ⟨by decide,
   (request_interceptor_contract exampleStart.storage _).1 "old" (by decide) (by decide),
   (request_interceptor_contract exampleStart.storage _).2.2.2.1 2 rfl⟩

/-! ## Full session clear -/

theorem isAuthKey_accessToken : isAuthKey "accessToken" = true := by decide

theorem isAuthKey_user : isAuthKey "user" = true := by decide

/-- A key whose lower-case form is `token` only by the Kelvin sign is an auth key and
is swept. -/
theorem kelvin_key_is_swept :
    isAuthKey kelvinKey = true ∧
    clearAllAuthData [(kelvinKey, "v"), ("theme", "dark")] = [("theme", "dark")] := by
  decide

/-- The two `removeItem` calls of `clearAllAuthData` are subsumed by its sweep. -/
theorem clearAllAuthData_eq_filter (s : Storage) :
    clearAllAuthData s = s.filter (fun kv => !isAuthKey kv.1) := by
  unfold clearAllAuthData removeItem
  simp only [List.filter_filter]
  apply List.filter_congr
  intro kv _
  by_cases h1 : kv.1 = "accessToken"
  · simp [h1, isAuthKey_accessToken]
  · by_cases h2 : kv.1 = "user"
    · simp [h2, isAuthKey_user]
    · simp [h1, h2]

theorem lookup_filter_keep (s : Storage) (key : String) (p : String × String → Bool)
    (h : ∀ v, p (key, v) = true) : (s.filter p).lookup key = s.lookup key := by
  induction s with
  | nil => simp
  | cons kv s ih =>
    obtain ⟨k, v⟩ := kv
    by_cases hk : key = k
    · subst hk
      simp [List.filter_cons, h v, List.lookup_cons]
    · have hne : (key == k) = false := by simpa using hk
      by_cases hp : p (k, v) = true
      · simp [List.filter_cons, hp, List.lookup_cons, hne, ih]
      · simp [List.filter_cons, hp, List.lookup_cons, hne, ih]

/-- C15: after `clearAllAuthData` no key of localStorage is an auth key (its
lower-cased form includes `token`, `auth` or `user`); every entry whose key is not an
auth key is still there, and `getItem` of such a key returns what it returned before;
a second `clearAllAuthData` changes nothing. -/
theorem clearAllAuthData_contract (s : Storage) :
    (∀ kv ∈ clearAllAuthData s, isAuthKey kv.1 = false) ∧
    (∀ kv ∈ clearAllAuthData s, kv ∈ s) ∧
    (∀ kv ∈ s, isAuthKey kv.1 = false → kv ∈ clearAllAuthData s) ∧
    (∀ key, isAuthKey key = false →
      getItem (clearAllAuthData s) key = getItem s key) ∧
    clearAllAuthData (clearAllAuthData s) = clearAllAuthData s := by
  simp only [clearAllAuthData_eq_filter]
  refine ⟨?_, ?_, ?_, ?_, ?_⟩
  · intro kv hkv
    have := (List.mem_filter.mp hkv).2
    simpa using this
  · intro kv hkv
    exact (List.mem_filter.mp hkv).1
  · intro kv hkv hno
    exact List.mem_filter.mpr ⟨hkv, by simp [hno]⟩
  · intro key hno
    exact lookup_filter_keep s key _ (fun v => by simp [hno])
  · simp [List.filter_filter]

theorem clearAllAuthData_contract_witness :
    isAuthKey "theme" = false ∧
    getItem (clearAllAuthData exampleStart.storage) "theme" =
      getItem exampleStart.storage "theme" ∧
    getItem exampleStart.storage "theme" = some "dark" :=
  ⟨by decide,
   (clearAllAuthData_contract exampleStart.storage).2.2.2.1 "theme" (by decide),
   by decide⟩

/-! ## The session check -/

/-- C12 (as stated, refuted): localStorage holds an access token and no user, which
violates the Session invariant; `isAuthenticated` returns false, and afterwards
localStorage still holds the access token. -/
theorem isAuthenticated_counterexample :
    getItem [("accessToken", "t")] "user" = none ∧
    (isAuthenticated (fun _ => true) [("accessToken", "t")]).1 = false ∧
    getItem (isAuthenticated (fun _ => true) [("accessToken", "t")]).2 "accessToken" =
      some "t" := by
  decide

/-- C12 (amended): `isAuthenticated` returns false for every localStorage in which the
access token is missing or empty, the user is missing or empty, or the user text does
not parse.  When token and user are both there and the user text does not parse, it
clears the session: afterwards localStorage has no `accessToken` and no `user`.  When
the token or the user is missing or empty, it leaves localStorage as it is. -/
theorem isAuthenticated_contract (parses : String → Bool) (s : Storage) :
    ((truthy (getItem s "accessToken") = false ∨ truthy (getItem s "user") = false ∨
        parses ((getItem s "user").getD "") = false) →
      (isAuthenticated parses s).1 = false) ∧
    (truthy (getItem s "accessToken") = true → truthy (getItem s "user") = true →
      parses ((getItem s "user").getD "") = false →
      getItem (isAuthenticated parses s).2 "accessToken" = none ∧
      getItem (isAuthenticated parses s).2 "user" = none) ∧
    ((truthy (getItem s "accessToken") = false ∨ truthy (getItem s "user") = false) →
      (isAuthenticated parses s).2 = s) := by
  refine ⟨?_, ?_, ?_⟩
  · intro h
    unfold isAuthenticated
    rcases h with h | h | h
    · simp [h]
    · simp [h]
    · by_cases hg : (!truthy (getItem s "accessToken") || !truthy (getItem s "user")) = true
      · simp only [hg, if_true]
      · simp only [hg, h]
        simp
  · intro ht hu hp
    unfold isAuthenticated
    simp only [ht, hu, hp]
    exact getItem_clearAllAuthData s
  · intro h
    unfold isAuthenticated
    rcases h with h | h <;> simp [h]

theorem isAuthenticated_contract_witness :
    truthy (getItem [("accessToken", "t"), ("user", "not json")] "accessToken") = true ∧
    getItem (isAuthenticated (fun _ => false)
      [("accessToken", "t"), ("user", "not json")]).2 "accessToken" = none :=
  ⟨by decide,
   ((isAuthenticated_contract (fun _ => false)
      [("accessToken", "t"), ("user", "not json")]).2.1
      (by decide) (by decide) rfl).1⟩

/-! ## Login, register and logout in the Auth Context -/

/-- C13 (the code at the failing input): localStorage is empty and `loginUser` (or
`registerUser`) resolves with an access token and a user.  Afterwards the context
state holds the user, localStorage holds the access token, and localStorage has no
`user` entry; the session check of the auth service rejects that storage. -/
theorem login_stores_token_without_user :
    (AuthContext.login { state := { user := none, accessToken := none, loading := true },
                         storage := [], toasts := [] }
      (Except.ok { accessToken := "tok",
                   user := some { id := 7, name := "Ann", email := "ann@example.org",
                                  role := "user" } })).1.storage = [("accessToken", "tok")] ∧
    (AuthContext.register { state := { user := none, accessToken := none, loading := true },
                            storage := [], toasts := [] }
      (Except.ok { accessToken := "tok",
                   user := some { id := 7, name := "Ann", email := "ann@example.org",
                                  role := "user" } })).1.storage = [("accessToken", "tok")] ∧
    getItem [("accessToken", "tok")] "user" = none ∧
    (isAuthenticated (fun _ => true) [("accessToken", "tok")]).1 = false := by
  decide

/-- A failure of a request to an auth endpoint, such as `POST /auth/logout`, never
makes the handler await a refresh or queue a waiter: the request is retried or its
promise settles, so the call of the auth service resolves or rejects. -/
theorem onRejected_auth_endpoint (st : Pipeline) (q : Req) (response : Option Response)
    (h : urlIncludes q.config.url "/auth/" = true) :
    SameCoordinator st (onRejected st q response) := by
  rcases onRejected_shape st q response with hs | ⟨_, hno, heq⟩ | ⟨_, hno, heq⟩
  · exact hs
  · exfalso
    cases response with
    | none =>
      have := congrArg Pipeline.refreshCalls heq
      unfold onRejected at this
      simp only at this
      split at this
      · simp [scheduleRetry] at this
      · simp [rejectWith] at this
    | some r =>
      by_cases h401 : r.status = 401
      · have := congrArg Pipeline.refreshCalls heq
        rw [onRejected_401_guard st q r h401 (Or.inl h)] at this
        simp [rejectWith, (redirectToLogin_fields st).2.2.2.2.2.2.1] at this
      · have := congrArg Pipeline.refreshCalls heq
        unfold onRejected at this
        simp only [beq_iff_eq, h401, if_false] at this
        repeat' split at this
        all_goals simp [scheduleRetry, rejectWith] at this
  · exfalso
    cases response with
    | none =>
      have := congrArg Pipeline.nextTicket heq
      unfold onRejected at this
      simp only at this
      split at this
      · simp [scheduleRetry, subscribeTokenRefresh] at this
      · simp [rejectWith, subscribeTokenRefresh] at this
    | some r =>
      by_cases h401 : r.status = 401
      · have := congrArg Pipeline.nextTicket heq
        rw [onRejected_401_guard st q r h401 (Or.inl h)] at this
        simp [rejectWith, subscribeTokenRefresh,
          (redirectToLogin_fields st).2.2.2.2.2.2.2.2.1] at this
      · have := congrArg Pipeline.nextTicket heq
        unfold onRejected at this
        simp only [beq_iff_eq, h401, if_false] at this
        repeat' split at this
        all_goals simp [scheduleRetry, rejectWith, subscribeTokenRefresh] at this

/-- C14: `logoutUser` resolves, and never rejects, whether the call of
`POST /auth/logout` resolved or rejected and whatever localStorage held.  After
`logout` of the Auth Context, from every state of the client, `user` and `accessToken`
are null and `loading` is false, localStorage has no `accessToken` and no `user`, the
toast added is the success toast, not `Logout failed.`; the same holds for a second
logout right after the first. -/
theorem logout_always_anonymous (c : Client) (reply reply2 : LogoutReply) :
    (∃ message, (logoutUser c.storage reply).2 = Except.ok message) ∧
    (AuthContext.logout c reply).state =
      { user := none, accessToken := none, loading := false } ∧
    getItem (AuthContext.logout c reply).storage "accessToken" = none ∧
    getItem (AuthContext.logout c reply).storage "user" = none ∧
    (AuthContext.logout c reply).toasts =
      c.toasts ++ [Toast.success "Logged out successfully!"] ∧
    (AuthContext.logout (AuthContext.logout c reply) reply2).state =
      { user := none, accessToken := none, loading := false } ∧
    getItem (AuthContext.logout (AuthContext.logout c reply) reply2).storage
      "accessToken" = none ∧
    getItem (AuthContext.logout (AuthContext.logout c reply) reply2).storage "user" = none ∧
    (AuthContext.logout (AuthContext.logout c reply) reply2).toasts =
      c.toasts ++ [Toast.success "Logged out successfully!",
                   Toast.success "Logged out successfully!"] := by
  have key : ∀ (d : Client) (r : LogoutReply),
      AuthContext.logout d r =
        { state := { user := none, accessToken := none, loading := false },
          storage := clearAllAuthData (clearAllAuthData d.storage),
          toasts := d.toasts ++ [Toast.success "Logged out successfully!"] } := by
    intro d r
    cases r <;> simp [AuthContext.logout, logoutUser]
  refine ⟨?_, ?_, ?_, ?_, ?_, ?_, ?_, ?_, ?_⟩
  · cases reply <;> simp [logoutUser]
  · rw [key]
  · rw [key]; exact (getItem_clearAllAuthData _).1
  · rw [key]; exact (getItem_clearAllAuthData _).2
  · rw [key]
  · rw [key]
  · rw [key]; exact (getItem_clearAllAuthData _).1
  · rw [key]; exact (getItem_clearAllAuthData _).2
  · rw [key, key]; simp

/-! ## The server: the refresh handler -/

theorem orDefault_ne_empty (value : Option String) (fallback : String)
    (h : fallback ≠ "") : orDefault value fallback ≠ "" := by
  unfold orDefault
  cases value with
  | none => exact h
  | some v =>
    by_cases hv : (v != "") = true
    · simp only [hv, if_true]
      simpa using hv
    · simp only [hv]
      exact h

theorem JWT_SECRET_ne_empty (loadEnv : Env) : JWT_SECRET loadEnv ≠ "" :=
  orDefault_ne_empty _ _ (by decide)

theorem JWT_REFRESH_SECRET_ne_empty (loadEnv : Env) : JWT_REFRESH_SECRET loadEnv ≠ "" :=
  orDefault_ne_empty _ _ (by decide)

/-- A token verifies under the secret it was signed with until it expires. -/
theorem jwtVerify_jwtSign (userId : Nat) (secret : String) (lifetime issuedAt now : Nat)
    (hs : secret ≠ "") (hlive : now < issuedAt + lifetime) :
    jwtVerify (TokenText.jwt (jwtSign userId secret lifetime issuedAt)) secret now =
      some (jwtSign userId secret lifetime issuedAt) := by
  have h1 : (secret != "") = true := by simpa using hs
  simp [jwtVerify, jwtSign, h1, hlive]

/-- A token does not verify under another secret. -/
theorem jwtVerify_other_secret (token : Jwt) (secret : String) (now : Nat)
    (hne : token.signedWith ≠ secret) : jwtVerify (TokenText.jwt token) secret now = none := by
  have h1 : (token.signedWith == secret) = false := by simpa using hne
  simp [jwtVerify, h1]

/-- C16 (as stated, refuted): the cookie holds a valid refresh token and the user
lookup rejects; the handler ends with 500 `Server error during token refresh`, which
is none of 401, 403, 401 `User not found` and 200. -/
theorem refresh_handler_counterexample :
    verifyToken envBothSet 60 (TokenText.jwt (generateRefreshToken envBothSet 0 7))
        envBothSet.JWT_REFRESH_SECRET = some (generateRefreshToken envBothSet 0 7) ∧
    Controller.refreshToken envBothSet envBothSet 60
        (some (TokenText.jwt (generateRefreshToken envBothSet 0 7)))
        (fun _ => Lookup.failed "connection lost") =
      { cookies := [], outcome := Outcome.next 500 "Server error during token refresh" } := by
  decide

/-- C16 (amended): the refresh handler never sets a cookie, and it ends with 401
`Refresh token missing` when the cookie is absent or empty; otherwise with 403 when the
cookie text does not verify under the secret the handler passes; otherwise with 500
`Server error during token refresh` when the user lookup rejects, with 401
`User not found` when it finds no user, and with 200 and
`success: true`, a new access token for the user found and that user's `id`, `name`,
`email`, `role` when it finds one. -/
theorem refresh_handler_result (loadEnv requestEnv : Env) (now : Nat)
    (cookie : Option TokenText) (findById : Nat → Lookup) :
    (Controller.refreshToken loadEnv requestEnv now cookie findById).cookies = [] ∧
    (cookiePresent cookie = false →
      (Controller.refreshToken loadEnv requestEnv now cookie findById).outcome =
        Outcome.next 401 "Refresh token missing") ∧
    (∀ text, cookie = some text → cookiePresent cookie = true →
      verifyToken loadEnv now text requestEnv.JWT_REFRESH_SECRET = none →
      (Controller.refreshToken loadEnv requestEnv now cookie findById).outcome =
        Outcome.next 403 "Invalid or expired refresh token") ∧
    (∀ text payload, cookie = some text → cookiePresent cookie = true →
      verifyToken loadEnv now text requestEnv.JWT_REFRESH_SECRET = some payload →
      (∀ m, findById payload.userId = Lookup.failed m →
        (Controller.refreshToken loadEnv requestEnv now cookie findById).outcome =
          Outcome.next 500 "Server error during token refresh") ∧
      (findById payload.userId = Lookup.missing →
        (Controller.refreshToken loadEnv requestEnv now cookie findById).outcome =
          Outcome.next 401 "User not found") ∧
      (∀ user, findById payload.userId = Lookup.found user →
        (Controller.refreshToken loadEnv requestEnv now cookie findById).outcome =
          Outcome.json 200
            { success := true, accessToken := generateAccessToken loadEnv now user.id,
              user := userView user })) := by
  refine ⟨?_, ?_, ?_, ?_⟩
  · unfold Controller.refreshToken
    split
    · rfl
    · split
      · rfl
      · split <;> rfl
  · intro h
    simp [Controller.refreshToken, h]
  · intro text hc hp hv
    subst hc
    simp [Controller.refreshToken, hp, hv]
  · intro text payload hc hp hv
    subst hc
    refine ⟨?_, ?_, ?_⟩
    · intro m hm
      simp [Controller.refreshToken, hp, hv, hm]
    · intro hm
      simp [Controller.refreshToken, hp, hv, hm]
    · intro user hu
      simp [Controller.refreshToken, hp, hv, hu]

theorem refresh_handler_result_witness :
    cookiePresent (some (TokenText.other "")) = false ∧
    (Controller.refreshToken envBothSet envBothSet 60 (some (TokenText.other ""))
      annOnly).outcome = Outcome.next 401 "Refresh token missing" :=
  ⟨by decide,
   (refresh_handler_result envBothSet envBothSet 60 (some (TokenText.other ""))
      annOnly).2.1 (by decide)⟩

/-- C17 (the code at the failing input): `JWT_REFRESH_SECRET` is not set.  The refresh
token that `login` puts in the cookie is signed with the fallback constant of
jwtUtils.js; the refresh handler passes `process.env.JWT_REFRESH_SECRET`, which is
`undefined`, so `verifyToken` falls back to `JWT_SECRET`, and the token of an existing
user, one minute old, is answered 403.  The same happens when nothing is set at all,
and when the variable is set only after jwtUtils.js has been evaluated. -/
theorem refresh_token_rejected_when_secret_unset :
    (Controller.login envWithoutRefreshSecret envWithoutRefreshSecret 0 true
        "ann@example.org" "secret" annByEmail acceptPassword).cookies.map
      (fun c => c.value) = [generateRefreshToken envWithoutRefreshSecret 0 7] ∧
    annOnly 7 = Lookup.found ann ∧
    Controller.refreshToken envWithoutRefreshSecret envWithoutRefreshSecret 60
        (some (TokenText.jwt (generateRefreshToken envWithoutRefreshSecret 0 7))) annOnly =
      { cookies := [], outcome := Outcome.next 403 "Invalid or expired refresh token" } ∧
    Controller.refreshToken envEmpty envEmpty 60
        (some (TokenText.jwt (generateRefreshToken envEmpty 0 7))) annOnly =
      { cookies := [], outcome := Outcome.next 403 "Invalid or expired refresh token" } ∧
    Controller.refreshToken envEmpty envBothSet 60
        (some (TokenText.jwt (generateRefreshToken envEmpty 0 7))) annOnly =
      { cookies := [], outcome := Outcome.next 403 "Invalid or expired refresh token" } := by
  decide

/-- When `JWT_REFRESH_SECRET` is set to the same non-empty value both when jwtUtils.js
is evaluated and when the request is handled, a refresh token that has not expired is
accepted and answered with a new access token for its user. -/
theorem refresh_round_trip_when_set (loadEnv requestEnv : Env) (issuedAt now : Nat)
    (secret : String) (user : User) (findById : Nat → Lookup)
    (hload : loadEnv.JWT_REFRESH_SECRET = some secret) (hs : secret ≠ "")
    (hreq : requestEnv.JWT_REFRESH_SECRET = some secret)
    (hlive : now < issuedAt + REFRESH_LIFETIME)
    (hfound : findById user.id = Lookup.found user) :
    Controller.refreshToken loadEnv requestEnv now
        (some (TokenText.jwt (generateRefreshToken loadEnv issuedAt user.id))) findById =
      { cookies := [],
        outcome := Outcome.json 200
          { success := true, accessToken := generateAccessToken loadEnv now user.id,
            user := userView user } } := by
  have hne : (secret != "") = true := by simpa using hs
  have hsec : JWT_REFRESH_SECRET loadEnv = secret := by
    simp [JWT_REFRESH_SECRET, orDefault, hload, hne]
  have hv : verifyToken loadEnv now
      (TokenText.jwt (generateRefreshToken loadEnv issuedAt user.id))
      requestEnv.JWT_REFRESH_SECRET =
      some (generateRefreshToken loadEnv issuedAt user.id) := by
    unfold verifyToken generateRefreshToken
    rw [hreq, hsec]
    exact jwtVerify_jwtSign user.id secret REFRESH_LIFETIME issuedAt now hs hlive
  have hid : (generateRefreshToken loadEnv issuedAt user.id).userId = user.id := rfl
  simp [Controller.refreshToken, cookiePresent, hv, hid, hfound]

/-- C18 (as stated, refuted): both secrets are set to the same value.  The secret the
refresh handler verifies with is then the secret that signs access tokens, and an
access token placed in the `refreshToken` cookie is answered 200 with a new access
token. -/
theorem key_separation_counterexample :
    envSameSecret.JWT_REFRESH_SECRET.getD (JWT_SECRET envSameSecret) =
      JWT_SECRET envSameSecret ∧
    Controller.refreshToken envSameSecret envSameSecret 60
        (some (TokenText.jwt (generateAccessToken envSameSecret 0 7))) annOnly =
      { cookies := [],
        outcome := Outcome.json 200
          { success := true, accessToken := generateAccessToken envSameSecret 60 7,
            user := userView ann } } := by
  decide

/-- C18 (amended): when `JWT_REFRESH_SECRET` is set at the time of the request and
differs from the secret that signs access tokens, the secret the refresh handler
verifies with differs from that signing secret, and every access token placed in the
`refreshToken` cookie is answered 403: no new access token is issued. -/
theorem access_token_rejected_as_refresh_token (loadEnv requestEnv : Env)
    (issuedAt now userId : Nat) (findById : Nat → Lookup) (secret : String)
    (hset : requestEnv.JWT_REFRESH_SECRET = some secret)
    (hne : secret ≠ JWT_SECRET loadEnv) :
    requestEnv.JWT_REFRESH_SECRET.getD (JWT_SECRET loadEnv) ≠
      (generateAccessToken loadEnv issuedAt userId).signedWith ∧
    Controller.refreshToken loadEnv requestEnv now
        (some (TokenText.jwt (generateAccessToken loadEnv issuedAt userId))) findById =
      { cookies := [], outcome := Outcome.next 403 "Invalid or expired refresh token" } := by
  have hv : verifyToken loadEnv now
      (TokenText.jwt (generateAccessToken loadEnv issuedAt userId))
      requestEnv.JWT_REFRESH_SECRET = none := by
    unfold verifyToken
    rw [hset]
    exact jwtVerify_other_secret _ secret now (fun h => hne h.symm)
  refine ⟨?_, ?_⟩
  · rw [hset]
    exact hne
  · simp [Controller.refreshToken, cookiePresent, hv]

theorem access_token_rejected_as_refresh_token_witness :
    envBothSet.JWT_REFRESH_SECRET = some "refresh-secret" ∧
    Controller.refreshToken envBothSet envBothSet 60
        (some (TokenText.jwt (generateAccessToken envBothSet 0 7))) annOnly =
      { cookies := [], outcome := Outcome.next 403 "Invalid or expired refresh token" } :=
  ⟨rfl, (access_token_rejected_as_refresh_token envBothSet envBothSet 0 60 7 annOnly
    "refresh-secret" rfl (by decide)).2⟩

/-! ## The server: register, login and the current user -/

/-- C19: whenever `login` or `register` responds with a body (200 for login, 201 for
register, and no other status), it has set exactly one cookie, named `refreshToken`,
holding the refresh token of the user in the response, with `httpOnly = true`,
`path = "/"`, `sameSite` `strict` when `NODE_ENV` is `production` and `lax` otherwise,
`secure` true exactly when `NODE_ENV` is `production`, and `maxAge = 604800000` ms,
which is the refresh token's lifetime of 7 days; the options are the same in both
handlers. -/
theorem refresh_cookie_contract (loadEnv requestEnv : Env) (now : Nat) (valid : Bool)
    (email password : String) (findOne : String → Lookup)
    (comparePassword : User → String → Except String Bool) (save : Except String User) :
    (∀ status body,
      (Controller.login loadEnv requestEnv now valid email password findOne
        comparePassword).outcome = Outcome.json status body →
      status = 200 ∧
      (Controller.login loadEnv requestEnv now valid email password findOne
        comparePassword).cookies =
        [{ name := "refreshToken",
           value := generateRefreshToken loadEnv now body.user.id,
           options := { httpOnly := true,
                        sameSite := if requestEnv.NODE_ENV = some "production" then "strict"
                                    else "lax",
                        secure := decide (requestEnv.NODE_ENV = some "production"),
                        path := "/",
                        maxAge := 604800000 } }]) ∧
    (∀ status body,
      (Controller.register loadEnv requestEnv now valid email findOne save).outcome =
        Outcome.json status body →
      status = 201 ∧
      (Controller.register loadEnv requestEnv now valid email findOne save).cookies =
        [{ name := "refreshToken",
           value := generateRefreshToken loadEnv now body.user.id,
           options := { httpOnly := true,
                        sameSite := if requestEnv.NODE_ENV = some "production" then "strict"
                                    else "lax",
                        secure := decide (requestEnv.NODE_ENV = some "production"),
                        path := "/",
                        maxAge := 604800000 } }]) ∧
    604800000 = REFRESH_LIFETIME * 1000 ∧
    (generateRefreshToken loadEnv now 0).expiresAt = now + REFRESH_LIFETIME := by
  have hprod : isProduction requestEnv = decide (requestEnv.NODE_ENV = some "production") := by
    unfold isProduction
    by_cases h : requestEnv.NODE_ENV = some "production" <;> simp [h]
  refine ⟨?_, ?_, by decide, rfl⟩
  · intro status body h
    unfold Controller.login at h ⊢
    cases valid with
    | false => simp at h
    | true =>
      simp only [Bool.not_true, Bool.false_eq_true, if_false] at h ⊢
      cases hf : findOne email with
      | failed m => simp [hf] at h
      | missing => simp [hf] at h
      | found user =>
        simp only [hf] at h ⊢
        cases hc : comparePassword user password with
        | error m => simp [hc] at h
        | ok b =>
          cases b with
          | false => simp [hc] at h
          | true =>
            simp only [hc, Outcome.json.injEq] at h ⊢
            obtain ⟨h1, h2⟩ := h
            subst h2
            refine ⟨h1.symm, ?_⟩
            simp [hprod, userView]
  · intro status body h
    unfold Controller.register at h ⊢
    cases valid with
    | false => simp at h
    | true =>
      simp only [Bool.not_true, Bool.false_eq_true, if_false] at h ⊢
      cases hf : findOne email with
      | failed m => simp [hf] at h
      | found user => simp [hf] at h
      | missing =>
        simp only [hf] at h ⊢
        cases save with
        | error m => simp at h
        | ok user =>
          simp only [Outcome.json.injEq] at h ⊢
          obtain ⟨h1, h2⟩ := h
          subst h2
          refine ⟨h1.symm, ?_⟩
          simp [hprod, userView]

theorem refresh_cookie_contract_witness :
    (Controller.login envBothSet envBothSet 0 true "ann@example.org" "secret" annByEmail
      acceptPassword).outcome =
      Outcome.json 200 { message := "Login successful",
                         accessToken := generateAccessToken envBothSet 0 7,
                         user := userView ann } ∧
    (Controller.login envBothSet envBothSet 0 true "ann@example.org" "secret" annByEmail
      acceptPassword).cookies.map (fun c => (c.name, c.options.sameSite, c.options.maxAge)) =
      [("refreshToken", "strict", 604800000)] :=
  ⟨by decide, by
    rw [((refresh_cookie_contract envBothSet envBothSet 0 true "ann@example.org" "secret"
      annByEmail acceptPassword (Except.error "")).1 200
      { message := "Login successful", accessToken := generateAccessToken envBothSet 0 7,
        user := userView ann } (by decide)).2]
    decide⟩

/-- C20: a user `u` is found by the email and the password check accepts.  Then
`login` responds 200 with an access token and `u`'s id, and that token, sent as
`Authorization: Bearer <token>` to `GET /auth/me` before it expires while the user
still exists, passes `verifyAccessToken` with `u`'s id and is answered 200 with
`data.id` equal to the id of the login response. -/
theorem login_round_trip (loadEnv requestEnv : Env) (loginTime now : Nat)
    (email password : String) (findOne : String → Lookup)
    (comparePassword : User → String → Except String Bool) (findById : Nat → Lookup)
    (u u2 : User)
    (hfound : findOne email = Lookup.found u)
    (hpw : comparePassword u password = Except.ok true)
    (hlive : now < loginTime + ACCESS_LIFETIME)
    (hstill : findById u.id = Lookup.found u2) (hid : u2.id = u.id) :
    ∃ body me,
      (Controller.login loadEnv requestEnv loginTime true email password findOne
        comparePassword).outcome = Outcome.json 200 body ∧
      body.user.id = u.id ∧
      body.accessToken = generateAccessToken loadEnv loginTime u.id ∧
      verifyAccessToken loadEnv now
        (some (AuthorizationHeader.bearer (TokenText.jwt body.accessToken))) =
        Except.ok u.id ∧
      (Routes.me loadEnv now
        (some (AuthorizationHeader.bearer (TokenText.jwt body.accessToken)))
        findById).outcome = Outcome.json 200 me ∧
      me.data.id = body.user.id := by
  have hv : verifyAccessToken loadEnv now
      (some (AuthorizationHeader.bearer
        (TokenText.jwt (generateAccessToken loadEnv loginTime u.id)))) = Except.ok u.id := by
    unfold verifyAccessToken verifyToken generateAccessToken
    simp only [Option.getD_none]
    rw [jwtVerify_jwtSign u.id (JWT_SECRET loadEnv) ACCESS_LIFETIME loginTime now
      (JWT_SECRET_ne_empty loadEnv) hlive]
    rfl
  refine ⟨{ message := "Login successful",
            accessToken := generateAccessToken loadEnv loginTime u.id,
            user := userView u },
          { success := true, data := userView u2 }, ?_, rfl, rfl, hv, ?_, ?_⟩
  · simp [Controller.login, hfound, hpw]
  · simp only [Routes.me, hv, hstill]
  · simp [userView, hid]

theorem login_round_trip_witness :
    annByEmail "ann@example.org" = Lookup.found ann ∧
    ∃ body me,
      (Controller.login envEmpty envEmpty 0 true "ann@example.org" "secret" annByEmail
        acceptPassword).outcome = Outcome.json 200 body ∧
      body.user.id = ann.id ∧
      body.accessToken = generateAccessToken envEmpty 0 ann.id ∧
      verifyAccessToken envEmpty 1799
        (some (AuthorizationHeader.bearer (TokenText.jwt body.accessToken))) =
        Except.ok ann.id ∧
      (Routes.me envEmpty 1799
        (some (AuthorizationHeader.bearer (TokenText.jwt body.accessToken)))
        annOnly).outcome = Outcome.json 200 me ∧
      me.data.id = body.user.id :=
  ⟨by decide,
   login_round_trip envEmpty envEmpty 0 1799 "ann@example.org" "secret" annByEmail
     acceptPassword annOnly ann ann (by decide) rfl (by decide) (by decide) rfl⟩

/-! ## The pagination window -/

theorem arrayFrom_run (first : Int) (n : Nat) :
    (arrayFrom (n : Int) (fun i => first + (i : Int))).length = n ∧
    (∀ x, x ∈ arrayFrom (n : Int) (fun i => first + (i : Int)) ↔
      first ≤ x ∧ x < first + (n : Int)) ∧
    (arrayFrom (n : Int) (fun i => first + (i : Int))).Pairwise (fun a b => a < b) ∧
    (∀ i, i < n →
      (arrayFrom (n : Int) (fun i => first + (i : Int)))[i]? = some (first + (i : Int))) := by
  unfold arrayFrom
  simp only [Int.toNat_ofNat]
  refine ⟨by simp, ?_, ?_, ?_⟩
  · intro x
    simp only [List.mem_map, List.mem_range]
    constructor
    · rintro ⟨i, hi, rfl⟩
      omega
    · intro ⟨h1, h2⟩
      refine ⟨(x - first).toNat, ?_, ?_⟩ <;> omega
  · rw [List.pairwise_map]
    refine (List.pairwise_lt_range n).imp ?_
    intro a b hab
    omega
  · intro i hi
    simp [List.getElem?_map, List.getElem?_range hi]

/-- C30: for `maxVisiblePages >= 1`, `totalPages >= 2` and
`1 <= currentPage <= totalPages`, `getVisiblePages` returns the pages
`first, first + 1, ..., first + n - 1` with `n = min(maxVisiblePages, totalPages)`:
a strictly ascending run of consecutive numbers, of length exactly `n`, within
`[1, totalPages]`, that contains `currentPage`. -/
theorem getVisiblePages_window (currentPage totalPages maxVisiblePages : Int)
    (hmax : 1 ≤ maxVisiblePages) (htotal : 2 ≤ totalPages)
    (hlow : 1 ≤ currentPage) (hhigh : currentPage ≤ totalPages) :
    ∃ first : Int,
      getVisiblePages currentPage totalPages maxVisiblePages =
        arrayFrom (min maxVisiblePages totalPages) (fun i => first + (i : Int)) ∧
      (getVisiblePages currentPage totalPages maxVisiblePages).length =
        (min maxVisiblePages totalPages).toNat ∧
      1 ≤ first ∧ first + min maxVisiblePages totalPages - 1 ≤ totalPages ∧
      currentPage ∈ getVisiblePages currentPage totalPages maxVisiblePages ∧
      (∀ x ∈ getVisiblePages currentPage totalPages maxVisiblePages,
        1 ≤ x ∧ x ≤ totalPages) ∧
      (getVisiblePages currentPage totalPages maxVisiblePages).Pairwise (fun a b => a < b) ∧
      (∀ i : Nat, (i : Int) < min maxVisiblePages totalPages →
        (getVisiblePages currentPage totalPages maxVisiblePages)[i]? =
          some (first + (i : Int))) := by
  have key : ∃ first : Int, 1 ≤ first ∧ first ≤ currentPage ∧
      currentPage < first + min maxVisiblePages totalPages ∧
      first + min maxVisiblePages totalPages - 1 ≤ totalPages ∧
      getVisiblePages currentPage totalPages maxVisiblePages =
        arrayFrom (min maxVisiblePages totalPages) (fun i => first + (i : Int)) := by
    unfold getVisiblePages
    by_cases h : totalPages ≤ maxVisiblePages
    · refine ⟨1, le_refl _, hlow, ?_, ?_, ?_⟩
      · rw [min_eq_right h]; omega
      · rw [min_eq_right h]; omega
      · simp only [h, if_true, min_eq_right h]
        unfold arrayFrom
        apply List.map_congr_left
        intro i _
        omega
    · have hlt : maxVisiblePages < totalPages := by omega
      simp only [h, if_false, min_eq_left (le_of_lt hlt)]
      by_cases h1 : currentPage - maxVisiblePages / 2 ≤ 1
      · rw [max_eq_right h1]
        have h2 : (1 : Int) + maxVisiblePages - 1 ≤ totalPages := by omega
        rw [min_eq_left h2]
        have h3 : ¬ ((1 : Int) + maxVisiblePages - 1 - 1 + 1 < maxVisiblePages) := by omega
        simp only [h3, if_false]
        refine ⟨1, le_refl _, hlow, by omega, by omega, ?_⟩
        congr 1
        omega
      · have h1' : 1 ≤ currentPage - maxVisiblePages / 2 := by omega
        rw [max_eq_left h1']
        by_cases h2 : currentPage - maxVisiblePages / 2 + maxVisiblePages - 1 ≤ totalPages
        · rw [min_eq_left h2]
          have h3 : ¬ (currentPage - maxVisiblePages / 2 + maxVisiblePages - 1 -
              (currentPage - maxVisiblePages / 2) + 1 < maxVisiblePages) := by omega
          simp only [h3, if_false]
          refine ⟨currentPage - maxVisiblePages / 2, h1', by omega, by omega, h2, ?_⟩
          congr 1
          omega
        · have h2' : totalPages ≤ currentPage - maxVisiblePages / 2 + maxVisiblePages - 1 := by
            omega
          rw [min_eq_right h2']
          have h3 : totalPages - (currentPage - maxVisiblePages / 2) + 1 < maxVisiblePages := by
            omega
          simp only [h3, if_true]
          have h4 : 1 ≤ totalPages - maxVisiblePages + 1 := by omega
          rw [max_eq_left h4]
          refine ⟨totalPages - maxVisiblePages + 1, h4, by omega, by omega, by omega, ?_⟩
          congr 1
          omega
  obtain ⟨first, h1, h2, h3, h4, heq⟩ := key
  have hn : min maxVisiblePages totalPages = ((min maxVisiblePages totalPages).toNat : Int) := by
    have : 0 ≤ min maxVisiblePages totalPages := by
      rcases min_choice maxVisiblePages totalPages with h | h <;> rw [h] <;> omega
    omega
  obtain ⟨r1, r2, r3, r4⟩ := arrayFrom_run first (min maxVisiblePages totalPages).toNat
  rw [← hn] at r1 r2 r3 r4
  refine ⟨first, heq, ?_, h1, h4, ?_, ?_, ?_, ?_⟩
  · rw [heq]; exact r1
  · rw [heq]; exact (r2 currentPage).mpr ⟨h2, h3⟩
  · intro x hx
    rw [heq] at hx
    have := (r2 x).mp hx
    omega
  · rw [heq]; exact r3
  · intro i hi
    rw [heq]
    exact r4 i (by omega)

theorem getVisiblePages_window_witness :
    getVisiblePages 7 10 5 = [5, 6, 7, 8, 9] ∧
    (getVisiblePages 7 10 5).length = (min (5 : Int) 10).toNat ∧
    (7 : Int) ∈ getVisiblePages 7 10 5 := by
  obtain ⟨first, _, h2, _, _, h5, _⟩ :=
    getVisiblePages_window 7 10 5 (by decide) (by decide) (by decide) (by decide)
  exact ⟨by decide, h2, h5⟩

/-! ## Pagination parameters and sort options of the list handlers -/

theorem bitsFrom_spec (fuel n k : Nat) (hk : k = 0 ∨ 2 ^ (k - 1) ≤ n)
    (hfuel : n < 2 ^ (k + fuel)) :
    n < 2 ^ bitsFrom fuel n k ∧ (bitsFrom fuel n k = 0 ∨ 2 ^ (bitsFrom fuel n k - 1) ≤ n) := by
  induction fuel generalizing k with
  | zero => exact ⟨by simpa [bitsFrom] using hfuel, by simpa [bitsFrom] using hk⟩
  | succ fuel ih =>
    unfold bitsFrom
    split
    · rename_i h
      exact ⟨h, hk⟩
    · rename_i h
      apply ih
      · right
        simpa using Nat.le_of_not_lt h
      · have : k + 1 + fuel = k + (fuel + 1) := by omega
        rw [this]
        exact hfuel

theorem bitLength_spec (n : Nat) :
    n < 2 ^ bitLength n ∧ (bitLength n = 0 ∨ 2 ^ (bitLength n - 1) ≤ n) := by
  apply bitsFrom_spec
  · left; rfl
  · simpa using Nat.lt_two_pow n

theorem roundHalfEven_bounds (a b : Nat) :
    a / b ≤ roundHalfEven a b ∧ roundHalfEven a b ≤ a / b + 1 := by
  unfold roundHalfEven
  split <;> omega

theorem roundNat_small (n : Nat) (h : n ≤ 2 ^ 53) : roundNat n = some n := by
  unfold roundNat
  rw [if_pos h]

/-- Above 2^53 the mantissa has at least 53 binary digits. -/
theorem mantissa_large (n : Nat) (h : 2 ^ 53 < n) :
    2 ^ 52 ≤ n / 2 ^ (bitLength n - 53) ∧ 54 ≤ bitLength n := by
  obtain ⟨hlt, hge⟩ := bitLength_spec n
  have hL : 54 ≤ bitLength n := by
    by_contra hc
    have : bitLength n ≤ 53 := by omega
    have := Nat.pow_le_pow_right (by norm_num : 0 < 2) this
    omega
  have hge2 : 2 ^ (bitLength n - 1) ≤ n := by
    rcases hge with h0 | h1
    · omega
    · exact h1
  refine ⟨?_, hL⟩
  rw [Nat.le_div_iff_mul_le (by positivity)]
  have : 2 ^ 52 * 2 ^ (bitLength n - 53) = 2 ^ (bitLength n - 1) := by
    rw [← pow_add]
    congr 1
    omega
  rw [this]
  exact hge2

theorem roundNat_pos (n m : Nat) (hn : 1 ≤ n) (h : roundNat n = some m) : 1 ≤ m := by
  unfold roundNat at h
  split at h
  · simp at h; omega
  · rename_i hbig
    simp only at h
    split at h
    · simp at h
      have hm := (mantissa_large n (by omega)).1
      have hb := (roundHalfEven_bounds n (2 ^ (bitLength n - 53))).1
      have h1 : 1 ≤ roundHalfEven n (2 ^ (bitLength n - 53)) := by
        have : (1 : Nat) ≤ 2 ^ 52 := by norm_num
        omega
      have h2 : 1 ≤ 2 ^ (bitLength n - 53) := Nat.one_le_two_pow
      rw [← h]
      exact Nat.mul_pos h1 h2
    · simp at h

theorem roundNat_huge (n : Nat) (hn : 2 ^ 1024 ≤ n) : roundNat n = none := by
  have hbig : 2 ^ 53 < n := lt_of_lt_of_le (by norm_num) hn
  obtain ⟨hm, _⟩ := mantissa_large n hbig
  obtain ⟨hlt, _⟩ := bitLength_spec n
  have hL : 1025 ≤ bitLength n := by
    by_contra hc
    have : bitLength n ≤ 1024 := by omega
    have := Nat.pow_le_pow_right (by norm_num : 0 < 2) this
    omega
  have hb := (roundHalfEven_bounds n (2 ^ (bitLength n - 53))).1
  have hnot : ¬ n ≤ 2 ^ 53 := by omega
  simp only [roundNat, hnot, if_false]
  rw [if_neg]
  intro hc
  have h1 : 2 ^ 52 * 2 ^ (bitLength n - 53) ≤
      roundHalfEven n (2 ^ (bitLength n - 53)) * 2 ^ (bitLength n - 53) :=
    Nat.mul_le_mul_right _ (le_trans hm hb)
  have h2 : 2 ^ 52 * 2 ^ (bitLength n - 53) = 2 ^ (bitLength n - 1) := by
    rw [← pow_add]
    congr 1
    omega
  have h3 : 2 ^ 1024 ≤ 2 ^ (bitLength n - 1) :=
    Nat.pow_le_pow_right (by norm_num) (by omega)
  omega

/-- The rounding core: when twice the scale exceeds the divisor, the ceiling of the
rounded scaled quotient is the ceiling of the quotient. -/
theorem ceil_of_rounded (a b D : Nat) (hb : 0 < b) (hD : 0 < D) (h2D : b < 2 * D) :
    a ≤ ((roundHalfEven (a * D) b + D - 1) / D) * b ∧
    ((roundHalfEven (a * D) b + D - 1) / D) * b < a + b := by
  have hX : b * (a * D / b) + a * D % b = a * D := Nat.div_add_mod (a * D) b
  have hr : a * D % b < b := Nat.mod_lt _ hb
  have hlo : ((roundHalfEven (a * D) b + D - 1) / D) * D ≤ roundHalfEven (a * D) b + D - 1 :=
    Nat.div_mul_le_self _ _
  have hhi : roundHalfEven (a * D) b + D - 1 <
      ((roundHalfEven (a * D) b + D - 1) / D + 1) * D := by
    have := Nat.lt_div_mul_add (a := roundHalfEven (a * D) b + D - 1) hD
    linarith [Nat.mul_comm D ((roundHalfEven (a * D) b + D - 1) / D)]
  generalize (roundHalfEven (a * D) b + D - 1) / D = t at hlo hhi ⊢
  have hm : roundHalfEven (a * D) b =
      if 2 * (a * D % b) > b ∨ (2 * (a * D % b) = b ∧ (a * D / b) % 2 = 1)
      then a * D / b + 1 else a * D / b := rfl
  generalize roundHalfEven (a * D) b = m at hlo hhi hm
  generalize a * D / b = q at hX hm
  generalize a * D % b = r at hX hr hm
  constructor
  · by_contra hc
    have hc : t * b + 1 ≤ a := by omega
    have h1 : (t * b + 1) * D ≤ a * D := Nat.mul_le_mul_right D hc
    have hmt : m ≤ t * D := by
      have : (t + 1) * D = t * D + D := by ring
      omega
    have h2 : b * m ≤ b * (t * D) := Nat.mul_le_mul_left b hmt
    have h3 : (t * b + 1) * D = b * (t * D) + D := by ring
    split at hm
    · subst hm
      have : b * (q + 1) = b * q + b := by ring
      omega
    · rename_i hno
      subst hm
      omega
  · by_contra hc
    have hc : a + b ≤ t * b := by omega
    have h1 : (a + b) * D ≤ t * b * D := Nat.mul_le_mul_right D hc
    have h3 : (a + b) * D = a * D + b * D := by ring
    have h4 : t * b * D = b * (t * D) := by ring
    have hmt : t * D + 1 ≤ m + D := by omega
    have h5 : b * (t * D + 1) ≤ b * (m + D) := Nat.mul_le_mul_left b hmt
    have h7 : b * (t * D + 1) = b * (t * D) + b := by ring
    have h6 : b * (m + D) = b * m + b * D := by ring
    split at hm
    · rename_i hup
      subst hm
      have : b * (q + 1) = b * q + b := by ring
      omega
    · subst hm
      omega

theorem divDouble_small (a b : Nat) (ha1 : 1 ≤ a) (ha : a < 2 ^ 53) (hb1 : 1 ≤ b)
    (hb : b ≤ 100) :
    ∃ s : Nat, divDouble a b = (roundHalfEven (a * 2 ^ s) b, -(s : Int)) ∧ b < 2 * 2 ^ s := by
  obtain ⟨hla_lt, hla_ge⟩ := bitLength_spec a
  obtain ⟨hlb_lt, hlb_ge⟩ := bitLength_spec b
  have hla1 : 1 ≤ bitLength a := by
    by_contra hc
    have h0 : bitLength a = 0 := by omega
    rw [h0] at hla_lt
    simp at hla_lt
    omega
  have hla53 : bitLength a ≤ 53 := by
    by_contra hc
    have h1 : 2 ^ 53 ≤ 2 ^ (bitLength a - 1) :=
      Nat.pow_le_pow_right (by norm_num) (by omega)
    rcases hla_ge with h0 | h2
    · omega
    · omega
  have hlb1 : 1 ≤ bitLength b := by
    by_contra hc
    have h0 : bitLength b = 0 := by omega
    rw [h0] at hlb_lt
    simp at hlb_lt
    omega
  have hlb7 : bitLength b ≤ 7 := by
    by_contra hc
    have h1 : 2 ^ 7 ≤ 2 ^ (bitLength b - 1) :=
      Nat.pow_le_pow_right (by norm_num) (by omega)
    rcases hlb_ge with h0 | h2
    · omega
    · omega
  have hpow : 2 ^ bitLength b ≤ 2 ^ (53 + bitLength b - bitLength a) :=
    Nat.pow_le_pow_right (by norm_num) (by omega)
  have he0 : (bitLength a : Int) - (bitLength b : Int) - 53 =
      -((53 + bitLength b - bitLength a : Nat) : Int) := by omega
  unfold divDouble
  simp only [he0, neg_neg, Int.toNat_neg_nat, Int.toNat_ofNat, pow_zero, mul_one]
  split
  · refine ⟨53 + bitLength b - bitLength a, ?_, by omega⟩
    rw [max_eq_left (by omega)]
    simp
  · refine ⟨53 + bitLength b - bitLength a - 1, ?_, ?_⟩
    · have he1 : -((53 + bitLength b - bitLength a : Nat) : Int) + 1 =
          -((53 + bitLength b - bitLength a - 1 : Nat) : Int) := by omega
      rw [he1, max_eq_left (by omega)]
      simp
    · have h2 : 2 * 2 ^ (53 + bitLength b - bitLength a - 1) =
          2 ^ (53 + bitLength b - bitLength a) := by
        rw [← pow_succ']
        congr 1
        omega
      omega

/-- For a count below 2^53 and a limit from 1 to 100, `Math.ceil(total / limit)` in
double arithmetic is the exact ceiling of the quotient. -/
theorem mathCeilDiv_exact (total : Nat) (limit : Int) (ht : total < 2 ^ 53)
    (hl1 : 1 ≤ limit) (hl2 : limit ≤ 100) :
    ∃ t : Int, mathCeilDiv total limit = JsNumber.fin t ∧
      (total : Int) ≤ t * limit ∧ (t - 1) * limit < total := by
  obtain ⟨b, rfl⟩ : ∃ b : Nat, limit = (b : Int) := ⟨limit.toNat, by omega⟩
  have hne : (b : Int) ≠ 0 := by omega
  have hpos : ¬ (b : Int) < 0 := by omega
  by_cases h0 : total = 0
  · subst h0
    exact ⟨0, by simp [mathCeilDiv, hne], by simp, by simp; omega⟩
  · obtain ⟨s, hs, h2D⟩ := divDouble_small total b (by omega) ht (by omega) (by omega)
    have hD : 0 < 2 ^ s := by positivity
    obtain ⟨hle, hlt⟩ := ceil_of_rounded total b (2 ^ s) (by omega) hD h2D
    refine ⟨(((roundHalfEven (total * 2 ^ s) b + 2 ^ s - 1) / 2 ^ s : Nat) : Int),
      ?_, ?_, ?_⟩
    · simp [mathCeilDiv, hne, h0, hpos, hs]
    · generalize (roundHalfEven (total * 2 ^ s) b + 2 ^ s - 1) / 2 ^ s = t at hle
      exact_mod_cast hle
    · generalize (roundHalfEven (total * 2 ^ s) b + 2 ^ s - 1) / 2 ^ s = t at hlt
      have h3 : ((t * b : Nat) : Int) < ((total + b : Nat) : Int) := by
        exact_mod_cast hlt
      push_cast at h3
      linarith

theorem toNumber_small (z : Int) (h : z.natAbs ≤ 2 ^ 53) : toNumber z = JsNumber.fin z := by
  unfold toNumber
  rw [roundNat_small _ h]
  simp only []
  split
  · congr 1
    omega
  · congr 1
    omega

theorem toNumber_huge (z : Int) (h : 2 ^ 1024 ≤ z) : toNumber z = JsNumber.posInf := by
  unfold toNumber
  have hn : 2 ^ 1024 ≤ z.natAbs := by omega
  rw [roundNat_huge _ hn]
  simp only []
  rw [if_neg (by omega)]

theorem limitOf_range (limit : QueryValue) : 1 ≤ limitOf limit ∧ limitOf limit ≤ 100 := by
  unfold limitOf
  split
  · omega
  · omega
  · split
    · omega
    · split <;> omega
  · omega

theorem pageOf_cases (page : QueryValue) :
    pageOf page = JsNumber.posInf ∨ ∃ p, pageOf page = JsNumber.fin p ∧ 1 ≤ p := by
  unfold pageOf
  split
  · exact Or.inr ⟨1, rfl, le_refl _⟩
  · exact Or.inr ⟨1, rfl, le_refl _⟩
  · rename_i p _
    by_cases hp : p < 1
    · exact Or.inr ⟨1, by simp [hp], le_refl _⟩
    · exact Or.inr ⟨p, by simp [hp], by omega⟩
  · exact Or.inl rfl

/-- The skip `(page - 1) * limit` is exact when `page * limit` is at most 2^53. -/
theorem skip_exact (p l : Int) (hp : 1 ≤ p) (hl : 1 ≤ l) (h : p * l ≤ 2 ^ 53) :
    ((JsNumber.fin p).sub (JsNumber.fin 1)).mul (JsNumber.fin l) =
      JsNumber.fin ((p - 1) * l) := by
  have hpl : p ≤ p * l := by nlinarith
  have h1 : (p - 1) * l ≤ p * l := by nlinarith
  have h0 : 0 ≤ (p - 1) * l := by nlinarith
  have hsub : toNumber (p - 1) = JsNumber.fin (p - 1) := toNumber_small _ (by omega)
  have hmul : toNumber ((p - 1) * l) = JsNumber.fin ((p - 1) * l) :=
    toNumber_small _ (by omega)
  simp only [JsNumber.sub, hsub, JsNumber.mul, hmul]

set_option maxRecDepth 100000 in
/-- C22 (as stated, refuted): the page parameter is a 1 followed by 309 zeros.
`parseInt` returns Infinity, which is neither NaN nor below 1, so `getAllBooks` and
`getAllReviews` keep it: the page is no integer, it is written as `null` in the body,
and the value passed to `.skip(...)` is Infinity.  For the page 9007199254740993 the
page used is 9007199254740992. -/
theorem pagination_counterexample :
    parseQueryInt (QueryValue.text hugePage) "1" = JsNumber.posInf ∧
    (getAllBooks hugePageQuery 45).body.page = JsNumber.posInf ∧
    jsonNumber (getAllBooks hugePageQuery 45).body.page = none ∧
    (getAllBooks hugePageQuery 45).skip = JsNumber.posInf ∧
    (getAllReviews (fun _ => false) hugePageQuery 45).outcome =
      Outcome.json 200
        { total := 45, totalPages := JsNumber.fin 5, page := JsNumber.posInf, limit := 10 } ∧
    (getAllReviews (fun _ => false) hugePageQuery 45).skip = JsNumber.posInf ∧
    (getAllBooks { page := QueryValue.text "9007199254740993", limit := QueryValue.absent,
                   sort := QueryValue.absent } 45).body.page =
      JsNumber.fin 9007199254740992 := by
  decide

/-- C22 (amended): for every value of the `page` and `limit` parameters, `getAllBooks`
and `getAllReviews` use an integer limit from 1 to 100: 10 when `parseInt` gives NaN or
a number below 1, 100 when it gives a number above 100, the parsed number otherwise.
The page is 1 when `parseInt` gives NaN or a number below 1 and the parsed Number
otherwise: an integer of at least 1, or Infinity.  The Number `parseInt` gives for
digits that denote at most 2^53 is that integer, and Infinity from 2^1024 on.  The
handlers skip `(page - 1) * limit` documents, computed in double arithmetic: the exact
product when `page * limit` is at most 2^53, Infinity for the page Infinity.  They
report that page and limit with `totalPages`, for a total below 2^53 the least integer
with `totalPages * limit >= total`.  `getAllReviews` does so with status 200 when
`.sort(...)` accepts the sort value and answers 500 when it throws. -/
theorem pagination_normalised (sortThrows : QueryValue → Bool) (query : ListQuery)
    (total : Nat) :
    1 ≤ (getAllBooks query total).limit ∧ (getAllBooks query total).limit ≤ 100 ∧
    (getAllBooks query total).body.limit = (getAllBooks query total).limit ∧
    ((parseQueryInt query.limit "10" = JsNumber.nan ∨
        parseQueryInt query.limit "10" = JsNumber.negInf ∨
        ∃ l, parseQueryInt query.limit "10" = JsNumber.fin l ∧ l < 1) →
      (getAllBooks query total).limit = 10) ∧
    ((parseQueryInt query.limit "10" = JsNumber.posInf ∨
        ∃ l, parseQueryInt query.limit "10" = JsNumber.fin l ∧ 100 < l) →
      (getAllBooks query total).limit = 100) ∧
    (∀ l, parseQueryInt query.limit "10" = JsNumber.fin l → 1 ≤ l → l ≤ 100 →
      (getAllBooks query total).limit = l) ∧
    ((getAllBooks query total).body.page = JsNumber.posInf ∨
      ∃ p, (getAllBooks query total).body.page = JsNumber.fin p ∧ 1 ≤ p) ∧
    ((parseQueryInt query.page "1" = JsNumber.nan ∨
        parseQueryInt query.page "1" = JsNumber.negInf ∨
        ∃ p, parseQueryInt query.page "1" = JsNumber.fin p ∧ p < 1) →
      (getAllBooks query total).body.page = JsNumber.fin 1) ∧
    (∀ p, parseQueryInt query.page "1" = JsNumber.fin p → 1 ≤ p →
      (getAllBooks query total).body.page = JsNumber.fin p) ∧
    (parseQueryInt query.page "1" = JsNumber.posInf →
      (getAllBooks query total).body.page = JsNumber.posInf) ∧
    (∀ z : Int, z.natAbs ≤ 2 ^ 53 → toNumber z = JsNumber.fin z) ∧
    (∀ z : Int, 2 ^ 1024 ≤ z → toNumber z = JsNumber.posInf) ∧
    (getAllBooks query total).skip =
      ((getAllBooks query total).body.page.sub (JsNumber.fin 1)).mul
        (JsNumber.fin (getAllBooks query total).limit) ∧
    (∀ p, (getAllBooks query total).body.page = JsNumber.fin p →
      p * (getAllBooks query total).limit ≤ 2 ^ 53 →
      (getAllBooks query total).skip =
        JsNumber.fin ((p - 1) * (getAllBooks query total).limit)) ∧
    ((getAllBooks query total).body.page = JsNumber.posInf →
      (getAllBooks query total).skip = JsNumber.posInf) ∧
    (getAllBooks query total).body.total = total ∧
    (total < 2 ^ 53 →
      ∃ t : Int, (getAllBooks query total).body.totalPages = JsNumber.fin t ∧
        (total : Int) ≤ t * (getAllBooks query total).limit ∧
        (t - 1) * (getAllBooks query total).limit < total) ∧
    (getAllReviews sortThrows query total).skip = (getAllBooks query total).skip ∧
    (getAllReviews sortThrows query total).limit = (getAllBooks query total).limit ∧
    (sortThrows (getAllReviews sortThrows query total).sort = false →
      (getAllReviews sortThrows query total).outcome =
        Outcome.json 200 (getAllBooks query total).body) ∧
    (sortThrows (getAllReviews sortThrows query total).sort = true →
      (getAllReviews sortThrows query total).outcome =
        Outcome.next 500 "Server error fetching reviews") := by
  have hlimit : (getAllBooks query total).limit = limitOf query.limit := rfl
  have hpage : (getAllBooks query total).body.page = pageOf query.page := rfl
  have hskip : (getAllBooks query total).skip =
      ((pageOf query.page).sub (JsNumber.fin 1)).mul (JsNumber.fin (limitOf query.limit)) :=
    rfl
  have htotal : (getAllBooks query total).body.totalPages =
      mathCeilDiv total (limitOf query.limit) := rfl
  have hrange := limitOf_range query.limit
  rw [hlimit, hpage, hskip, htotal]
  refine ⟨hrange.1, hrange.2, rfl, ?_, ?_, ?_, pageOf_cases query.page, ?_, ?_, ?_,
    toNumber_small, toNumber_huge, rfl, ?_, ?_, rfl, ?_, rfl, rfl, ?_, ?_⟩
  · intro h
    unfold limitOf
    rcases h with h | h | ⟨l, h, hl⟩
    · rw [h]
    · rw [h]
    · rw [h]
      simp [hl]
  · intro h
    unfold limitOf
    rcases h with h | ⟨l, h, hl⟩
    · rw [h]
    · rw [h]
      have h1 : ¬ l < 1 := by omega
      simp [h1, hl]
  · intro l h h1 h2
    unfold limitOf
    rw [h]
    have h3 : ¬ l < 1 := by omega
    have h4 : ¬ l > 100 := by omega
    simp [h3, h4]
  · intro h
    unfold pageOf
    rcases h with h | h | ⟨p, h, hp⟩
    · rw [h]
    · rw [h]
    · rw [h]
      simp [hp]
  · intro p h hp
    unfold pageOf
    rw [h]
    have h1 : ¬ p < 1 := by omega
    simp [h1]
  · intro h
    unfold pageOf
    rw [h]
  · intro p h hpl
    rw [h]
    have hp : 1 ≤ p := by
      rcases pageOf_cases query.page with h1 | ⟨q, h1, hq⟩
      · rw [h] at h1
        cases h1
      · rw [h] at h1
        cases h1
        exact hq
    exact skip_exact p _ hp hrange.1 hpl
  · intro h
    rw [h]
    have hl : 0 < limitOf query.limit := by omega
    simp only [JsNumber.sub, JsNumber.mul, JsNumber.sign, Int.sign_eq_one_of_pos hl]
    decide
  · intro ht
    exact mathCeilDiv_exact total _ ht hrange.1 hrange.2
  · intro h
    simp only [getAllReviews] at h ⊢
    rw [if_neg (by simp [h])]
    rfl
  · intro h
    simp only [getAllReviews] at h ⊢
    rw [if_pos h]

theorem pagination_normalised_witness :
    parseQueryInt (QueryValue.text "-3") "1" = JsNumber.fin (-3) ∧
    (getAllBooks clampedQuery 45).body.page = JsNumber.fin 1 ∧
    (getAllBooks clampedQuery 45).limit = 100 ∧
    ∃ t : Int,
      (getAllBooks clampedQuery 45).body.totalPages = JsNumber.fin t ∧
      ((45 : Nat) : Int) ≤ t * (getAllBooks clampedQuery 45).limit ∧
      (t - 1) * (getAllBooks clampedQuery 45).limit < (45 : Nat) :=
  ⟨by decide,
   (pagination_normalised (fun _ => false) clampedQuery 45).2.2.2.2.2.2.2.1
     (Or.inr (Or.inr ⟨-3, by decide, by decide⟩)),
   (pagination_normalised (fun _ => false) clampedQuery 45).2.2.2.2.1
     (Or.inr ⟨5000, by decide, by decide⟩),
   (pagination_normalised (fun _ => false)
      clampedQuery 45).2.2.2.2.2.2.2.2.2.2.2.2.2.2.2.2.1 (by norm_num)⟩

theorem stripLeadingDash_cases (s : String) :
    s = stripLeadingDash s ∨ s = String.mk ('-' :: (stripLeadingDash s).toList) := by
  obtain ⟨data⟩ := s
  cases data with
  | nil => left; rfl
  | cons c rest =>
    by_cases hc : c = '-'
    · right
      subst hc
      simp [stripLeadingDash]
    · left
      simp [stripLeadingDash, hc]

/-- A non-empty string whose field, after one leading `-` is removed, is allowed is
one of the six sort options. -/
theorem allowed_sort_is_one_of_six (s : String)
    (h : allowedSortFields.contains (stripLeadingDash s) = true) :
    s ∈ ["createdAt", "-createdAt", "title", "-title", "author", "-author"] := by
  have hmem : stripLeadingDash s = "createdAt" ∨ stripLeadingDash s = "title" ∨
      stripLeadingDash s = "author" := by
    simpa [allowedSortFields] using h
  rcases stripLeadingDash_cases s with hs | hs
  · rcases hmem with hm | hm | hm <;> rw [hm] at hs <;> rw [hs] <;> decide
  · rcases hmem with hm | hm | hm <;> rw [hm] at hs <;> rw [hs] <;> decide

/-- C23: for every value of the `sort` parameter, a string, an array, an object or
absent, the sort option `getAllBooks` passes to the database is one of `createdAt`,
`-createdAt`, `title`, `-title`, `author`, `-author`; it is the supplied string when
that is one of the six, and `-createdAt` whenever the supplied value is not one of
them. -/
theorem book_sort_whitelist (query : ListQuery) (total : Nat) :
    (getAllBooks query total).sortOption ∈
      ["createdAt", "-createdAt", "title", "-title", "author", "-author"] ∧
    (∀ s, query.sort = QueryValue.text s →
      s ∈ ["createdAt", "-createdAt", "title", "-title", "author", "-author"] →
      (getAllBooks query total).sortOption = s) ∧
    ((∀ s, query.sort = QueryValue.text s →
        s ∉ ["createdAt", "-createdAt", "title", "-title", "author", "-author"]) →
      (getAllBooks query total).sortOption = "-createdAt") := by
  have hopt : (getAllBooks query total).sortOption = bookSortOption query.sort := rfl
  rw [hopt]
  have hdefault : "-createdAt" ∈
      ["createdAt", "-createdAt", "title", "-title", "author", "-author"] := by decide
  cases hsort : query.sort with
  | absent => exact ⟨by decide, (fun s h => by cases h), (fun _ => by decide)⟩
  | list items => exact ⟨hdefault, (fun s h => by cases h), (fun _ => rfl)⟩
  | object => exact ⟨hdefault, (fun s h => by cases h), (fun _ => rfl)⟩
  | text s =>
    have hval : bookSortOption (QueryValue.text s) =
        if (decide (s.length > 0) && allowedSortFields.contains (stripLeadingDash s)) = true
        then s else "-createdAt" := rfl
    refine ⟨?_, ?_, ?_⟩
    · rw [hval]
      split
      · rename_i hc
        simp only [Bool.and_eq_true] at hc
        exact allowed_sort_is_one_of_six s hc.2
      · exact hdefault
    · intro t ht hmem
      cases ht
      simp only [List.mem_cons, List.mem_singleton, List.not_mem_nil, or_false] at hmem
      rcases hmem with h | h | h | h | h | h <;> subst h <;> decide
    · intro hnot
      rw [hval]
      split
      · rename_i hc
        simp only [Bool.and_eq_true] at hc
        exact absurd (allowed_sort_is_one_of_six s hc.2) (hnot s rfl)
      · rfl

theorem book_sort_whitelist_witness :
    ("-title" : String) ∈ ["createdAt", "-createdAt", "title", "-title", "author", "-author"] ∧
    (getAllBooks { page := QueryValue.absent, limit := QueryValue.absent,
                   sort := QueryValue.text "-title" } 0).sortOption = "-title" :=
  ⟨by decide,
   (book_sort_whitelist { page := QueryValue.absent, limit := QueryValue.absent,
                          sort := QueryValue.text "-title" } 0).2.1 "-title" rfl (by decide)⟩

/-- C24 (the code at the failing input): `GET /api/reviews?sort=anything`.  The handler
`getAllReviews` passes the string `anything`, and likewise an object, to `.sort(...)`
as it is, where `getAllBooks` replaces it by `-createdAt`. -/
theorem review_sort_not_whitelisted (sortThrows : QueryValue → Bool) :
    (getAllReviews sortThrows { page := QueryValue.absent, limit := QueryValue.absent,
                                sort := QueryValue.text "anything" } 0).sort =
      QueryValue.text "anything" ∧
    (getAllReviews sortThrows { page := QueryValue.absent, limit := QueryValue.absent,
                                sort := QueryValue.object } 0).sort = QueryValue.object ∧
    (getAllBooks { page := QueryValue.absent, limit := QueryValue.absent,
                   sort := QueryValue.text "anything" } 0).sortOption = "-createdAt" :=
  ⟨rfl, rfl, by decide⟩

/-! ## Status of conflicts -/

/-- C25 (as stated, refuted): registering with the email of an existing user is passed
to the error handler with status 400, not 409, and so is a second review of the same
book by the same user. -/
theorem conflict_status_counterexample :
    annByEmail "ann@example.org" = Lookup.found ann ∧
    Controller.register envBothSet envBothSet 0 true "ann@example.org" annByEmail
        (Except.error "") =
      { cookies := [], outcome := Outcome.next 400 "Email already registered" } ∧
    (errorHandler { status := some 400, message := some "Email already registered" }).status =
      400 ∧
    createReview (RatingValue.ofInt 5)
        (Except.ok (some { id := 1, title := "Emma", createdBy := 7, coverImage := "" }))
        (Except.ok (some { id := 11, book := 1, user := 7, rating := 5, comment := "" }))
        (Except.error { code := none, message := "" }) =
      Outcome.next 400 "You have already reviewed this book" ∧
    (400 : Nat) ≠ 409 := by
  decide

/-- C25 (amended): registering with an email that already belongs to a user, and
creating a review for a book the same user has already reviewed, whether found by the
lookup or reported by a rejected database call with the duplicate-key code 11000, are
each reported with status 400, with the messages `Email already registered` and
`You have already reviewed this book`. -/
theorem conflict_status (loadEnv requestEnv : Env) (now : Nat) (email : String)
    (findOne : String → Lookup) (saveUser : Except String User) (existing : User)
    (rating : RatingValue) (findBook : Except DbError (Option Book))
    (findExisting : Except DbError (Option Review)) (save : Except DbError Review)
    (hrating : rating.falsy = false ∧ rating.belowOne = false ∧ rating.aboveFive = false) :
    (findOne email = Lookup.found existing →
      (Controller.register loadEnv requestEnv now true email findOne saveUser).outcome =
        Outcome.next 400 "Email already registered") ∧
    (∀ book review, findBook = Except.ok (some book) →
      findExisting = Except.ok (some review) →
      createReview rating findBook findExisting save =
        Outcome.next 400 "You have already reviewed this book") ∧
    (∀ book e, findBook = Except.ok (some book) → findExisting = Except.ok none →
      save = Except.error e → e.code = some 11000 →
      createReview rating findBook findExisting save =
        Outcome.next 400 "You have already reviewed this book") ∧
    (∀ message, (errorHandler { status := some 400, message := message }).status = 400) := by
  have hvalid : (rating.falsy || rating.belowOne || rating.aboveFive) = false := by
    simp [hrating.1, hrating.2.1, hrating.2.2]
  refine ⟨?_, ?_, ?_, ?_⟩
  · intro h
    simp [Controller.register, h]
  · intro book review hb he
    simp [createReview, hvalid, hb, he]
  · intro book e hb he hs hcode
    simp [createReview, hvalid, hb, he, hs, createReviewError, hcode]
  · intro message
    rfl

theorem conflict_status_witness :
    annByEmail "ann@example.org" = Lookup.found ann ∧
    (Controller.register envBothSet envBothSet 0 true "ann@example.org" annByEmail
      (Except.error "")).outcome = Outcome.next 400 "Email already registered" :=
  ⟨by decide,
   (conflict_status envBothSet envBothSet 0 "ann@example.org" annByEmail (Except.error "")
      ann (RatingValue.ofInt 5) (Except.ok none) (Except.ok none)
      (Except.error { code := none, message := "" }) (by decide)).1 (by decide)⟩

/-! ## Messages of the auth service -/

/-- C26 (the code at the failing input): `registerUser` is called with the name `A`.
The validator rejects it, no request is sent, and the call rejects with the message
`Network error. Please check your internet connection.` and the code `NETWORK_ERROR`,
not with `Name must be at least 2 characters long`: the error thrown by the validation
is caught by the `catch` of the same function, and `handleNetworkError` maps every
error without a response to the network error.  The same happens for a password of 5
characters and, in `loginUser`, for an email that does not match the pattern. -/
theorem validation_message_replaced :
    validateName (some "A") = false ∧
    (registerUser (some { name := some "A", email := some "ann@example.org",
                          password := some "secret1" }) rejectPost).requests = [] ∧
    (registerUser (some { name := some "A", email := some "ann@example.org",
                          password := some "secret1" }) rejectPost).result =
      Except.error
        { message := MessageValue.text "Network error. Please check your internet connection.",
          code := "NETWORK_ERROR" } ∧
    (registerUser (some { name := some "Ann", email := some "ann@example.org",
                          password := some "12345" }) rejectPost).result =
      Except.error
        { message := MessageValue.text "Network error. Please check your internet connection.",
          code := "NETWORK_ERROR" } ∧
    (loginUser (some { name := none, email := some "not-an-email",
                       password := some "secret1" }) rejectPost).requests = [] ∧
    (loginUser (some { name := none, email := some "not-an-email",
                       password := some "secret1" }) rejectPost).result =
      Except.error
        { message := MessageValue.text "Network error. Please check your internet connection.",
          code := "NETWORK_ERROR" } :=
  ⟨by decide, by decide, rfl, rfl, by decide, rfl⟩

/-- Whatever the validator that fails, the details thrown are those of a network
error. -/
theorem thrownBeforeRequest_result (message : String) :
    (thrownBeforeRequest message).requests = [] ∧
    (thrownBeforeRequest message).result =
      Except.error
        { message := MessageValue.text "Network error. Please check your internet connection.",
          code := "NETWORK_ERROR" } :=
  ⟨rfl, rfl⟩

/-- For every message, the details the auth service makes of a 400 response of the
server's error handler carry the object `{ message, status }`, not the message text. -/
theorem handleNetworkError_server_400 (message axiosMessage : String) :
    handleNetworkError
        ((errorHandler { status := some 400, message := some message }).caught axiosMessage) =
      { message := MessageValue.object (orText message "Internal Server Error") 400,
        code := "VALIDATION_ERROR" } := by
  simp [handleNetworkError, ErrorResponse.caught, errorHandler, parseErrorMessage, truthy,
    orDefaultText]

/-- C27 (the code at the failing input): `register` passes 400
`Email already registered` to the error handler, which responds with the body
`{ success: false, error: { message, status } }`.  `parseErrorMessage` finds no
`data.message` and returns `data.error`, the object, so the details the auth service
throws are `{ message: { message: 'Email already registered', status: 400 },
code: 'VALIDATION_ERROR' }`: the message is not the string. -/
theorem server_message_arrives_as_object :
    (Controller.register envBothSet envBothSet 0 true "ann@example.org" annByEmail
      (Except.error "")).outcome = Outcome.next 400 "Email already registered" ∧
    errorHandler { status := some 400, message := some "Email already registered" } =
      { status := 400, success := false,
        error := MessageValue.object "Email already registered" 400 } ∧
    handleNetworkError
        ((errorHandler { status := some 400,
                         message := some "Email already registered" }).caught
          "Request failed with status code 400") =
      { message := MessageValue.object "Email already registered" 400,
        code := "VALIDATION_ERROR" } ∧
    MessageValue.object "Email already registered" 400 ≠
      MessageValue.text "Email already registered" := by
  decide

/-! ## The bootstrap of the Auth Context -/

/-- C28 (as stated, refuted): the probe fails with 401 and the refresh succeeds, with
a token and without a user; the second probe fails.  One refresh call was made and it
succeeded, yet `refreshUser` ends anonymous.  And with no token but a `user` entry in
localStorage, `refreshUser` ends anonymous and the `user` entry is still there. -/
theorem refreshUser_counterexample :
    (getCurrentUser bootClient.storage probeUnauthorized).2 =
      Except.error { message := MessageValue.text "Invalid credentials",
                     code := "UNAUTHORIZED" } ∧
    (refreshToken nameOnly [] (ServiceRefreshReply.resolved true (some "new") none)).2 =
      Except.ok { accessToken := "new", user := none } ∧
    (AuthContext.refreshUser nameOnly bootClient probeUnauthorized
      (ServiceRefreshReply.resolved true (some "new") none) probeServerError).refreshCalls = 1 ∧
    (AuthContext.refreshUser nameOnly bootClient probeUnauthorized
      (ServiceRefreshReply.resolved true (some "new") none) probeServerError).client.state =
      { user := none, accessToken := none, loading := false } ∧
    (AuthContext.refreshUser nameOnly
      { state := { user := none, accessToken := none, loading := true },
        storage := [("user", "stale")], toasts := [] }
      probeUnauthorized ServiceRefreshReply.rejected probeServerError).client.state =
      { user := none, accessToken := none, loading := false } ∧
    getItem (AuthContext.refreshUser nameOnly
      { state := { user := none, accessToken := none, loading := true },
        storage := [("user", "stale")], toasts := [] }
      probeUnauthorized ServiceRefreshReply.rejected probeServerError).client.storage "user" =
      some "stale" :=
  ⟨rfl, rfl, by decide, by decide, by decide, by decide⟩

/-- The error thrown by the probe carries an object as its message and another code
than `UNAUTHORIZED`: the test of line 47 throws, `refreshUser` rejects, and the state
keeps its access token and localStorage its entries. -/
theorem refreshUser_throws_on_object_message :
    (AuthContext.refreshUser nameOnly bootClient probeNotFound
      ServiceRefreshReply.rejected probeServerError).threw = true ∧
    (AuthContext.refreshUser nameOnly bootClient probeNotFound
      ServiceRefreshReply.rejected probeServerError).client.state =
      { user := none, accessToken := some "old", loading := false } ∧
    (AuthContext.refreshUser nameOnly bootClient probeNotFound
      ServiceRefreshReply.rejected probeServerError).client.storage =
      [("accessToken", "old")] := by
  decide

/-- C28 (amended): `refreshUser` ends with `loading = false` and makes at most one
refresh call.  With no stored token it ends anonymous and leaves localStorage as it is.
Otherwise, unless the test of the probe's error throws, it ends either authenticated
(user and access token set) or anonymous (both null), and anonymous with localStorage
holding no `accessToken` and no `user`.  It ends authenticated with the user of the
probe and the stored token when the probe succeeds; when the probe fails with the code
`UNAUTHORIZED` or with a message text that includes `401` and the refresh returns a
token and a user, or a token only and the second probe succeeds, it ends authenticated
with these after one refresh call; when the probe fails otherwise, it makes no refresh
call and ends anonymous; when the refresh fails, and when the refresh returns a token
without a user and the second probe fails, it ends anonymous after one refresh call;
in each of these three cases localStorage holds no `accessToken` and no `user`.  The
test throws exactly when a token is stored, the probe fails with another code than
`UNAUTHORIZED` and the message of its error is an object. -/
theorem refreshUser_outcomes (stringify : UserView → String) (c : Client)
    (probe : ProbeReply) (refresh : ServiceRefreshReply) (probe2 : ProbeReply)
    (R : BootResult) (hR : R = AuthContext.refreshUser stringify c probe refresh probe2) :
    R.client.state.loading = false ∧ R.refreshCalls ≤ 1 ∧
    (truthy (getItem c.storage "accessToken") = false →
      R.client.state.user = none ∧ R.client.state.accessToken = none ∧
      R.client.storage = c.storage ∧ R.threw = false ∧ R.refreshCalls = 0) ∧
    (R.threw = false →
      ((∃ u t, R.client.state.user = some u ∧ R.client.state.accessToken = some t) ∨
       (R.client.state.user = none ∧ R.client.state.accessToken = none))) ∧
    (R.threw = false → truthy (getItem c.storage "accessToken") = true →
      R.client.state.user = none →
      getItem R.client.storage "accessToken" = none ∧
      getItem R.client.storage "user" = none) ∧
    (∀ u, truthy (getItem c.storage "accessToken") = true →
      probe = ProbeReply.resolved (some u) →
      R.client.state.user = some u ∧
      R.client.state.accessToken = getItem c.storage "accessToken" ∧ R.refreshCalls = 0) ∧
    (∀ e t u, truthy (getItem c.storage "accessToken") = true →
      (getCurrentUser c.storage probe).2 = Except.error e → isExpiredError e = some true →
      refresh = ServiceRefreshReply.resolved true (some t) (some u) → t ≠ "" →
      R.client.state.user = some u ∧ R.client.state.accessToken = some t ∧
      R.refreshCalls = 1) ∧
    (∀ e, truthy (getItem c.storage "accessToken") = true →
      (getCurrentUser c.storage probe).2 = Except.error e → isExpiredError e = some false →
      R.client.state.user = none ∧ R.client.state.accessToken = none ∧
      R.refreshCalls = 0) ∧
    (∀ e t u, truthy (getItem c.storage "accessToken") = true →
      (getCurrentUser c.storage probe).2 = Except.error e → isExpiredError e = some true →
      refresh = ServiceRefreshReply.resolved true (some t) none → t ≠ "" →
      probe2 = ProbeReply.resolved (some u) →
      R.client.state.user = some u ∧ R.client.state.accessToken = some t ∧
      R.refreshCalls = 1) ∧
    (R.threw = true ↔
      truthy (getItem c.storage "accessToken") = true ∧
      ∃ e, (getCurrentUser c.storage probe).2 = Except.error e ∧ isExpiredError e = none) ∧
    (∀ e message, truthy (getItem c.storage "accessToken") = true →
      (getCurrentUser c.storage probe).2 = Except.error e → isExpiredError e = some true →
      (refreshToken stringify (getCurrentUser c.storage probe).1 refresh).2 =
        Except.error message →
      R.client.state.user = none ∧ R.client.state.accessToken = none ∧
      getItem R.client.storage "accessToken" = none ∧
      getItem R.client.storage "user" = none ∧ R.refreshCalls = 1 ∧ R.threw = false) ∧
    (∀ e data e2, truthy (getItem c.storage "accessToken") = true →
      (getCurrentUser c.storage probe).2 = Except.error e → isExpiredError e = some true →
      (refreshToken stringify (getCurrentUser c.storage probe).1 refresh).2 =
        Except.ok data →
      data.user = none →
      (getCurrentUser
        (setItem (refreshToken stringify (getCurrentUser c.storage probe).1 refresh).1
          "accessToken" data.accessToken) probe2).2 = Except.error e2 →
      R.client.state.user = none ∧ R.client.state.accessToken = none ∧
      getItem R.client.storage "accessToken" = none ∧
      getItem R.client.storage "user" = none ∧ R.refreshCalls = 1 ∧ R.threw = false) ∧
    (∀ e, truthy (getItem c.storage "accessToken") = true →
      (getCurrentUser c.storage probe).2 = Except.error e → isExpiredError e = some false →
      getItem R.client.storage "accessToken" = none ∧
      getItem R.client.storage "user" = none ∧ R.threw = false) := by
  have hc1 := fun s => (getItem_clearAllAuthData s).1
  have hc2 := fun s => (getItem_clearAllAuthData s).2
  subst hR
  refine ⟨?_, ?_, ?_, ?_, ?_, ?_, ?_, ?_, ?_, ?_, ?_, ?_, ?_⟩
  · unfold AuthContext.refreshUser sessionExpired
    dsimp only
    repeat' split
    all_goals rfl
  · unfold AuthContext.refreshUser sessionExpired
    dsimp only
    repeat' split
    all_goals simp
  · intro h
    simp [AuthContext.refreshUser, h]
  · intro hthrew
    by_cases ht : truthy (getItem c.storage "accessToken") = true
    · obtain ⟨t, htok⟩ : ∃ t, getItem c.storage "accessToken" = some t := by
        cases hg : getItem c.storage "accessToken" with
        | none => rw [hg] at ht; simp [truthy] at ht
        | some t => exact ⟨t, rfl⟩
      unfold AuthContext.refreshUser sessionExpired at hthrew ⊢
      simp only [ht, Bool.not_true, Bool.false_eq_true, if_false] at hthrew ⊢
      repeat' split
      all_goals simp_all
    · simp [AuthContext.refreshUser, ht]
  · intro hthrew ht
    unfold AuthContext.refreshUser sessionExpired at hthrew ⊢
    simp only [ht, Bool.not_true, Bool.false_eq_true, if_false] at hthrew ⊢
    repeat' split
    all_goals simp_all
  · intro u ht hp
    subst hp
    simp [AuthContext.refreshUser, ht, getCurrentUser]
  · intro e t u ht he hexp href hne
    subst href
    have hne2 : (t != "") = true := by simpa using hne
    simp [AuthContext.refreshUser, ht, he, hexp, refreshToken, hne2]
  · intro e ht he hexp
    simp [AuthContext.refreshUser, ht, he, hexp]
  · intro e t u ht he hexp href hne hp2
    subst href
    subst hp2
    have hne2 : (t != "") = true := by simpa using hne
    have hp2 : ∀ s : Storage,
        getCurrentUser s (ProbeReply.resolved (some u)) = (s, Except.ok u) := fun _ => rfl
    simp [AuthContext.refreshUser, ht, he, hexp, refreshToken, hne2, hp2]
  · by_cases ht : truthy (getItem c.storage "accessToken") = true
    · cases he : (getCurrentUser c.storage probe).2 with
      | ok user => simp [AuthContext.refreshUser, ht, he]
      | error e =>
        cases hexp : isExpiredError e with
        | none => simp [AuthContext.refreshUser, ht, he, hexp]
        | some b =>
          cases b
          · simp [AuthContext.refreshUser, ht, he, hexp]
          · unfold AuthContext.refreshUser sessionExpired
            simp only [ht, Bool.not_true, Bool.false_eq_true, if_false, he, hexp]
            repeat' split
            all_goals simp [hexp]
    · simp [AuthContext.refreshUser, ht]
  · intro e message ht he hexp hr
    simp [AuthContext.refreshUser, sessionExpired, ht, he, hexp, hr, hc1, hc2]
  · intro e data e2 ht he hexp hr hu hp2
    simp [AuthContext.refreshUser, sessionExpired, ht, he, hexp, hr, hu, hp2, hc1, hc2]
  · intro e ht he hexp
    simp [AuthContext.refreshUser, ht, he, hexp, hc1, hc2]

theorem refreshUser_outcomes_witness :
    truthy (getItem bootClient.storage "accessToken") = true ∧
    (AuthContext.refreshUser nameOnly bootClient probeServerError
      ServiceRefreshReply.rejected probeServerError).threw = false ∧
    getItem (AuthContext.refreshUser nameOnly bootClient probeServerError
      ServiceRefreshReply.rejected probeServerError).client.storage "accessToken" = none :=
  ⟨by decide, by decide,
   ((refreshUser_outcomes nameOnly bootClient probeServerError ServiceRefreshReply.rejected
      probeServerError _ rfl).2.2.2.2.1 (by decide) (by decide) (by decide)).1⟩

/-! ## Deleting a book -/

theorem find_book_spec (db : Db) (bookId : Nat) (b : Book)
    (hb : db.books.find? (fun x => x.id == bookId) = some b) :
    b ∈ db.books ∧ b.id = bookId := by
  refine ⟨List.mem_of_find?_eq_some hb, ?_⟩
  have h := List.find?_some hb
  simpa using h

theorem deleteBook_authorized (db : Db) (users : Nat → Lookup) (bookId requesterId : Nat)
    (b : Book) (u : User)
    (hb : db.books.find? (fun x => x.id == bookId) = some b)
    (hu : users requesterId = Lookup.found u)
    (hauth : u.role = "admin" ∨ b.createdBy = requesterId) :
    deleteBook db users bookId requesterId none =
      ((deleteBookAndReviews db bookId).1,
       Outcome.json 200
         { success := true,
           message := "Book and all associated reviews deleted successfully",
           deletedReviewsCount := (reviewsOf db bookId).length }) := by
  have hguard : (!(u.role == "admin") && !(b.createdBy == requesterId)) = false := by
    rcases hauth with h | h
    · simp [h]
    · simp [h]
  simp [deleteBook, hb, hu, hguard, withTransaction, deleteBookAndReviews]

/-- C21: for a book that exists and a requester who is an admin or its creator,
`deleteBook` either succeeds (no database call rejects): it answers 200 with
`deletedReviewsCount` equal to the number of the book's reviews, no book with this id
and no review of it remain, and every other book and review is kept, in the same order,
with nothing added; or a database call rejects: the database is as before, the book and
its reviews included, and the handler answers 500. -/
theorem delete_book_all_or_nothing (db : Db) (users : Nat → Lookup)
    (bookId requesterId : Nat) (fault : Option DeleteStep) (b : Book) (u : User)
    (hb : db.books.find? (fun x => x.id == bookId) = some b)
    (hu : users requesterId = Lookup.found u)
    (hauth : u.role = "admin" ∨ b.createdBy = requesterId) :
    (fault = none →
      (deleteBook db users bookId requesterId fault).2 =
        Outcome.json 200
          { success := true,
            message := "Book and all associated reviews deleted successfully",
            deletedReviewsCount := (reviewsOf db bookId).length } ∧
      b ∉ (deleteBook db users bookId requesterId fault).1.books ∧
      (∀ x ∈ (deleteBook db users bookId requesterId fault).1.books, x.id ≠ bookId) ∧
      (∀ r ∈ (deleteBook db users bookId requesterId fault).1.reviews, r.book ≠ bookId) ∧
      (∀ x, x.id ≠ bookId →
        (x ∈ (deleteBook db users bookId requesterId fault).1.books ↔ x ∈ db.books)) ∧
      (∀ r, r.book ≠ bookId →
        (r ∈ (deleteBook db users bookId requesterId fault).1.reviews ↔ r ∈ db.reviews)) ∧
      List.Sublist (deleteBook db users bookId requesterId fault).1.books db.books ∧
      List.Sublist (deleteBook db users bookId requesterId fault).1.reviews db.reviews) ∧
    (fault ≠ none →
      (deleteBook db users bookId requesterId fault).1 = db ∧
      b ∈ (deleteBook db users bookId requesterId fault).1.books ∧
      reviewsOf (deleteBook db users bookId requesterId fault).1 bookId = reviewsOf db bookId ∧
      (deleteBook db users bookId requesterId fault).2 =
        Outcome.next 500 "Server error deleting book") := by
  have hspec := find_book_spec db bookId b hb
  constructor
  · intro hf
    subst hf
    rw [deleteBook_authorized db users bookId requesterId b u hb hu hauth]
    refine ⟨rfl, ?_, ?_, ?_, ?_, ?_, ?_, ?_⟩
    · simp [deleteBookAndReviews, hspec.2]
    · intro x hx
      simp [deleteBookAndReviews] at hx
      exact hx.2
    · intro r hr
      simp [deleteBookAndReviews] at hr
      exact hr.2
    · intro x hx
      simp [deleteBookAndReviews, hx]
    · intro r hr
      simp [deleteBookAndReviews, hr]
    · exact List.filter_sublist _
    · exact List.filter_sublist _
  · intro hf
    have hguard : (!(u.role == "admin") && !(b.createdBy == requesterId)) = false := by
      rcases hauth with h | h
      · simp [h]
      · simp [h]
    have hres : deleteBook db users bookId requesterId fault =
        (db, Outcome.next 500 "Server error deleting book") := by
      cases fault with
      | none => exact absurd rfl hf
      | some step =>
        cases step <;> simp [deleteBook, hb, hu, hguard, withTransaction]
    rw [hres]
    exact ⟨rfl, hspec.1, rfl, rfl⟩

theorem delete_book_all_or_nothing_witness :
    (deleteBook exampleDb annOnly 1 7 none).2 =
      Outcome.json 200
        { success := true,
          message := "Book and all associated reviews deleted successfully",
          deletedReviewsCount := 2 } ∧
    (deleteBook exampleDb annOnly 1 7 (some DeleteStep.deleteBook)).1 = exampleDb :=
  ⟨((delete_book_all_or_nothing exampleDb annOnly 1 7 none
      { id := 1, title := "Emma", createdBy := 7, coverImage := "" } ann
      rfl rfl (Or.inr rfl)).1 rfl).1,
   ((delete_book_all_or_nothing exampleDb annOnly 1 7 (some DeleteStep.deleteBook)
      { id := 1, title := "Emma", createdBy := 7, coverImage := "" } ann
      rfl rfl (Or.inr rfl)).2 (by decide)).1⟩

/-- C29: when the lookup of the book does not reject, `deleteBook` answers 404 for a
missing book and 401 for a missing requester record, the database unchanged; for an
existing book and requester record it deletes the book and its reviews when the role is
`admin` or the requester created the book (and no database call rejects), and otherwise
answers 403 with the database unchanged. -/
theorem delete_authorization (db : Db) (users : Nat → Lookup) (bookId requesterId : Nat)
    (fault : Option DeleteStep) (hfault : fault ≠ some DeleteStep.findBook) :
    (db.books.find? (fun x => x.id == bookId) = none →
      deleteBook db users bookId requesterId fault = (db, Outcome.next 404 "Book not found")) ∧
    (∀ b, db.books.find? (fun x => x.id == bookId) = some b →
      users requesterId = Lookup.missing →
      deleteBook db users bookId requesterId fault = (db, Outcome.next 401 "User not found")) ∧
    (∀ b u, db.books.find? (fun x => x.id == bookId) = some b →
      users requesterId = Lookup.found u →
      ((u.role = "admin" ∨ b.createdBy = requesterId) → fault = none →
        deleteBook db users bookId requesterId fault =
          ((deleteBookAndReviews db bookId).1,
           Outcome.json 200
             { success := true,
               message := "Book and all associated reviews deleted successfully",
               deletedReviewsCount := (reviewsOf db bookId).length }) ∧
        b ∈ db.books ∧ b ∉ (deleteBook db users bookId requesterId fault).1.books ∧
        reviewsOf (deleteBook db users bookId requesterId fault).1 bookId = []) ∧
      (¬ (u.role = "admin" ∨ b.createdBy = requesterId) →
        deleteBook db users bookId requesterId fault =
          (db, Outcome.next 403 "You are not authorized to delete this book"))) := by
  refine ⟨?_, ?_, ?_⟩
  · intro hb
    simp [deleteBook, hfault, hb]
  · intro b hb hu
    simp [deleteBook, hfault, hb, hu]
  · intro b u hb hu
    have hspec := find_book_spec db bookId b hb
    constructor
    · intro hauth hf
      subst hf
      rw [deleteBook_authorized db users bookId requesterId b u hb hu hauth]
      refine ⟨rfl, hspec.1, ?_, ?_⟩
      · simp [deleteBookAndReviews, hspec.2]
      · simp [deleteBookAndReviews, reviewsOf, List.filter_filter]
    · intro hno
      have hguard : (!(u.role == "admin") && !(b.createdBy == requesterId)) = true := by
        simp only [not_or] at hno
        simp [hno.1, hno.2]
      simp [deleteBook, hfault, hb, hu, hguard]

theorem delete_authorization_witness :
    deleteBook exampleDb annOnly 2 7 none =
      (exampleDb, Outcome.next 403 "You are not authorized to delete this book") :=
  ((delete_authorization exampleDb annOnly 2 7 none (by decide)).2.2
    { id := 2, title := "Ulysses", createdBy := 8, coverImage := "" } ann rfl rfl).2
    (by decide)

end BookReview
